import Mathlib

/-!
# Post-processing pipeline and camera of DirectX-PostProcessing

A shallow embedding of `Camera.h`, `Camera.cpp` and the frame orchestration of `Scene.cpp`.

* Floating point numbers are idealised as elements of a field `K` (exact arithmetic); the
  functions of `<cmath>` that are not field operations are supplied by a `CMath K` record.
* GPU views are pointers; they are modelled by their address (`Handle`), so that the pointer
  comparisons of `SwapPostProcessEffect` keep their meaning.
* The global variables of `Scene.cpp` that change while a frame is rendered are the fields of
  `SceneState`; the ones that are assigned once at start-up are the fields of `Globals`.
* `SceneState.trace` records, in program order, the main scene pass, every `Draw(4, 0)` of a
  post-process with the views and shaders bound at that moment, and every call of
  `SwapPostProcessEffect`. It is only written, never read, by the functions of the model; the
  statements about the order of the passes are statements about this record.
-/

set_option linter.unusedSectionVars false

namespace DirectXPostProcessing

/-! ## Vectors and matrices -/

/-- Class `CVector2` (CVector2.h): two float components. -/
structure CVector2 (K : Type) where
  x : K
  y : K
deriving DecidableEq, Repr

/-- Class `CVector3` as used by Camera.cpp and Scene.cpp: three float components. -/
structure CVector3 (K : Type) where
  x : K
  y : K
  z : K
deriving DecidableEq, Repr

/-- Class `CVector4` as used by `TransformVector4`: four float components. -/
structure CVector4 (K : Type) where
  x : K
  y : K
  z : K
  w : K
deriving DecidableEq, Repr

/-- Class `CMatrix4x4`: sixteen floats `eRC` (row R, column C), listed row by row as in the
brace initialiser of `Camera::UpdateMatrices`. -/
@[ext]
structure CMatrix4x4 (K : Type) where
  e00 : K
  e01 : K
  e02 : K
  e03 : K
  e10 : K
  e11 : K
  e12 : K
  e13 : K
  e20 : K
  e21 : K
  e22 : K
  e23 : K
  e30 : K
  e31 : K
  e32 : K
  e33 : K
deriving DecidableEq, Repr

/-- The functions of `<cmath>` and the constant `PI` of MathHelpers.h, which are not field
operations and are therefore parameters of the model. -/
structure CMath (K : Type) where
  cos : K → K
  sin : K → K
  tan : K → K
  PI : K

section Field

variable {K : Type} [Field K]

/-- Constructor `CVector4(const CVector3&, float)` used in `PolygonPostProcess`. -/
def CVector4.ofVector3 (v : CVector3 K) (w : K) : CVector4 K :=
  { x := v.x, y := v.y, z := v.z, w := w }

/-- Function `TransformVector4` (Scene.cpp): row vector times matrix. -/
def TransformVector4 (v : CVector4 K) (m : CMatrix4x4 K) : CVector4 K :=
  { x := v.x * m.e00 + v.y * m.e10 + v.z * m.e20 + v.w * m.e30
    y := v.x * m.e01 + v.y * m.e11 + v.z * m.e21 + v.w * m.e31
    z := v.x * m.e02 + v.y * m.e12 + v.z * m.e22 + v.w * m.e32
    w := v.x * m.e03 + v.y * m.e13 + v.z * m.e23 + v.w * m.e33 }

/-- Modelled from the spec: the identity matrix of CMatrix4x4 (not among the sources). -/
def MatrixIdentity : CMatrix4x4 K :=
  { e00 := 1, e01 := 0, e02 := 0, e03 := 0
    e10 := 0, e11 := 1, e12 := 0, e13 := 0
    e20 := 0, e21 := 0, e22 := 1, e23 := 0
    e30 := 0, e31 := 0, e32 := 0, e33 := 1 }

/-- Modelled from the spec: `operator*` of CMatrix4x4 (CMatrix4x4.cpp is not among the sources),
the matrix product in the row-vector convention of `TransformVector4`: row `i` of `a` against
column `j` of `b`. -/
def CMatrix4x4.mul (a b : CMatrix4x4 K) : CMatrix4x4 K :=
  { e00 := a.e00 * b.e00 + a.e01 * b.e10 + a.e02 * b.e20 + a.e03 * b.e30
    e01 := a.e00 * b.e01 + a.e01 * b.e11 + a.e02 * b.e21 + a.e03 * b.e31
    e02 := a.e00 * b.e02 + a.e01 * b.e12 + a.e02 * b.e22 + a.e03 * b.e32
    e03 := a.e00 * b.e03 + a.e01 * b.e13 + a.e02 * b.e23 + a.e03 * b.e33
    e10 := a.e10 * b.e00 + a.e11 * b.e10 + a.e12 * b.e20 + a.e13 * b.e30
    e11 := a.e10 * b.e01 + a.e11 * b.e11 + a.e12 * b.e21 + a.e13 * b.e31
    e12 := a.e10 * b.e02 + a.e11 * b.e12 + a.e12 * b.e22 + a.e13 * b.e32
    e13 := a.e10 * b.e03 + a.e11 * b.e13 + a.e12 * b.e23 + a.e13 * b.e33
    e20 := a.e20 * b.e00 + a.e21 * b.e10 + a.e22 * b.e20 + a.e23 * b.e30
    e21 := a.e20 * b.e01 + a.e21 * b.e11 + a.e22 * b.e21 + a.e23 * b.e31
    e22 := a.e20 * b.e02 + a.e21 * b.e12 + a.e22 * b.e22 + a.e23 * b.e32
    e23 := a.e20 * b.e03 + a.e21 * b.e13 + a.e22 * b.e23 + a.e23 * b.e33
    e30 := a.e30 * b.e00 + a.e31 * b.e10 + a.e32 * b.e20 + a.e33 * b.e30
    e31 := a.e30 * b.e01 + a.e31 * b.e11 + a.e32 * b.e21 + a.e33 * b.e31
    e32 := a.e30 * b.e02 + a.e31 * b.e12 + a.e32 * b.e22 + a.e33 * b.e32
    e33 := a.e30 * b.e03 + a.e31 * b.e13 + a.e32 * b.e23 + a.e33 * b.e33 }

instance : Mul (CMatrix4x4 K) := ⟨CMatrix4x4.mul⟩

instance : One (CMatrix4x4 K) := ⟨MatrixIdentity⟩

/-- Modelled from the spec: `MatrixRotationX` of CMatrix4x4 (not among the sources), the rotation
about the X axis in the row-vector convention. -/
def MatrixRotationX (m : CMath K) (a : K) : CMatrix4x4 K :=
  { e00 := 1, e01 := 0,        e02 := 0,       e03 := 0
    e10 := 0, e11 := m.cos a,  e12 := m.sin a, e13 := 0
    e20 := 0, e21 := -m.sin a, e22 := m.cos a, e23 := 0
    e30 := 0, e31 := 0,        e32 := 0,       e33 := 1 }

/-- Modelled from the spec: `MatrixRotationY` of CMatrix4x4 (not among the sources), the rotation
about the Y axis in the row-vector convention. -/
def MatrixRotationY (m : CMath K) (a : K) : CMatrix4x4 K :=
  { e00 := m.cos a, e01 := 0, e02 := -m.sin a, e03 := 0
    e10 := 0,       e11 := 1, e12 := 0,        e13 := 0
    e20 := m.sin a, e21 := 0, e22 := m.cos a,  e23 := 0
    e30 := 0,       e31 := 0, e32 := 0,        e33 := 1 }

/-- Modelled from the spec: `MatrixRotationZ` of CMatrix4x4 (not among the sources), the rotation
about the Z axis in the row-vector convention. -/
def MatrixRotationZ (m : CMath K) (a : K) : CMatrix4x4 K :=
  { e00 := m.cos a,  e01 := m.sin a, e02 := 0, e03 := 0
    e10 := -m.sin a, e11 := m.cos a, e12 := 0, e13 := 0
    e20 := 0,        e21 := 0,       e22 := 1, e23 := 0
    e30 := 0,        e31 := 0,       e32 := 0, e33 := 1 }

/-- Modelled from the spec: `MatrixTranslation` of CMatrix4x4 (not among the sources); the
translation is the fourth row, the row `TransformVector4` multiplies by `v.w`. -/
def MatrixTranslation (t : CVector3 K) : CMatrix4x4 K :=
  { e00 := 1,   e01 := 0,   e02 := 0,   e03 := 0
    e10 := 0,   e11 := 1,   e12 := 0,   e13 := 0
    e20 := 0,   e21 := 0,   e22 := 1,   e23 := 0
    e30 := t.x, e31 := t.y, e32 := t.z, e33 := 1 }

/-- Modelled from the spec: `MatrixScaling` of CMatrix4x4 (not among the sources). -/
def MatrixScaling (s : CVector3 K) : CMatrix4x4 K :=
  { e00 := s.x, e01 := 0,   e02 := 0,   e03 := 0
    e10 := 0,   e11 := s.y, e12 := 0,   e13 := 0
    e20 := 0,   e21 := 0,   e22 := s.z, e23 := 0
    e30 := 0,   e31 := 0,   e32 := 0,   e33 := 1 }

/-- Modelled from the spec: `InverseAffine` of CMatrix4x4 (not among the sources). The spec
describes it as the transpose of the rotation block combined with the negated, rotated
translation. -/
def InverseAffine (m : CMatrix4x4 K) : CMatrix4x4 K :=
  { e00 := m.e00, e01 := m.e10, e02 := m.e20, e03 := 0
    e10 := m.e01, e11 := m.e11, e12 := m.e21, e13 := 0
    e20 := m.e02, e21 := m.e12, e22 := m.e22, e23 := 0
    e30 := -(m.e30 * m.e00 + m.e31 * m.e01 + m.e32 * m.e02)
    e31 := -(m.e30 * m.e10 + m.e31 * m.e11 + m.e32 * m.e12)
    e32 := -(m.e30 * m.e20 + m.e31 * m.e21 + m.e32 * m.e22)
    e33 := 1 }

/-- Modelled from the spec: `ToRadians` of MathHelpers.h (not among the sources). -/
def ToRadians (m : CMath K) (degrees : K) : K := degrees * m.PI / 180

/-! ## Camera -/

/-- Class `Camera` (Camera.h): the private members, the four matrices included. -/
structure Camera (K : Type) where
  mPosition : CVector3 K
  mRotation : CVector3 K
  mFOVx : K
  mAspectRatio : K
  mNearClip : K
  mFarClip : K
  mWorldMatrix : CMatrix4x4 K
  mViewMatrix : CMatrix4x4 K
  mProjectionMatrix : CMatrix4x4 K
  mViewProjectionMatrix : CMatrix4x4 K

/-- Method `Camera::UpdateMatrices` (Camera.cpp). -/
def Camera.UpdateMatrices (m : CMath K) (c : Camera K) : Camera K :=
  let mWorldMatrix := MatrixRotationZ m c.mRotation.z * MatrixRotationX m c.mRotation.x
    * MatrixRotationY m c.mRotation.y * MatrixTranslation c.mPosition
  let mViewMatrix := InverseAffine mWorldMatrix
  let tanFOVx := m.tan (c.mFOVx * (1 / 2))
  let scaleX := 1 / tanFOVx
  let scaleY := c.mAspectRatio / tanFOVx
  let scaleZa := c.mFarClip / (c.mFarClip - c.mNearClip)
  let scaleZb := -c.mNearClip * scaleZa
  let mProjectionMatrix : CMatrix4x4 K :=
    { e00 := scaleX, e01 := 0,      e02 := 0,       e03 := 0
      e10 := 0,      e11 := scaleY, e12 := 0,       e13 := 0
      e20 := 0,      e21 := 0,      e22 := scaleZa, e23 := 1
      e30 := 0,      e31 := 0,      e32 := scaleZb, e33 := 0 }
  { c with
    mWorldMatrix := mWorldMatrix
    mViewMatrix := mViewMatrix
    mProjectionMatrix := mProjectionMatrix
    mViewProjectionMatrix := mViewMatrix * mProjectionMatrix }

/-- Accessor `Camera::WorldMatrix` (Camera.h): the value returned. The camera it leaves behind
is `UpdateMatrices m c`. -/
def Camera.WorldMatrix (m : CMath K) (c : Camera K) : CMatrix4x4 K :=
  (c.UpdateMatrices m).mWorldMatrix

/-- Accessor `Camera::ViewMatrix` (Camera.h): the value returned. -/
def Camera.ViewMatrix (m : CMath K) (c : Camera K) : CMatrix4x4 K :=
  (c.UpdateMatrices m).mViewMatrix

/-- Accessor `Camera::ProjectionMatrix` (Camera.h): the value returned. -/
def Camera.ProjectionMatrix (m : CMath K) (c : Camera K) : CMatrix4x4 K :=
  (c.UpdateMatrices m).mProjectionMatrix

/-- Accessor `Camera::ViewProjectionMatrix` (Camera.h): the value returned. -/
def Camera.ViewProjectionMatrix (m : CMath K) (c : Camera K) : CMatrix4x4 K :=
  (c.UpdateMatrices m).mViewProjectionMatrix


/-- A matrix without translation and with last column `(0, 0, 0, 1)`: what the three rotation
matrices are. -/
def CMatrix4x4.IsLinear (a : CMatrix4x4 K) : Prop :=
  a.e03 = 0 ∧ a.e13 = 0 ∧ a.e23 = 0 ∧ a.e30 = 0 ∧ a.e31 = 0 ∧ a.e32 = 0 ∧ a.e33 = 1

/-- Constants `ROTATION_SPEED` and `MOVEMENT_SPEED` (Scene.cpp): 1.5 and 50. -/
def ROTATION_SPEED : K := 3 / 2

/-- Constant `MOVEMENT_SPEED` (Scene.cpp). -/
def MOVEMENT_SPEED : K := 50

end Field

/-- Key codes of Input.h that Scene.cpp and Camera.cpp name. -/
inductive KeyCode
  | Key_0 | Key_1 | Key_2 | Key_3 | Key_4 | Key_5
  | Key_Up | Key_Down | Key_Left | Key_Right
  | Key_W | Key_S | Key_A | Key_D
  | Key_L | Key_P
deriving DecidableEq, Repr

section Control

variable {K : Type} [Field K]

/-- Method `Camera::Control` (Camera.cpp). `KeyHeld` is the keyboard state read through the
function of that name in Input.h. The eight key parameters are those of the source. -/
def Camera.Control (KeyHeld : KeyCode → Bool) (frameTime : K)
    (turnUp turnDown turnLeft turnRight moveForward moveBackward moveLeft moveRight : KeyCode)
    (c : Camera K) : Camera K :=
  let _unused := (turnUp, turnDown, turnLeft, turnRight, moveForward, moveBackward, moveLeft,
    moveRight)
  let c := if KeyHeld .Key_Down then
      { c with mRotation := { c.mRotation with x := c.mRotation.x + ROTATION_SPEED * frameTime } }
    else c
  let c := if KeyHeld .Key_Up then
      { c with mRotation := { c.mRotation with x := c.mRotation.x - ROTATION_SPEED * frameTime } }
    else c
  let c := if KeyHeld .Key_Right then
      { c with mRotation := { c.mRotation with y := c.mRotation.y + ROTATION_SPEED * frameTime } }
    else c
  let c := if KeyHeld .Key_Left then
      { c with mRotation := { c.mRotation with y := c.mRotation.y - ROTATION_SPEED * frameTime } }
    else c
  let c := if KeyHeld .Key_D then
      { c with mPosition :=
          { x := c.mPosition.x + MOVEMENT_SPEED * frameTime * c.mWorldMatrix.e00
            y := c.mPosition.y + MOVEMENT_SPEED * frameTime * c.mWorldMatrix.e01
            z := c.mPosition.z + MOVEMENT_SPEED * frameTime * c.mWorldMatrix.e02 } }
    else c
  let c := if KeyHeld .Key_A then
      { c with mPosition :=
          { x := c.mPosition.x - MOVEMENT_SPEED * frameTime * c.mWorldMatrix.e00
            y := c.mPosition.y - MOVEMENT_SPEED * frameTime * c.mWorldMatrix.e01
            z := c.mPosition.z - MOVEMENT_SPEED * frameTime * c.mWorldMatrix.e02 } }
    else c
  let c := if KeyHeld .Key_W then
      { c with mPosition :=
          { x := c.mPosition.x + MOVEMENT_SPEED * frameTime * c.mWorldMatrix.e20
            y := c.mPosition.y + MOVEMENT_SPEED * frameTime * c.mWorldMatrix.e21
            z := c.mPosition.z + MOVEMENT_SPEED * frameTime * c.mWorldMatrix.e22 } }
    else c
  let c := if KeyHeld .Key_S then
      { c with mPosition :=
          { x := c.mPosition.x - MOVEMENT_SPEED * frameTime * c.mWorldMatrix.e20
            y := c.mPosition.y - MOVEMENT_SPEED * frameTime * c.mWorldMatrix.e21
            z := c.mPosition.z - MOVEMENT_SPEED * frameTime * c.mWorldMatrix.e22 } }
    else c
  c

end Control

/-! ## Scene data (Scene.cpp) -/

/-- Enumeration `PostProcess` (Scene.cpp). -/
inductive PostProcess
  | None
  | VColourGradient
  | HLSGradient
  | FullScreenBlur
  | GaussianBlur
  | UnderWater
  | Retro
  | Bloom
  | Burn
  | Distort
  | GreyNoise
  | Spiral
  | Tint
deriving DecidableEq, Repr

/-- A pointer to a GPU view, modelled by its address. -/
abbrev Handle := Nat

/-- The null pointer. -/
def nullptr : Handle := 0

/-- The pixel shaders of Shader.h that Scene.cpp binds, by the name of the global pointer. -/
inductive PixelShader
  | gPixelLightingPixelShader
  | gTintedTexturePixelShader
  | gCopyPixelShader
  | gTintPostProcess
  | gGreyNoisePostProcess
  | gBurnPostProcess
  | gDistortPostProcess
  | gSpiralPostProcess
  | gVColourGradientPostProcess
  | gHLSGradientPostProcess
  | gFullScreenBlurPostProcess
  | gUnderWaterPostProcess
  | gRetroPostProcess
  | gGaussianBlurPostProcess
  | gBloomPostProcess
deriving DecidableEq, Repr

/-- The vertex shaders of Shader.h that Scene.cpp binds, by the name of the global pointer. -/
inductive VertexShader
  | gPixelLightingVertexShader
  | gBasicTransformVertexShader
  | gFullScreenQuadVertexShader
  | g2DPolygonVertexShader
deriving DecidableEq, Repr

/-- The globals that are assigned once, by the start-up code and `InitGeometry`, and only read
while a frame is rendered. The two scene textures each have a render-target view and a
shader-resource view. -/
structure Globals where
  gSceneRenderTarget1 : Handle
  gSceneTextureSRV1 : Handle
  gSceneRenderTarget2 : Handle
  gSceneTextureSRV2 : Handle
  gBackBufferRenderTarget : Handle
  gLightDiffuseMapSRV : Handle
  gViewportWidth : Int
  gViewportHeight : Int
deriving DecidableEq, Repr

/-- Structure `PostProcessingConstants` of Common.h: the members Scene.cpp assigns. -/
structure PostProcessingConstants (K : Type) where
  area2DTopLeft : CVector2 K
  area2DSize : CVector2 K
  area2DDepth : K
  polygon2DPoints : Fin 4 → CVector4 K
  tintColour : CVector3 K
  noiseScale : CVector2 K
  noiseOffset : CVector2 K
  burnHeight : K
  distortLevel : K
  spiralLevel : K
  hueShift : K
  underWaterLevel : K

/-- The part of the device context `gD3DContext` that decides what a draw reads and writes:
the render target, the texture in pixel-shader slot 0 and the two shaders. -/
structure D3DContext where
  renderTarget : Handle
  shaderResource : Handle
  vertexShader : VertexShader
  pixelShader : PixelShader
deriving DecidableEq, Repr

/-- What one `Draw(4, 0)` of a post-process runs with: the bound views and shaders, the
contents of the post-processing constant buffer, and the value `gCurrentPostProcess` has when
the draw is issued. -/
structure DrawCall (K : Type) where
  renderTarget : Handle
  shaderResource : Handle
  vertexShader : VertexShader
  pixelShader : PixelShader
  effect : PostProcess
  constants : PostProcessingConstants K

/-- The calls a frame issues, in program order: the main scene rendering with its render target,
the quad draws of the post-processes, and the calls of `SwapPostProcessEffect`. -/
inductive Event (K : Type)
  | scene (renderTarget : Handle)
  | draw (d : DrawCall K)
  | swap

/-- The mutable globals of Scene.cpp, the function-local statics of `PostProcessing` and
`PolygonPostProcess`, the values `Random` will return, the device context and the record of the
calls issued so far. -/
structure SceneState (K : Type) where
  gCurrentPostProcess : PostProcess
  gCamera : Camera K
  gPostProcessingConstants : PostProcessingConstants K
  postProcessEffectList : List PostProcess
  gCurrentTarget : Handle
  gCurrentSRV : Handle
  spiralWiggle : K
  hueWiggle : K
  waterWiggle : K
  polygonSpiralWiggle : K
  polygonHueWiggle : K
  polygonWaterWiggle : K
  randomValues : Nat → K
  randomCalls : Nat
  context : D3DContext
  trace : List (Event K)

section Scene

variable {K : Type} [LinearOrderedField K] [FloorRing K]

/-- Function `fmod` of `<cmath>` in exact arithmetic: `x` minus `y` times the quotient `x / y`
truncated towards zero. -/
def fmod (x y : K) : K :=
  x - y * (if 0 ≤ x / y then ((⌊x / y⌋ : Int) : K) else ((⌈x / y⌉ : Int) : K))

/-- Array `PolygonPoints` (Scene.cpp): the square window opening. -/
def PolygonPoints : Fin 4 → CVector3 K :=
  ![{ x := -1, y := 1, z := 0 }, { x := 1, y := 1, z := 0 },
    { x := -1, y := -1, z := 0 }, { x := 1, y := -1, z := 0 }]

/-- Global `SquareWindowPolygonMatrix` (Scene.cpp). -/
def SquareWindowPolygonMatrix : CMatrix4x4 K :=
  MatrixScaling (CVector3.mk 5 5 5) * MatrixTranslation (CVector3.mk 0 10 (-50))

/-- Global `SpadeWindowPolygonMatrix` (Scene.cpp). -/
def SpadeWindowPolygonMatrix (m : CMath K) : CMatrix4x4 K :=
  MatrixScaling (CVector3.mk 5 5 5) * MatrixRotationY m (ToRadians m 90)
    * MatrixTranslation (CVector3.mk (-60) 10 18)

/-- Global `DiamondWindowPolygonMatrix` (Scene.cpp). -/
def DiamondWindowPolygonMatrix (m : CMath K) : CMatrix4x4 K :=
  MatrixScaling (CVector3.mk 5 5 5) * MatrixRotationY m (ToRadians m 90)
    * MatrixTranslation (CVector3.mk (-60) 10 5)

/-- Global `ClubWindowPolygonMatrix` (Scene.cpp). -/
def ClubWindowPolygonMatrix (m : CMath K) : CMatrix4x4 K :=
  MatrixScaling (CVector3.mk 5 5 5) * MatrixRotationY m (ToRadians m 90)
    * MatrixTranslation (CVector3.mk (-60) 10 (-6))

/-- Global `HeartWindowPolygonMatrix` (Scene.cpp). -/
def HeartWindowPolygonMatrix (m : CMath K) : CMatrix4x4 K :=
  MatrixScaling (CVector3.mk 5 5 5) * MatrixRotationY m (ToRadians m 90)
    * MatrixTranslation (CVector3.mk (-60) 10 (-19))

/-- Function `UpdatePostProcessEffectsList` (Scene.cpp). -/
def UpdatePostProcessEffectsList (postProcessEffectType : PostProcess) (s : SceneState K) :
    SceneState K :=
  if postProcessEffectType ≠ PostProcess.None then
    { s with postProcessEffectList := s.postProcessEffectList ++ [postProcessEffectType] }
  else s

/-- Function `ResetPostProcessEffectsList` (Scene.cpp). -/
def ResetPostProcessEffectsList (s : SceneState K) : SceneState K :=
  { s with postProcessEffectList := [] }

/-- Function `SwapPostProcessEffect` (Scene.cpp); the call is also entered in the trace. -/
def SwapPostProcessEffect (g : Globals) (s : SceneState K) : SceneState K :=
  let s :=
    if s.gCurrentTarget = g.gSceneRenderTarget1 then
      { s with gCurrentTarget := g.gSceneRenderTarget2 }
    else if s.gCurrentTarget = g.gSceneRenderTarget2 then
      { s with gCurrentTarget := g.gSceneRenderTarget1 }
    else s
  let s :=
    if s.gCurrentSRV = g.gSceneTextureSRV1 then
      { s with gCurrentSRV := g.gSceneTextureSRV2 }
    else if s.gCurrentSRV = g.gSceneTextureSRV2 then
      { s with gCurrentSRV := g.gSceneTextureSRV1 }
    else s
  { s with trace := s.trace ++ [Event.swap] }

/-! ### Device context calls -/

/-- Call `gD3DContext->OMSetRenderTargets(1, &rtv, gDepthStencil)`. -/
def SceneState.OMSetRenderTargets (rtv : Handle) (s : SceneState K) : SceneState K :=
  { s with context := { s.context with renderTarget := rtv } }

/-- Call `gD3DContext->PSSetShaderResources(0, 1, &srv)`. -/
def SceneState.PSSetShaderResources (srv : Handle) (s : SceneState K) : SceneState K :=
  { s with context := { s.context with shaderResource := srv } }

/-- Call `gD3DContext->VSSetShader(vs, nullptr, 0)`. -/
def SceneState.VSSetShader (vs : VertexShader) (s : SceneState K) : SceneState K :=
  { s with context := { s.context with vertexShader := vs } }

/-- Call `gD3DContext->PSSetShader(ps, nullptr, 0)`. -/
def SceneState.PSSetShader (ps : PixelShader) (s : SceneState K) : SceneState K :=
  { s with context := { s.context with pixelShader := ps } }

/-- Calls `UpdateConstantBuffer(gPostProcessingConstantBuffer, gPostProcessingConstants)` and
`gD3DContext->Draw(4, 0)`: the draw runs with the current bindings and constants. -/
def SceneState.Draw (s : SceneState K) : SceneState K :=
  { s with trace := s.trace ++ [Event.draw
      { renderTarget := s.context.renderTarget
        shaderResource := s.context.shaderResource
        vertexShader := s.context.vertexShader
        pixelShader := s.context.pixelShader
        effect := s.gCurrentPostProcess
        constants := s.gPostProcessingConstants }] }

/-- Assignment to members of `gPostProcessingConstants`. -/
def SceneState.setConstants (f : PostProcessingConstants K → PostProcessingConstants K)
    (s : SceneState K) : SceneState K :=
  { s with gPostProcessingConstants := f s.gPostProcessingConstants }

/-- The three assignments `area2DTopLeft = { 0, 0 }`, `area2DSize = { 1, 1 }`,
`area2DDepth = 0` made by both post-processing functions. -/
def SceneState.setFullScreenArea (s : SceneState K) : SceneState K :=
  s.setConstants fun c =>
    { c with area2DTopLeft := { x := 0, y := 0 }, area2DSize := { x := 1, y := 1 },
             area2DDepth := 0 }

/-- Two calls of `Random(0.0f, 1.0f)` (MathHelpers.h) in a braced initialiser: the next two
values of the random sequence, in order. -/
def SceneState.randomOffset (s : SceneState K) : SceneState K :=
  { s.setConstants (fun c =>
      { c with noiseOffset :=
          { x := s.randomValues s.randomCalls, y := s.randomValues (s.randomCalls + 1) } }) with
    randomCalls := s.randomCalls + 2 }

/-! ### The post-processing passes -/

/-- Function `PostProcessing` (Scene.cpp): one full-screen pass of the effect
`gCurrentPostProcess` into `RenderTarget`, reading `NextSRV`. Sampler, blend, depth and cull
states and the textures of slot 1 are not part of the model. -/
def PostProcessing (g : Globals) (m : CMath K) (RenderTarget NextSRV : Handle) (frameTime : K)
    (s : SceneState K) : SceneState K :=
  let s := s.OMSetRenderTargets RenderTarget
  let s := s.PSSetShaderResources NextSRV
  let s := s.VSSetShader VertexShader.gFullScreenQuadVertexShader
  let s :=
    match s.gCurrentPostProcess with
    | PostProcess.None => s.PSSetShader PixelShader.gCopyPixelShader
    | PostProcess.Tint =>
      let s := s.PSSetShader PixelShader.gTintPostProcess
      s.setConstants fun c => { c with tintColour := CVector3.mk 1 0 0 }
    | PostProcess.GreyNoise =>
      let s := s.PSSetShader PixelShader.gGreyNoisePostProcess
      let grainSize : K := 50
      let s := s.setConstants fun c =>
        { c with noiseScale := CVector2.mk ((g.gViewportWidth : K) / grainSize)
                                           ((g.gViewportHeight : K) / grainSize) }
      s.randomOffset
    | PostProcess.Burn =>
      let s := s.PSSetShader PixelShader.gBurnPostProcess
      let burnSpeed : K := 2 / 10
      s.setConstants fun c => { c with burnHeight := fmod (c.burnHeight + burnSpeed * frameTime) 1 }
    | PostProcess.Distort =>
      let s := s.PSSetShader PixelShader.gDistortPostProcess
      s.setConstants fun c => { c with distortLevel := 3 / 100 }
    | PostProcess.Spiral =>
      let s := s.PSSetShader PixelShader.gSpiralPostProcess
      let wiggleSpeed : K := 1
      let s := s.setConstants fun c => { c with spiralLevel := (1 - m.cos s.spiralWiggle) * 4 }
      { s with spiralWiggle := s.spiralWiggle + wiggleSpeed * frameTime }
    | PostProcess.VColourGradient => s.PSSetShader PixelShader.gVColourGradientPostProcess
    | PostProcess.HLSGradient =>
      let s := s.PSSetShader PixelShader.gHLSGradientPostProcess
      let wiggleSpeed : K := 1 / 2
      let s := s.setConstants fun c => { c with hueShift := s.hueWiggle }
      { s with hueWiggle := s.hueWiggle + wiggleSpeed * frameTime }
    | PostProcess.FullScreenBlur => s.PSSetShader PixelShader.gFullScreenBlurPostProcess
    | PostProcess.UnderWater =>
      let s := s.PSSetShader PixelShader.gUnderWaterPostProcess
      let waterWiggleSpeed : K := 1 / 2
      let s := s.setConstants fun c => { c with underWaterLevel := s.waterWiggle }
      { s with waterWiggle := s.waterWiggle + waterWiggleSpeed * frameTime }
    | PostProcess.Retro => s.PSSetShader PixelShader.gRetroPostProcess
    | PostProcess.GaussianBlur => s.PSSetShader PixelShader.gGaussianBlurPostProcess
    | PostProcess.Bloom => s.PSSetShader PixelShader.gBloomPostProcess
  let s := s.setFullScreenArea
  let s := s.Draw
  s.PSSetShaderResources nullptr

/-- One iteration of the loop over the polygon points in `PolygonPostProcess`; the call of
`gCamera->ViewProjectionMatrix()` updates the matrices of the camera. -/
def PolygonPostProcess.transformPoint (m : CMath K) (points : Fin 4 → CVector3 K)
    (worldMatrix : CMatrix4x4 K) (s : SceneState K) (i : Fin 4) : SceneState K :=
  let modelPosition := CVector4.ofVector3 (points i) 1
  let worldPosition := TransformVector4 modelPosition worldMatrix
  let s := { s with gCamera := s.gCamera.UpdateMatrices m }
  let viewportPosition := TransformVector4 worldPosition s.gCamera.mViewProjectionMatrix
  s.setConstants fun c =>
    { c with polygon2DPoints := Function.update c.polygon2DPoints i viewportPosition }

/-- Function `PolygonPostProcess` (Scene.cpp): one pass within the polygon `points` placed by
`worldMatrix`, into `gCurrentTarget`, reading `gCurrentSRV`. The shader `postProcess` is bound
first; the chain of tests on `gCurrentPostProcess` that follows has no branch for `None`. -/
def PolygonPostProcess (g : Globals) (m : CMath K) (postProcess : PixelShader)
    (points : Fin 4 → CVector3 K) (worldMatrix : CMatrix4x4 K) (frameTime : K)
    (s : SceneState K) : SceneState K :=
  let s := s.OMSetRenderTargets s.gCurrentTarget
  let s := s.PSSetShaderResources s.gCurrentSRV
  let s := s.VSSetShader VertexShader.g2DPolygonVertexShader
  let s := s.setFullScreenArea
  let s := s.PSSetShader postProcess
  let s :=
    match s.gCurrentPostProcess with
    | PostProcess.None => s
    | PostProcess.Tint =>
      let s := s.PSSetShader PixelShader.gTintPostProcess
      s.setConstants fun c => { c with tintColour := CVector3.mk 1 0 0 }
    | PostProcess.GreyNoise =>
      let s := s.PSSetShader PixelShader.gGreyNoisePostProcess
      let grainSize : K := 50
      let s := s.setConstants fun c =>
        { c with noiseScale := CVector2.mk ((g.gViewportWidth : K) / grainSize)
                                           ((g.gViewportHeight : K) / grainSize) }
      s.randomOffset
    | PostProcess.Burn =>
      let s := s.PSSetShader PixelShader.gBurnPostProcess
      let burnSpeed : K := 2 / 10
      s.setConstants fun c => { c with burnHeight := fmod (c.burnHeight + burnSpeed * frameTime) 1 }
    | PostProcess.Distort =>
      let s := s.PSSetShader PixelShader.gDistortPostProcess
      s.setConstants fun c => { c with distortLevel := 3 / 100 }
    | PostProcess.Spiral =>
      let s := s.PSSetShader PixelShader.gSpiralPostProcess
      let wiggleSpeed : K := 1
      let s := s.setConstants fun c =>
        { c with spiralLevel := (1 - m.cos s.polygonSpiralWiggle) * 4 }
      { s with polygonSpiralWiggle := s.polygonSpiralWiggle + wiggleSpeed * frameTime }
    | PostProcess.VColourGradient => s.PSSetShader PixelShader.gVColourGradientPostProcess
    | PostProcess.HLSGradient =>
      let s := s.PSSetShader PixelShader.gHLSGradientPostProcess
      let wiggleSpeed : K := 1 / 2
      let s := s.setConstants fun c => { c with hueShift := s.polygonHueWiggle }
      { s with polygonHueWiggle := s.polygonHueWiggle + wiggleSpeed * frameTime }
    | PostProcess.FullScreenBlur => s.PSSetShader PixelShader.gFullScreenBlurPostProcess
    | PostProcess.UnderWater =>
      let s := s.PSSetShader PixelShader.gUnderWaterPostProcess
      let waterWiggleSpeed : K := 1 / 2
      let s := s.setConstants fun c => { c with underWaterLevel := s.polygonWaterWiggle }
      { s with polygonWaterWiggle := s.polygonWaterWiggle + waterWiggleSpeed * frameTime }
    | PostProcess.Retro => s.PSSetShader PixelShader.gRetroPostProcess
    | PostProcess.GaussianBlur => s.PSSetShader PixelShader.gGaussianBlurPostProcess
    | PostProcess.Bloom => s.PSSetShader PixelShader.gBloomPostProcess
  let s := (List.finRange 4).foldl (PolygonPostProcess.transformPoint m points worldMatrix) s
  let s := s.VSSetShader VertexShader.g2DPolygonVertexShader
  let s := s.Draw
  s.PSSetShaderResources nullptr

/-- Function `RenderSceneFromCamera` (Scene.cpp), called with `gCamera`: the four matrix
accessors update the matrices of the camera, and the models, the sky and the lights are drawn
into the render target that is bound. The draws are inside `Model::Render` (not among the
sources); the whole pass is one entry of the trace. The bindings it leaves are those of the
light rendering. -/
def RenderSceneFromCamera (g : Globals) (m : CMath K) (s : SceneState K) : SceneState K :=
  let s := { s with gCamera := s.gCamera.UpdateMatrices m }
  let s := s.VSSetShader VertexShader.gBasicTransformVertexShader
  let s := s.PSSetShader PixelShader.gTintedTexturePixelShader
  let s := s.PSSetShaderResources g.gLightDiffuseMapSRV
  { s with trace := s.trace ++ [Event.scene s.context.renderTarget] }

/-- The body of the loop over `postProcessEffectList` in `RenderScene`. -/
def RenderScene.applyEffect (g : Globals) (m : CMath K) (frameTime : K) (s : SceneState K)
    (effect : PostProcess) : SceneState K :=
  let s := { s with gCurrentPostProcess := effect }
  let s := PostProcessing g m s.gCurrentTarget s.gCurrentSRV frameTime s
  SwapPostProcessEffect g s

/-- Function `RenderScene` (Scene.cpp), from the binding of the main render target to the final
pass into the back buffer. The range-based loop over `postProcessEffectList` is a fold over
the list; the test `!postProcessEffectList.empty()` around it changes nothing, as the loop
over an empty list does nothing. The per-frame constants of the main pass and the call of
`Present` are not part of the model. -/
def RenderScene (g : Globals) (m : CMath K) (frameTime : K) (s : SceneState K) : SceneState K :=
  let s := s.OMSetRenderTargets g.gSceneRenderTarget1
  let s := RenderSceneFromCamera g m s
  let s := { s with gCurrentTarget := g.gSceneRenderTarget2 }
  let s := { s with gCurrentSRV := g.gSceneTextureSRV1 }
  let s := { s with gCurrentPostProcess := PostProcess.None }
  let s := PostProcessing g m s.gCurrentTarget s.gCurrentSRV frameTime s
  let s := SwapPostProcessEffect g s
  let s := PolygonPostProcess g m PixelShader.gHLSGradientPostProcess PolygonPoints
    SquareWindowPolygonMatrix frameTime s
  let s := PolygonPostProcess g m PixelShader.gUnderWaterPostProcess PolygonPoints
    (SpadeWindowPolygonMatrix m) frameTime s
  let s := PolygonPostProcess g m PixelShader.gRetroPostProcess PolygonPoints
    (DiamondWindowPolygonMatrix m) frameTime s
  let s := { s with gCurrentPostProcess := PostProcess.Spiral }
  let s := PolygonPostProcess g m PixelShader.gSpiralPostProcess PolygonPoints
    (ClubWindowPolygonMatrix m) frameTime s
  let s := { s with gCurrentPostProcess := PostProcess.Distort }
  let s := PolygonPostProcess g m PixelShader.gDistortPostProcess PolygonPoints
    (HeartWindowPolygonMatrix m) frameTime s
  let s := SwapPostProcessEffect g s
  let s := s.postProcessEffectList.foldl (RenderScene.applyEffect g m frameTime) s
  let s := { s with gCurrentPostProcess := PostProcess.None }
  PostProcessing g m g.gBackBufferRenderTarget s.gCurrentSRV frameTime s

/-- The calls issued by one `RenderScene` frame started in state `s`: what the frame appends
to the trace. -/
def frameEvents (g : Globals) (m : CMath K) (frameTime : K) (s : SceneState K) :
    List (Event K) :=
  (RenderScene g m frameTime s).trace.drop s.trace.length

/-! ### Observations on a frame -/

/-- The two off-screen scene textures created by `InitGeometry`. -/
inductive SceneTexture
  | gSceneTexture1
  | gSceneTexture2
deriving DecidableEq, Repr

/-- The render-target view `InitGeometry` creates on each scene texture. -/
def Globals.renderTargetView (g : Globals) : SceneTexture → Handle
  | SceneTexture.gSceneTexture1 => g.gSceneRenderTarget1
  | SceneTexture.gSceneTexture2 => g.gSceneRenderTarget2

/-- The shader-resource view `InitGeometry` creates on each scene texture. -/
def Globals.shaderResourceView (g : Globals) : SceneTexture → Handle
  | SceneTexture.gSceneTexture1 => g.gSceneTextureSRV1
  | SceneTexture.gSceneTexture2 => g.gSceneTextureSRV2

/-- The two scene textures are different resources: their views are different pointers. -/
def Globals.distinctTextures (g : Globals) : Prop :=
  g.gSceneRenderTarget1 ≠ g.gSceneRenderTarget2 ∧ g.gSceneTextureSRV1 ≠ g.gSceneTextureSRV2

instance (g : Globals) : Decidable g.distinctTextures := by
  unfold Globals.distinctTextures
  infer_instance

/-- An entry of the trace without the constant buffer: the main scene pass, a full-screen pass
(drawn with `gFullScreenQuadVertexShader`), a masked pass (drawn with `g2DPolygonVertexShader`,
within the quadrilateral `polygon2DPoints`), or a swap of the roles. -/
inductive Step (K : Type)
  | scene (renderTarget : Handle)
  | fullScreen (effect : PostProcess) (pixelShader : PixelShader)
      (renderTarget shaderResource : Handle)
  | masked (pixelShader : PixelShader) (polygon2DPoints : Fin 4 → CVector4 K)
      (renderTarget shaderResource : Handle)
  | otherDraw
  | swap

/-- The step an entry of the trace stands for. -/
def Event.step : Event K → Step K
  | Event.scene rtv => Step.scene rtv
  | Event.swap => Step.swap
  | Event.draw d =>
    match d.vertexShader with
    | VertexShader.gFullScreenQuadVertexShader =>
      Step.fullScreen d.effect d.pixelShader d.renderTarget d.shaderResource
    | VertexShader.g2DPolygonVertexShader =>
      Step.masked d.pixelShader d.constants.polygon2DPoints d.renderTarget d.shaderResource
    | _ => Step.otherDraw

/-- The steps of one `RenderScene` frame started in state `s`. -/
def frameSteps (g : Globals) (m : CMath K) (frameTime : K) (s : SceneState K) : List (Step K) :=
  (frameEvents g m frameTime s).map Event.step

/-- Whether a step is a render pass (anything but a swap). -/
def Step.isPass : Step K → Bool
  | Step.swap => false
  | _ => true

/-- Whether a step is a masked pass. -/
def Step.isMasked : Step K → Bool
  | Step.masked _ _ _ _ => true
  | _ => false

/-- The passes of one `RenderScene` frame started in state `s`, in the order they are issued. -/
def framePasses (g : Globals) (m : CMath K) (frameTime : K) (s : SceneState K) : List (Step K) :=
  (frameSteps g m frameTime s).filter Step.isPass

/-- The render target a pass writes. -/
def Step.target? : Step K → Option Handle
  | Step.scene rtv => some rtv
  | Step.fullScreen _ _ rtv _ => some rtv
  | Step.masked _ _ rtv _ => some rtv
  | _ => none

/-- The texture view a post-process pass reads. -/
def Step.source? : Step K → Option Handle
  | Step.fullScreen _ _ _ srv => some srv
  | Step.masked _ _ _ srv => some srv
  | _ => none

/-- The pass writes scene texture `t`: its render target is the render-target view of `t`. -/
def Step.writes (g : Globals) (st : Step K) (t : SceneTexture) : Prop :=
  st.target? = some (g.renderTargetView t)

/-- The pass reads scene texture `t`: its input is the shader-resource view of `t`. -/
def Step.reads (g : Globals) (st : Step K) (t : SceneTexture) : Prop :=
  st.source? = some (g.shaderResourceView t)

/-- The pixel shader `PostProcessing` binds for each effect, by the names of Shader.h. -/
def PostProcess.shader : PostProcess → PixelShader
  | PostProcess.None => PixelShader.gCopyPixelShader
  | PostProcess.VColourGradient => PixelShader.gVColourGradientPostProcess
  | PostProcess.HLSGradient => PixelShader.gHLSGradientPostProcess
  | PostProcess.FullScreenBlur => PixelShader.gFullScreenBlurPostProcess
  | PostProcess.GaussianBlur => PixelShader.gGaussianBlurPostProcess
  | PostProcess.UnderWater => PixelShader.gUnderWaterPostProcess
  | PostProcess.Retro => PixelShader.gRetroPostProcess
  | PostProcess.Bloom => PixelShader.gBloomPostProcess
  | PostProcess.Burn => PixelShader.gBurnPostProcess
  | PostProcess.Distort => PixelShader.gDistortPostProcess
  | PostProcess.GreyNoise => PixelShader.gGreyNoisePostProcess
  | PostProcess.Spiral => PixelShader.gSpiralPostProcess
  | PostProcess.Tint => PixelShader.gTintPostProcess

/-- The clip-space corners of the window placed by `worldMatrix`, seen from camera `c`: each
corner of `PolygonPoints` with `w = 1`, transformed by `worldMatrix` and by the view-projection
matrix of the camera. -/
def windowPoints (m : CMath K) (c : Camera K) (worldMatrix : CMatrix4x4 K) : Fin 4 → CVector4 K :=
  fun i => TransformVector4 (TransformVector4 (CVector4.ofVector3 (PolygonPoints i) 1) worldMatrix)
    (c.ViewProjectionMatrix m)

/-- The texture written by the stacked pass number `k` (counted from 0): texture 2 for even `k`,
texture 1 for odd `k`. The pass reads the other one. -/
def stackedTarget (k : Nat) : SceneTexture :=
  if k % 2 = 0 then SceneTexture.gSceneTexture2 else SceneTexture.gSceneTexture1

/-- The texture read by the stacked pass number `k` (counted from 0). -/
def stackedSource (k : Nat) : SceneTexture :=
  if k % 2 = 0 then SceneTexture.gSceneTexture1 else SceneTexture.gSceneTexture2

/-- The full-screen passes of the effects `effects`, the first of them being stacked pass
number `k`. -/
def stackedPasses (g : Globals) : Nat → List PostProcess → List (Step K)
  | _, [] => []
  | k, effect :: effects =>
    Step.fullScreen effect effect.shader (g.renderTargetView (stackedTarget k))
        (g.shaderResourceView (stackedSource k))
      :: stackedPasses g (k + 1) effects

/-- The steps of the effects `effects`: each full-screen pass is followed by a swap. -/
def stackedSteps (g : Globals) : Nat → List PostProcess → List (Step K)
  | _, [] => []
  | k, effect :: effects =>
    Step.fullScreen effect effect.shader (g.renderTargetView (stackedTarget k))
        (g.shaderResourceView (stackedSource k))
      :: Step.swap :: stackedSteps g (k + 1) effects


/-- The steps of a frame written out, for the effect list `effects` and the camera `c`: main
pass, seed pass, swap, the five masked passes, swap, the stacked passes each followed by a
swap, and the final pass. -/
def expectedSteps (g : Globals) (m : CMath K) (c : Camera K) (effects : List PostProcess) :
    List (Step K) :=
  Step.scene g.gSceneRenderTarget1
  :: Step.fullScreen PostProcess.None PixelShader.gCopyPixelShader
      g.gSceneRenderTarget2 g.gSceneTextureSRV1
  :: Step.swap
  :: Step.masked PixelShader.gHLSGradientPostProcess
      (windowPoints m c SquareWindowPolygonMatrix) g.gSceneRenderTarget1 g.gSceneTextureSRV2
  :: Step.masked PixelShader.gUnderWaterPostProcess
      (windowPoints m c (SpadeWindowPolygonMatrix m)) g.gSceneRenderTarget1 g.gSceneTextureSRV2
  :: Step.masked PixelShader.gRetroPostProcess
      (windowPoints m c (DiamondWindowPolygonMatrix m)) g.gSceneRenderTarget1 g.gSceneTextureSRV2
  :: Step.masked PixelShader.gSpiralPostProcess
      (windowPoints m c (ClubWindowPolygonMatrix m)) g.gSceneRenderTarget1 g.gSceneTextureSRV2
  :: Step.masked PixelShader.gDistortPostProcess
      (windowPoints m c (HeartWindowPolygonMatrix m)) g.gSceneRenderTarget1 g.gSceneTextureSRV2
  :: Step.swap
  :: (stackedSteps g 0 effects
      ++ [Step.fullScreen PostProcess.None PixelShader.gCopyPixelShader
            g.gBackBufferRenderTarget (g.shaderResourceView (stackedSource effects.length))])

/-! ### Example inputs -/

/-- Start-up globals with six different view pointers and a 1280 by 960 viewport. -/
def exampleGlobals : Globals :=
  { gSceneRenderTarget1 := 1, gSceneTextureSRV1 := 2, gSceneRenderTarget2 := 3,
    gSceneTextureSRV2 := 4, gBackBufferRenderTarget := 5, gLightDiffuseMapSRV := 6,
    gViewportWidth := 1280, gViewportHeight := 960 }

/-- The camera of `InitScene`: the defaults of the constructor (field of view `PI/3`, aspect
ratio 4/3, near clip 0.1, far clip 10000), then position (-100, 80, -100) and rotation
(30, 40, 0) degrees. The matrices, which the constructor does not initialise, start as the
identity. -/
def exampleCamera (m : CMath K) : Camera K :=
  { mPosition := CVector3.mk (-100) 80 (-100)
    mRotation := CVector3.mk (ToRadians m 30) (ToRadians m 40) 0
    mFOVx := m.PI / 3
    mAspectRatio := 4 / 3
    mNearClip := 1 / 10
    mFarClip := 10000
    mWorldMatrix := MatrixIdentity
    mViewMatrix := MatrixIdentity
    mProjectionMatrix := MatrixIdentity
    mViewProjectionMatrix := MatrixIdentity }

/-- A state before the first frame with the effect list `effects`: zeroed constants and statics,
no view bound, an empty trace. -/
def exampleState (m : CMath K) (effects : List PostProcess) : SceneState K :=
  { gCurrentPostProcess := PostProcess.None
    gCamera := exampleCamera m
    gPostProcessingConstants :=
      { area2DTopLeft := CVector2.mk 0 0, area2DSize := CVector2.mk 0 0, area2DDepth := 0
        polygon2DPoints := fun _ => CVector4.mk 0 0 0 0
        tintColour := CVector3.mk 0 0 0, noiseScale := CVector2.mk 0 0
        noiseOffset := CVector2.mk 0 0, burnHeight := 0, distortLevel := 0, spiralLevel := 0
        hueShift := 0, underWaterLevel := 0 }
    postProcessEffectList := effects
    gCurrentTarget := nullptr
    gCurrentSRV := nullptr
    spiralWiggle := 0
    hueWiggle := 0
    waterWiggle := 0
    polygonSpiralWiggle := 0
    polygonHueWiggle := 0
    polygonWaterWiggle := 0
    randomValues := fun _ => 1 / 2
    randomCalls := 0
    context :=
      { renderTarget := nullptr, shaderResource := nullptr
        vertexShader := VertexShader.gPixelLightingVertexShader
        pixelShader := PixelShader.gPixelLightingPixelShader }
    trace := [] }

/-- The example state with an empty effect list and the roles `RenderScene` assigns before
the seed pass: write target `gSceneRenderTarget2`, read source `gSceneTextureSRV1`. -/
def exampleSeedState (m : CMath K) : SceneState K :=
  { exampleState m [] with
    gCurrentTarget := exampleGlobals.gSceneRenderTarget2
    gCurrentSRV := exampleGlobals.gSceneTextureSRV1 }

end Scene

/-! ## Camera operations and observations -/

section CameraOperations

variable {K : Type} [Field K]

/-- Setter `Camera::SetPosition` (Camera.h). -/
def Camera.SetPosition (position : CVector3 K) (c : Camera K) : Camera K :=
  { c with mPosition := position }

/-- Setter `Camera::SetRotation` (Camera.h). -/
def Camera.SetRotation (rotation : CVector3 K) (c : Camera K) : Camera K :=
  { c with mRotation := rotation }

/-- Setter `Camera::SetFOV` (Camera.h). -/
def Camera.SetFOV (fov : K) (c : Camera K) : Camera K :=
  { c with mFOVx := fov }

/-- Setter `Camera::SetNearClip` (Camera.h). -/
def Camera.SetNearClip (nearClip : K) (c : Camera K) : Camera K :=
  { c with mNearClip := nearClip }

/-- Setter `Camera::SetFarClip` (Camera.h). -/
def Camera.SetFarClip (farClip : K) (c : Camera K) : Camera K :=
  { c with mFarClip := farClip }

/-- Constructor `Camera::Camera` (Camera.h) with all its default arguments: position and
rotation zero, field of view `PI/3`, aspect ratio 4/3, near clip 0.1, far clip 10000. The four
matrices are not initialised by the constructor; `uninitialised` is what they hold. -/
def Camera.construct (m : CMath K) (uninitialised : CMatrix4x4 K) : Camera K :=
  { mPosition := CVector3.mk 0 0 0
    mRotation := CVector3.mk 0 0 0
    mFOVx := m.PI / 3
    mAspectRatio := 4 / 3
    mNearClip := 1 / 10
    mFarClip := 10000
    mWorldMatrix := uninitialised
    mViewMatrix := uninitialised
    mProjectionMatrix := uninitialised
    mViewProjectionMatrix := uninitialised }

/-- A call of one of the public operations of `Camera` that change the camera. -/
inductive CameraCall (K : Type)
  | SetPosition (position : CVector3 K)
  | SetRotation (rotation : CVector3 K)
  | SetFOV (fov : K)
  | SetNearClip (nearClip : K)
  | SetFarClip (farClip : K)
  | Control (KeyHeld : KeyCode → Bool) (frameTime : K)
      (turnUp turnDown turnLeft turnRight moveForward moveBackward moveLeft moveRight : KeyCode)

/-- The camera after one call. -/
def CameraCall.apply : CameraCall K → Camera K → Camera K
  | CameraCall.SetPosition position, c => c.SetPosition position
  | CameraCall.SetRotation rotation, c => c.SetRotation rotation
  | CameraCall.SetFOV fov, c => c.SetFOV fov
  | CameraCall.SetNearClip nearClip, c => c.SetNearClip nearClip
  | CameraCall.SetFarClip farClip, c => c.SetFarClip farClip
  | CameraCall.Control KeyHeld frameTime turnUp turnDown turnLeft turnRight moveForward
      moveBackward moveLeft moveRight, c =>
    c.Control KeyHeld frameTime turnUp turnDown turnLeft turnRight moveForward moveBackward
      moveLeft moveRight

/-- The camera after a sequence of calls, made in list order. -/
def Camera.afterCalls (calls : List (CameraCall K)) (c : Camera K) : Camera K :=
  calls.foldl (fun c call => call.apply c) c

/-- The world matrix derived from a position and a rotation, as the spec words it:
rotation-Z x rotation-X x rotation-Y x translation. -/
def derivedWorldMatrix (m : CMath K) (position rotation : CVector3 K) : CMatrix4x4 K :=
  MatrixRotationZ m rotation.z * MatrixRotationX m rotation.x * MatrixRotationY m rotation.y
    * MatrixTranslation position

/-- The projection matrix derived from the lens fields, as the spec words it. -/
def derivedProjectionMatrix (m : CMath K) (fovx aspect near far : K) : CMatrix4x4 K :=
  { e00 := 1 / m.tan (fovx / 2), e01 := 0, e02 := 0, e03 := 0
    e10 := 0, e11 := aspect * (1 / m.tan (fovx / 2)), e12 := 0, e13 := 0
    e20 := 0, e21 := 0, e22 := far / (far - near), e23 := 1
    e30 := 0, e31 := 0, e32 := -near * (far / (far - near)), e33 := 0 }

/-- Operation `project` of the PolygonMaskProjector of the spec: each corner, with `w = 1`,
transformed by the placement matrix and then by the view-projection matrix. -/
def projectPolygon (corners : Fin 4 → CVector3 K) (placementMatrix : CMatrix4x4 K)
    (viewProjectionMatrix : CMatrix4x4 K) : Fin 4 → CVector4 K :=
  fun i => TransformVector4 (TransformVector4 (CVector4.ofVector3 (corners i) 1) placementMatrix)
    viewProjectionMatrix

/-- The squared distance between two points. -/
def CVector3.distanceSquared (a b : CVector3 K) : K :=
  (a.x - b.x) * (a.x - b.x) + (a.y - b.y) * (a.y - b.y) + (a.z - b.z) * (a.z - b.z)

/-- The keyboard with exactly the key `key` held. -/
def onlyKeyHeld (key : KeyCode) : KeyCode → Bool :=
  fun k => decide (k = key)

/-- The camera of the projection test of the spec: at the origin, no rotation, horizontal field
of view 60 degrees, aspect ratio 1, near clip 1, far clip 100. Its matrices start as the
identity. -/
def originCamera (m : CMath K) : Camera K :=
  { mPosition := CVector3.mk 0 0 0
    mRotation := CVector3.mk 0 0 0
    mFOVx := ToRadians m 60
    mAspectRatio := 1
    mNearClip := 1
    mFarClip := 100
    mWorldMatrix := MatrixIdentity
    mViewMatrix := MatrixIdentity
    mProjectionMatrix := MatrixIdentity
    mViewProjectionMatrix := MatrixIdentity }

/-- The origin camera after its matrices have been read (so that they are those of the
rotation zero) and the rotation has then been set to a quarter turn about the Y axis. -/
def turnedCamera (m : CMath K) : Camera K :=
  ((originCamera m).UpdateMatrices m).SetRotation (CVector3.mk 0 (m.PI / 2) 0)

end CameraOperations

section LensInvariant

variable {K : Type} [LinearOrderedField K]

/-- The lens invariant of the spec: far clip > near clip > 0. -/
def Camera.LensInvariant (c : Camera K) : Prop :=
  0 < c.mNearClip ∧ c.mNearClip < c.mFarClip

end LensInvariant

/-! ## Operations of `CVector2` -/

section Vector2

variable {K : Type} [Field K]

/-- Member `CVector2::operator-` (CVector2.cpp): the two components of the object itself are
negated and a reference to the object is returned. The first component of the pair is the
value read through the returned reference, the second is the object after the call. -/
def CVector2.operatorNeg (self : CVector2 K) : CVector2 K × CVector2 K :=
  let self := { self with x := -self.x }
  let self := { self with y := -self.y }
  (self, self)

/-- Function `Dot` (CVector2.cpp). -/
def Dot (v1 v2 : CVector2 K) : K :=
  v1.x * v2.x + v1.y * v2.y

/-- Function `Normalise` (CVector2.cpp). The helpers `IsZero` and `InvSqrt` belong to
MathHelpers.h, which is not among the sources: they are parameters. -/
def Normalise (IsZero : K → Bool) (InvSqrt : K → K) (v : CVector2 K) : CVector2 K :=
  let lengthSq := v.x * v.x + v.y * v.y
  if IsZero lengthSq then
    CVector2.mk 0 0
  else
    let invLength := InvSqrt lengthSq
    CVector2.mk (v.x * invLength) (v.y * invLength)

end Vector2

/-! ## Sequences of calls -/

/-- A call of one of the two functions that edit `postProcessEffectList`. -/
inductive EffectListCall
  | update (postProcessEffectType : PostProcess)
  | reset
deriving DecidableEq, Repr

/-- The effects the spec expects in the list after the calls `calls` made on an empty list:
those other than `None` appended after the last reset, in the order of the calls. This
definition follows the words of the spec, not the code. -/
def effectsSinceLastReset (calls : List EffectListCall) : List PostProcess :=
  ((calls.reverse.takeWhile fun c => decide (c ≠ EffectListCall.reset)).reverse).filterMap
    fun c =>
      match c with
      | EffectListCall.update e => if e = PostProcess.None then none else some e
      | EffectListCall.reset => none

/-- One full-screen pass as `RenderScene` issues it: the assignment
`gCurrentPostProcess = effect` followed by the call
`PostProcessing(RenderTarget, NextSRV, frameTime)`. -/
structure Invocation (K : Type) where
  effect : PostProcess
  frameTime : K
  RenderTarget : Handle
  NextSRV : Handle

section Sequences

variable {K : Type} [LinearOrderedField K] [FloorRing K]

/-- The call `c` made in state `s`. -/
def EffectListCall.apply (s : SceneState K) (c : EffectListCall) : SceneState K :=
  match c with
  | EffectListCall.update e => UpdatePostProcessEffectsList e s
  | EffectListCall.reset => ResetPostProcessEffectsList s

/-- The calls `calls` made one after the other, starting in state `s`. -/
def SceneState.afterListCalls (calls : List EffectListCall) (s : SceneState K) : SceneState K :=
  calls.foldl EffectListCall.apply s

/-- The invocation `i` made in state `s`. -/
def Invocation.run (g : Globals) (m : CMath K) (s : SceneState K) (i : Invocation K) :
    SceneState K :=
  PostProcessing g m i.RenderTarget i.NextSRV i.frameTime { s with gCurrentPostProcess := i.effect }

/-- The invocations `calls` made one after the other, starting in state `s`. -/
def runInvocations (g : Globals) (m : CMath K) (calls : List (Invocation K))
    (s : SceneState K) : SceneState K :=
  calls.foldl (Invocation.run g m) s

/-- The sum of the frame times of the invocations of `effect` among `calls`. -/
def effectTime (effect : PostProcess) (calls : List (Invocation K)) : K :=
  ((calls.filter fun i => decide (i.effect = effect)).map Invocation.frameTime).sum

/-- The draw issued last, if the last call entered in the trace is a draw. -/
def SceneState.lastDraw? (s : SceneState K) : Option (DrawCall K) :=
  match s.trace.getLast? with
  | some (Event.draw d) => some d
  | _ => none

/-- The state before the first frame with the statics at their initial value 0, and with the
burn height `h` in the constants. -/
def burnState (m : CMath K) (h : K) : SceneState K :=
  { exampleState m [] with
    gPostProcessingConstants :=
      { (exampleState m []).gPostProcessingConstants with burnHeight := h } }

/-- The burn heights after each of `n` invocations in a row of the burn effect with frame
time `frameTime`, starting in state `s`. -/
def burnHeights (g : Globals) (m : CMath K) (frameTime : K) (s : SceneState K) :
    Nat → List K
  | 0 => []
  | n + 1 =>
    let s := Invocation.run g m s
      { effect := PostProcess.Burn, frameTime := frameTime, RenderTarget := s.gCurrentTarget,
        NextSRV := s.gCurrentSRV }
    s.gPostProcessingConstants.burnHeight :: burnHeights g m frameTime s n

end Sequences

/-! ## Lemmas on the camera matrices -/

section CameraLemmas

variable {K : Type} [Field K]

theorem CMatrix4x4.mul_def (a b : CMatrix4x4 K) : a * b = CMatrix4x4.mul a b := rfl

theorem CMatrix4x4.one_def : (1 : CMatrix4x4 K) = MatrixIdentity := rfl

theorem CMatrix4x4.mul_assoc_aux (a b c : CMatrix4x4 K) : a * b * c = a * (b * c) := by
  ext <;> simp only [CMatrix4x4.mul_def, CMatrix4x4.mul] <;> ring

theorem CMatrix4x4.one_mul_aux (a : CMatrix4x4 K) : 1 * a = a := by
  ext <;> simp only [CMatrix4x4.mul_def, CMatrix4x4.mul, CMatrix4x4.one_def, MatrixIdentity] <;>
    ring

theorem CMatrix4x4.mul_one_aux (a : CMatrix4x4 K) : a * 1 = a := by
  ext <;> simp only [CMatrix4x4.mul_def, CMatrix4x4.mul, CMatrix4x4.one_def, MatrixIdentity] <;>
    ring

theorem TransformVector4_mul (v : CVector4 K) (a b : CMatrix4x4 K) :
    TransformVector4 v (a * b) = TransformVector4 (TransformVector4 v a) b := by
  simp only [TransformVector4, CMatrix4x4.mul_def, CMatrix4x4.mul, CVector4.mk.injEq]
  refine ⟨?_, ?_, ?_, ?_⟩ <;> ring

/-- The inverse of a product of two matrices with given one-sided inverses. -/
theorem inverse_pair {a a1 b b1 : CMatrix4x4 K} (ha : a1 * a = 1) (hb : b1 * b = 1) :
    (b1 * a1) * (a * b) = 1 := by
  rw [CMatrix4x4.mul_assoc_aux, ← CMatrix4x4.mul_assoc_aux a1, ha, CMatrix4x4.one_mul_aux, hb]

theorem IsLinear_mul {a b : CMatrix4x4 K} (ha : a.IsLinear) (hb : b.IsLinear) :
    (a * b).IsLinear := by
  obtain ⟨a1, a2, a3, a4, a5, a6, a7⟩ := ha
  obtain ⟨b1, b2, b3, b4, b5, b6, b7⟩ := hb
  simp only [CMatrix4x4.IsLinear, CMatrix4x4.mul_def, CMatrix4x4.mul, a1, a2, a3, a4, a5, a6, a7,
    b1, b2, b3, b4, b5, b6, b7]
  refine ⟨?_, ?_, ?_, ?_, ?_, ?_, ?_⟩ <;> ring1

theorem IsLinear_RotationX (m : CMath K) (a : K) : (MatrixRotationX m a).IsLinear := by
  simp [CMatrix4x4.IsLinear, MatrixRotationX]

theorem IsLinear_RotationY (m : CMath K) (a : K) : (MatrixRotationY m a).IsLinear := by
  simp [CMatrix4x4.IsLinear, MatrixRotationY]

theorem IsLinear_RotationZ (m : CMath K) (a : K) : (MatrixRotationZ m a).IsLinear := by
  simp [CMatrix4x4.IsLinear, MatrixRotationZ]

/-- The affine inverse of a product whose left factor has no translation. -/
theorem InverseAffine_mul {a : CMatrix4x4 K} (ha : a.IsLinear) (b : CMatrix4x4 K) :
    InverseAffine (a * b) = InverseAffine b * InverseAffine a := by
  obtain ⟨a1, a2, a3, a4, a5, a6, a7⟩ := ha
  ext <;>
    simp only [CMatrix4x4.mul_def, CMatrix4x4.mul, InverseAffine, a1, a2, a3, a4, a5, a6, a7] <;>
    ring1

theorem inverse_pair_right {a a1 b b1 : CMatrix4x4 K} (ha : a * a1 = 1) (hb : b * b1 = 1) :
    (a * b) * (b1 * a1) = 1 := by
  rw [CMatrix4x4.mul_assoc_aux, ← CMatrix4x4.mul_assoc_aux b, hb, CMatrix4x4.one_mul_aux, ha]

section Rotation

variable (m : CMath K)

theorem InverseAffine_RotationX (hm : ∀ a, m.cos a * m.cos a + m.sin a * m.sin a = 1)
    (a : K) :
    InverseAffine (MatrixRotationX m a) * MatrixRotationX m a = 1
    ∧ MatrixRotationX m a * InverseAffine (MatrixRotationX m a) = 1 := by
  have h := hm a
  constructor <;> ext <;>
    simp only [CMatrix4x4.mul_def, CMatrix4x4.mul, CMatrix4x4.one_def, MatrixIdentity,
      InverseAffine, MatrixRotationX] <;>
    first
    | ring1
    | linear_combination h


theorem InverseAffine_RotationY (hm : ∀ a, m.cos a * m.cos a + m.sin a * m.sin a = 1)
    (a : K) :
    InverseAffine (MatrixRotationY m a) * MatrixRotationY m a = 1
    ∧ MatrixRotationY m a * InverseAffine (MatrixRotationY m a) = 1 := by
  have h := hm a
  constructor <;> ext <;>
    simp only [CMatrix4x4.mul_def, CMatrix4x4.mul, CMatrix4x4.one_def, MatrixIdentity,
      InverseAffine, MatrixRotationY] <;>
    first
    | ring1
    | linear_combination h

theorem InverseAffine_RotationZ (hm : ∀ a, m.cos a * m.cos a + m.sin a * m.sin a = 1)
    (a : K) :
    InverseAffine (MatrixRotationZ m a) * MatrixRotationZ m a = 1
    ∧ MatrixRotationZ m a * InverseAffine (MatrixRotationZ m a) = 1 := by
  have h := hm a
  constructor <;> ext <;>
    simp only [CMatrix4x4.mul_def, CMatrix4x4.mul, CMatrix4x4.one_def, MatrixIdentity,
      InverseAffine, MatrixRotationZ] <;>
    first
    | ring1
    | linear_combination h

theorem InverseAffine_Translation (t : CVector3 K) :
    InverseAffine (MatrixTranslation t) * MatrixTranslation t = 1
    ∧ MatrixTranslation t * InverseAffine (MatrixTranslation t) = 1 := by
  constructor <;> ext <;>
    simp only [CMatrix4x4.mul_def, CMatrix4x4.mul, CMatrix4x4.one_def, MatrixIdentity,
      InverseAffine, MatrixTranslation] <;> ring1

/-- The view matrix is a two-sided inverse of the world matrix, for any scalars on which
`cos` and `sin` satisfy the Pythagorean identity. -/
theorem view_mul_world (hm : ∀ a, m.cos a * m.cos a + m.sin a * m.sin a = 1) (c : Camera K) :
    c.ViewMatrix m * c.WorldMatrix m = 1 ∧ c.WorldMatrix m * c.ViewMatrix m = 1 := by
  have hx := InverseAffine_RotationX m hm c.mRotation.x
  have hy := InverseAffine_RotationY m hm c.mRotation.y
  have hz := InverseAffine_RotationZ m hm c.mRotation.z
  have ht := InverseAffine_Translation (K := K) c.mPosition
  have lz := IsLinear_RotationZ m c.mRotation.z
  have lx := IsLinear_RotationX m c.mRotation.x
  have ly := IsLinear_RotationY m c.mRotation.y
  have hv : c.ViewMatrix m = InverseAffine (c.WorldMatrix m) := rfl
  have hw : c.WorldMatrix m = MatrixRotationZ m c.mRotation.z * MatrixRotationX m c.mRotation.x
      * MatrixRotationY m c.mRotation.y * MatrixTranslation c.mPosition := rfl
  rw [hv, hw, InverseAffine_mul (IsLinear_mul (IsLinear_mul lz lx) ly),
    InverseAffine_mul (IsLinear_mul lz lx), InverseAffine_mul lz]
  constructor
  · exact inverse_pair (inverse_pair (inverse_pair hz.1 hx.1) hy.1) ht.1
  · exact inverse_pair_right (inverse_pair_right (inverse_pair_right hz.2 hx.2) hy.2) ht.2

end Rotation

end CameraLemmas

/-! ## Lemmas on the passes -/

section PassLemmas

variable {K : Type} [LinearOrderedField K] [FloorRing K]
variable (g : Globals) (m : CMath K) (frameTime : K)

theorem PostProcessing_steps (RenderTarget NextSRV : Handle) (s : SceneState K) :
    (PostProcessing g m RenderTarget NextSRV frameTime s).trace.map Event.step
      = s.trace.map Event.step
        ++ [Step.fullScreen s.gCurrentPostProcess s.gCurrentPostProcess.shader
              RenderTarget NextSRV] := by
  obtain ⟨e, cam, c, l, t, r, w1, w2, w3, w4, w5, w6, rv, rc, ctx, tr⟩ := s
  cases e <;>
    simp [PostProcessing, SceneState.OMSetRenderTargets, SceneState.PSSetShaderResources,
      SceneState.VSSetShader, SceneState.PSSetShader, SceneState.Draw, SceneState.setConstants,
      SceneState.setFullScreenArea, SceneState.randomOffset, Event.step, PostProcess.shader]

theorem PostProcessing_frame (RenderTarget NextSRV : Handle) (s : SceneState K) :
    (PostProcessing g m RenderTarget NextSRV frameTime s).gCurrentTarget = s.gCurrentTarget
    ∧ (PostProcessing g m RenderTarget NextSRV frameTime s).gCurrentSRV = s.gCurrentSRV
    ∧ (PostProcessing g m RenderTarget NextSRV frameTime s).gCurrentPostProcess
        = s.gCurrentPostProcess
    ∧ (PostProcessing g m RenderTarget NextSRV frameTime s).postProcessEffectList
        = s.postProcessEffectList
    ∧ (PostProcessing g m RenderTarget NextSRV frameTime s).gCamera = s.gCamera := by
  obtain ⟨e, cam, c, l, t, r, w1, w2, w3, w4, w5, w6, rv, rc, ctx, tr⟩ := s
  cases e <;>
    simp [PostProcessing, SceneState.OMSetRenderTargets, SceneState.PSSetShaderResources,
      SceneState.VSSetShader, SceneState.PSSetShader, SceneState.Draw, SceneState.setConstants,
      SceneState.setFullScreenArea, SceneState.randomOffset]


theorem UpdateMatrices_UpdateMatrices {F : Type} [Field F] (m : CMath F) (c : Camera F) :
    (c.UpdateMatrices m).UpdateMatrices m = c.UpdateMatrices m := rfl

theorem PolygonPostProcess_steps (postProcess : PixelShader) (points : Fin 4 → CVector3 K)
    (worldMatrix : CMatrix4x4 K) (s : SceneState K) :
    (PolygonPostProcess g m postProcess points worldMatrix frameTime s).trace.map Event.step
      = s.trace.map Event.step
        ++ [Step.masked
              (match s.gCurrentPostProcess with
                | PostProcess.None => postProcess
                | effect => effect.shader)
              (fun i => TransformVector4
                (TransformVector4 (CVector4.ofVector3 (points i) 1) worldMatrix)
                (s.gCamera.ViewProjectionMatrix m))
              s.gCurrentTarget s.gCurrentSRV] := by
  obtain ⟨e, cam, c, l, t, r, w1, w2, w3, w4, w5, w6, rv, rc, ctx, tr⟩ := s
  have h4 : List.finRange 4 = [0, 1, 2, 3] := rfl
  cases e <;>
    simp [PolygonPostProcess, PolygonPostProcess.transformPoint, h4,
      SceneState.OMSetRenderTargets, SceneState.PSSetShaderResources,
      SceneState.VSSetShader, SceneState.PSSetShader, SceneState.Draw, SceneState.setConstants,
      SceneState.setFullScreenArea, SceneState.randomOffset, Event.step, PostProcess.shader,
      Camera.ViewProjectionMatrix, UpdateMatrices_UpdateMatrices] <;>
    (funext i; fin_cases i <;> simp [Function.update])


theorem PolygonPostProcess_frame (postProcess : PixelShader) (points : Fin 4 → CVector3 K)
    (worldMatrix : CMatrix4x4 K) (s : SceneState K) :
    (PolygonPostProcess g m postProcess points worldMatrix frameTime s).gCurrentTarget
        = s.gCurrentTarget
    ∧ (PolygonPostProcess g m postProcess points worldMatrix frameTime s).gCurrentSRV
        = s.gCurrentSRV
    ∧ (PolygonPostProcess g m postProcess points worldMatrix frameTime s).gCurrentPostProcess
        = s.gCurrentPostProcess
    ∧ (PolygonPostProcess g m postProcess points worldMatrix frameTime s).postProcessEffectList
        = s.postProcessEffectList
    ∧ (PolygonPostProcess g m postProcess points worldMatrix frameTime s).gCamera
        = s.gCamera.UpdateMatrices m := by
  obtain ⟨e, cam, c, l, t, r, w1, w2, w3, w4, w5, w6, rv, rc, ctx, tr⟩ := s
  have h4 : List.finRange 4 = [0, 1, 2, 3] := rfl
  cases e <;>
    simp [PolygonPostProcess, PolygonPostProcess.transformPoint, h4,
      SceneState.OMSetRenderTargets, SceneState.PSSetShaderResources,
      SceneState.VSSetShader, SceneState.PSSetShader, SceneState.Draw, SceneState.setConstants,
      SceneState.setFullScreenArea, SceneState.randomOffset, UpdateMatrices_UpdateMatrices]

theorem SwapPostProcessEffect_frame (s : SceneState K) :
    (SwapPostProcessEffect g s).gCurrentPostProcess = s.gCurrentPostProcess
    ∧ (SwapPostProcessEffect g s).postProcessEffectList = s.postProcessEffectList
    ∧ (SwapPostProcessEffect g s).gCamera = s.gCamera
    ∧ (SwapPostProcessEffect g s).trace = s.trace ++ [Event.swap] := by
  unfold SwapPostProcessEffect
  refine ⟨?_, ?_, ?_, ?_⟩ <;> (simp only []; split_ifs <;> rfl)

/-- The roles after a swap, when the write target is the view of texture `w` and the read
source the view of the other texture `r`: the pointers are exchanged in value, also when two
views happen to be the same pointer. -/
theorem SwapPostProcessEffect_roles (s : SceneState K) (w r : SceneTexture) (hwr : w ≠ r)
    (ht : s.gCurrentTarget = g.renderTargetView w)
    (hs : s.gCurrentSRV = g.shaderResourceView r) :
    (SwapPostProcessEffect g s).gCurrentTarget = g.renderTargetView r
    ∧ (SwapPostProcessEffect g s).gCurrentSRV = g.shaderResourceView w := by
  obtain ⟨e, cam, c, l, t, r0, w1, w2, w3, w4, w5, w6, rv, rc, ctx, tr⟩ := s
  simp only at ht hs
  subst ht hs
  cases w <;> cases r <;>
    first
    | exact absurd rfl hwr
    | (simp only [SwapPostProcessEffect, Globals.renderTargetView, Globals.shaderResourceView]
       constructor <;> split_ifs <;> simp_all)

theorem RenderSceneFromCamera_frame (s : SceneState K) :
    (RenderSceneFromCamera g m s).trace = s.trace ++ [Event.scene s.context.renderTarget]
    ∧ (RenderSceneFromCamera g m s).postProcessEffectList = s.postProcessEffectList
    ∧ (RenderSceneFromCamera g m s).gCamera = s.gCamera.UpdateMatrices m := by
  simp [RenderSceneFromCamera, SceneState.VSSetShader, SceneState.PSSetShader,
    SceneState.PSSetShaderResources]


theorem stackedTarget_ne_stackedSource (k : Nat) : stackedTarget k ≠ stackedSource k := by
  unfold stackedTarget stackedSource
  split_ifs <;> decide

theorem stackedTarget_succ (k : Nat) : stackedTarget (k + 1) = stackedSource k := by
  unfold stackedTarget stackedSource
  rcases Nat.mod_two_eq_zero_or_one k with h | h <;> simp [Nat.add_mod, h]

theorem stackedSource_succ (k : Nat) : stackedSource (k + 1) = stackedTarget k := by
  unfold stackedTarget stackedSource
  rcases Nat.mod_two_eq_zero_or_one k with h | h <;> simp [Nat.add_mod, h]

theorem applyEffect_foldl (effects : List PostProcess) :
    ∀ (k : Nat) (s : SceneState K),
      s.gCurrentTarget = g.renderTargetView (stackedTarget k) →
      s.gCurrentSRV = g.shaderResourceView (stackedSource k) →
      (effects.foldl (RenderScene.applyEffect g m frameTime) s).trace.map Event.step
          = s.trace.map Event.step ++ stackedSteps g k effects
      ∧ (effects.foldl (RenderScene.applyEffect g m frameTime) s).gCurrentSRV
          = g.shaderResourceView (stackedSource (k + effects.length))
      ∧ (effects.foldl (RenderScene.applyEffect g m frameTime) s).gCurrentTarget
          = g.renderTargetView (stackedTarget (k + effects.length))
      ∧ (effects.foldl (RenderScene.applyEffect g m frameTime) s).postProcessEffectList
          = s.postProcessEffectList
      ∧ (effects.foldl (RenderScene.applyEffect g m frameTime) s).gCamera = s.gCamera := by
  induction effects with
  | nil => intro k s ht hs; simp [stackedSteps, ht, hs]
  | cons effect effects ih =>
    intro k s ht hs
    have hP := PostProcessing_frame g m frameTime s.gCurrentTarget s.gCurrentSRV
      { s with gCurrentPostProcess := effect }
    have hT := PostProcessing_steps g m frameTime s.gCurrentTarget s.gCurrentSRV
      { s with gCurrentPostProcess := effect }
    have hS := SwapPostProcessEffect_frame g
      (PostProcessing g m s.gCurrentTarget s.gCurrentSRV frameTime
        { s with gCurrentPostProcess := effect })
    have hR := SwapPostProcessEffect_roles g
      (PostProcessing g m s.gCurrentTarget s.gCurrentSRV frameTime
        { s with gCurrentPostProcess := effect })
      (stackedTarget k) (stackedSource k) (stackedTarget_ne_stackedSource k)
      (by rw [hP.1]; exact ht) (by rw [hP.2.1]; exact hs)
    have step := ih (k + 1) (RenderScene.applyEffect g m frameTime s effect)
      (by rw [stackedTarget_succ]; exact hR.1) (by rw [stackedSource_succ]; exact hR.2)
    simp only [List.foldl_cons, List.length_cons]
    refine ⟨?_, ?_, ?_, ?_, ?_⟩
    · rw [step.1]
      simp only [RenderScene.applyEffect]
      rw [hS.2.2.2, List.map_append, hT]
      simp [Event.step, stackedSteps, ht, hs]
    · rw [step.2.1, Nat.add_assoc, Nat.add_comm 1]
    · rw [step.2.2.1, Nat.add_assoc, Nat.add_comm 1]
    · rw [step.2.2.2.1]
      simp only [RenderScene.applyEffect, hS.2.1, hP.2.2.2.1]
    · rw [step.2.2.2.2]
      simp only [RenderScene.applyEffect, hS.2.2.1, hP.2.2.2.2]


theorem ViewProjectionMatrix_UpdateMatrices {F : Type} [Field F] (m : CMath F) (c : Camera F) :
    (c.UpdateMatrices m).ViewProjectionMatrix m = c.ViewProjectionMatrix m := rfl

/-- The steps one `RenderScene` frame appends to the trace. -/
theorem RenderScene_steps (s : SceneState K) :
    (RenderScene g m frameTime s).trace.map Event.step
      = s.trace.map Event.step ++ expectedSteps g m s.gCamera s.postProcessEffectList := by
  unfold expectedSteps
  unfold RenderScene
  lift_lets
  intro s1 s2 s3 s4 s5 s6 s7 s8 s9 s10 s11 s12 s13 s14 s15 s16 s17
  -- main pass
  have h2 := RenderSceneFromCamera_frame g m s1
  have t5 : s5.trace.map Event.step
      = s.trace.map Event.step ++ [Step.scene g.gSceneRenderTarget1] := by
    show s2.trace.map Event.step = _
    rw [h2.1]; simp [s1, SceneState.OMSetRenderTargets, Event.step]
  have l5 : s5.postProcessEffectList = s.postProcessEffectList := h2.2.1
  have c5 : s5.gCamera = s.gCamera.UpdateMatrices m := h2.2.2
  -- seed pass and first swap
  have h6 := PostProcessing_frame g m frameTime s5.gCurrentTarget s5.gCurrentSRV s5
  have t6 := PostProcessing_steps g m frameTime s5.gCurrentTarget s5.gCurrentSRV s5
  have h7 := SwapPostProcessEffect_frame g s6
  have r7 := SwapPostProcessEffect_roles g s6 SceneTexture.gSceneTexture2
    SceneTexture.gSceneTexture1 (by decide) h6.1 h6.2.1
  -- masked passes
  have h8 := PolygonPostProcess_frame g m frameTime PixelShader.gHLSGradientPostProcess
    PolygonPoints SquareWindowPolygonMatrix s7
  have t8 := PolygonPostProcess_steps g m frameTime PixelShader.gHLSGradientPostProcess
    PolygonPoints SquareWindowPolygonMatrix s7
  have h9 := PolygonPostProcess_frame g m frameTime PixelShader.gUnderWaterPostProcess
    PolygonPoints (SpadeWindowPolygonMatrix m) s8
  have t9 := PolygonPostProcess_steps g m frameTime PixelShader.gUnderWaterPostProcess
    PolygonPoints (SpadeWindowPolygonMatrix m) s8
  have h10 := PolygonPostProcess_frame g m frameTime PixelShader.gRetroPostProcess
    PolygonPoints (DiamondWindowPolygonMatrix m) s9
  have t10 := PolygonPostProcess_steps g m frameTime PixelShader.gRetroPostProcess
    PolygonPoints (DiamondWindowPolygonMatrix m) s9
  have h12 := PolygonPostProcess_frame g m frameTime PixelShader.gSpiralPostProcess
    PolygonPoints (ClubWindowPolygonMatrix m) s11
  have t12 := PolygonPostProcess_steps g m frameTime PixelShader.gSpiralPostProcess
    PolygonPoints (ClubWindowPolygonMatrix m) s11
  have h14 := PolygonPostProcess_frame g m frameTime PixelShader.gDistortPostProcess
    PolygonPoints (HeartWindowPolygonMatrix m) s13
  have t14 := PolygonPostProcess_steps g m frameTime PixelShader.gDistortPostProcess
    PolygonPoints (HeartWindowPolygonMatrix m) s13
  have h15 := SwapPostProcessEffect_frame g s14
  -- the values of the globals along the way
  have e5 : s5.gCurrentPostProcess = PostProcess.None := rfl
  have tg5 : s5.gCurrentTarget = g.gSceneRenderTarget2 := rfl
  have sr5 : s5.gCurrentSRV = g.gSceneTextureSRV1 := rfl
  have e7 : s7.gCurrentPostProcess = PostProcess.None := h7.1.trans h6.2.2.1
  have tg7 : s7.gCurrentTarget = g.gSceneRenderTarget1 := r7.1
  have sr7 : s7.gCurrentSRV = g.gSceneTextureSRV2 := r7.2
  have c7 : s7.gCamera = s.gCamera.UpdateMatrices m := h7.2.2.1.trans (h6.2.2.2.2.trans c5)
  have l7 : s7.postProcessEffectList = s.postProcessEffectList :=
    h7.2.1.trans (h6.2.2.2.1.trans l5)
  have e8 : s8.gCurrentPostProcess = PostProcess.None := h8.2.2.1.trans e7
  have tg8 : s8.gCurrentTarget = g.gSceneRenderTarget1 := h8.1.trans tg7
  have sr8 : s8.gCurrentSRV = g.gSceneTextureSRV2 := h8.2.1.trans sr7
  have c8 : s8.gCamera = s.gCamera.UpdateMatrices m := by rw [h8.2.2.2.2, c7]; rfl
  have l8 : s8.postProcessEffectList = s.postProcessEffectList := h8.2.2.2.1.trans l7
  have e9 : s9.gCurrentPostProcess = PostProcess.None := h9.2.2.1.trans e8
  have tg9 : s9.gCurrentTarget = g.gSceneRenderTarget1 := h9.1.trans tg8
  have sr9 : s9.gCurrentSRV = g.gSceneTextureSRV2 := h9.2.1.trans sr8
  have c9 : s9.gCamera = s.gCamera.UpdateMatrices m := by rw [h9.2.2.2.2, c8]; rfl
  have l9 : s9.postProcessEffectList = s.postProcessEffectList := h9.2.2.2.1.trans l8
  have tg10 : s10.gCurrentTarget = g.gSceneRenderTarget1 := h10.1.trans tg9
  have sr10 : s10.gCurrentSRV = g.gSceneTextureSRV2 := h10.2.1.trans sr9
  have c10 : s10.gCamera = s.gCamera.UpdateMatrices m := by rw [h10.2.2.2.2, c9]; rfl
  have l10 : s10.postProcessEffectList = s.postProcessEffectList := h10.2.2.2.1.trans l9
  have e11 : s11.gCurrentPostProcess = PostProcess.Spiral := rfl
  have tg11 : s11.gCurrentTarget = g.gSceneRenderTarget1 := tg10
  have sr11 : s11.gCurrentSRV = g.gSceneTextureSRV2 := sr10
  have c11 : s11.gCamera = s.gCamera.UpdateMatrices m := c10
  have l11 : s11.postProcessEffectList = s.postProcessEffectList := l10
  have tr11 : s11.trace = s10.trace := rfl
  have tg12 : s12.gCurrentTarget = g.gSceneRenderTarget1 := h12.1.trans tg11
  have sr12 : s12.gCurrentSRV = g.gSceneTextureSRV2 := h12.2.1.trans sr11
  have c12 : s12.gCamera = s.gCamera.UpdateMatrices m := by rw [h12.2.2.2.2, c11]; rfl
  have l12 : s12.postProcessEffectList = s.postProcessEffectList := h12.2.2.2.1.trans l11
  have e13 : s13.gCurrentPostProcess = PostProcess.Distort := rfl
  have tg13 : s13.gCurrentTarget = g.gSceneRenderTarget1 := tg12
  have sr13 : s13.gCurrentSRV = g.gSceneTextureSRV2 := sr12
  have c13 : s13.gCamera = s.gCamera.UpdateMatrices m := c12
  have l13 : s13.postProcessEffectList = s.postProcessEffectList := l12
  have tr13 : s13.trace = s12.trace := rfl
  have tg14 : s14.gCurrentTarget = g.gSceneRenderTarget1 := h14.1.trans tg13
  have sr14 : s14.gCurrentSRV = g.gSceneTextureSRV2 := h14.2.1.trans sr13
  have l14 : s14.postProcessEffectList = s.postProcessEffectList := h14.2.2.2.1.trans l13
  have r15 := SwapPostProcessEffect_roles g s14 SceneTexture.gSceneTexture1
    SceneTexture.gSceneTexture2 (by decide) tg14 sr14
  have l15 : s15.postProcessEffectList = s.postProcessEffectList := h15.2.1.trans l14
  -- the stacked passes and the final pass
  have h16 := applyEffect_foldl g m frameTime s15.postProcessEffectList 0 s15 r15.1 r15.2
  have t17 := PostProcessing_steps g m frameTime g.gBackBufferRenderTarget s17.gCurrentSRV s17
  have e17 : s17.gCurrentPostProcess = PostProcess.None := rfl
  have sr17 : s17.gCurrentSRV
      = g.shaderResourceView (stackedSource s.postProcessEffectList.length) := by
    show s16.gCurrentSRV = _
    rw [h16.2.1, l15, Nat.zero_add]
  have tr17 : s17.trace = s16.trace := rfl
  show (PostProcessing g m g.gBackBufferRenderTarget s17.gCurrentSRV frameTime s17).trace.map Event.step = _
  rw [t17, tr17, h16.1, h15.2.2.2, List.map_append, t14, tr13, t12, tr11, t10, t9, t8,
    h7.2.2.2, List.map_append, t6, t5]
  simp only [e5, tg5, sr5, e7, tg7, sr7, c7, e8, tg8, sr8, c8, e9, tg9, sr9, c9, e11, tg11,
    sr11, c11, e13, tg13, sr13, c13, e17, sr17, l15, ViewProjectionMatrix_UpdateMatrices]
  have sr16 : s16.gCurrentSRV
      = g.shaderResourceView (stackedSource s.postProcessEffectList.length) := sr17
  simp [Event.step, PostProcess.shader, tg10, sr10, c10, tg12, sr12, c12, sr16,
    ViewProjectionMatrix_UpdateMatrices]
  exact ⟨rfl, rfl, rfl, rfl, rfl⟩


theorem frameSteps_eq (s : SceneState K) :
    frameSteps g m frameTime s = expectedSteps g m s.gCamera s.postProcessEffectList := by
  unfold frameSteps frameEvents
  rw [List.map_drop, RenderScene_steps]
  exact List.drop_left' (List.length_map _ _)

theorem stackedSteps_filter (k : Nat) (effects : List PostProcess) :
    (stackedSteps (K := K) g k effects).filter Step.isPass = stackedPasses g k effects := by
  induction effects generalizing k with
  | nil => rfl
  | cons e es ih => simp [stackedSteps, stackedPasses, Step.isPass, ih]

theorem stackedPasses_length (k : Nat) (effects : List PostProcess) :
    (stackedPasses (K := K) g k effects).length = effects.length := by
  induction effects generalizing k with
  | nil => rfl
  | cons e es ih => simp [stackedPasses, ih]

theorem stackedPasses_mem (k : Nat) (effects : List PostProcess) (p : Step K)
    (hp : p ∈ stackedPasses g k effects) :
    ∃ e j, p = Step.fullScreen e e.shader (g.renderTargetView (stackedTarget j))
      (g.shaderResourceView (stackedSource j)) := by
  induction effects generalizing k with
  | nil => simp [stackedPasses] at hp
  | cons e es ih =>
    simp only [stackedPasses, List.mem_cons] at hp
    rcases hp with hp | hp
    · exact ⟨e, k, hp⟩
    · exact ih (k + 1) hp

/-- The passes of a frame, written out. -/
theorem framePasses_eq (s : SceneState K) :
    framePasses g m frameTime s
      = Step.scene g.gSceneRenderTarget1
        :: Step.fullScreen PostProcess.None PixelShader.gCopyPixelShader
            g.gSceneRenderTarget2 g.gSceneTextureSRV1
        :: Step.masked PixelShader.gHLSGradientPostProcess
            (windowPoints m s.gCamera SquareWindowPolygonMatrix)
            g.gSceneRenderTarget1 g.gSceneTextureSRV2
        :: Step.masked PixelShader.gUnderWaterPostProcess
            (windowPoints m s.gCamera (SpadeWindowPolygonMatrix m))
            g.gSceneRenderTarget1 g.gSceneTextureSRV2
        :: Step.masked PixelShader.gRetroPostProcess
            (windowPoints m s.gCamera (DiamondWindowPolygonMatrix m))
            g.gSceneRenderTarget1 g.gSceneTextureSRV2
        :: Step.masked PixelShader.gSpiralPostProcess
            (windowPoints m s.gCamera (ClubWindowPolygonMatrix m))
            g.gSceneRenderTarget1 g.gSceneTextureSRV2
        :: Step.masked PixelShader.gDistortPostProcess
            (windowPoints m s.gCamera (HeartWindowPolygonMatrix m))
            g.gSceneRenderTarget1 g.gSceneTextureSRV2
        :: (stackedPasses g 0 s.postProcessEffectList
            ++ [Step.fullScreen PostProcess.None PixelShader.gCopyPixelShader
                  g.gBackBufferRenderTarget
                  (g.shaderResourceView (stackedSource s.postProcessEffectList.length))]) := by
  unfold framePasses
  rw [frameSteps_eq]
  simp [expectedSteps, Step.isPass, stackedSteps_filter]

/-- Views of two different textures are not the two views of one texture, when the textures
are different resources. -/
theorem views_of_different_textures (hd : g.distinctTextures) (w r : SceneTexture) (hwr : w ≠ r)
    (t : SceneTexture) :
    ¬ (g.renderTargetView w = g.renderTargetView t
        ∧ g.shaderResourceView r = g.shaderResourceView t) := by
  obtain ⟨h1, h2⟩ := hd
  cases w <;> cases r <;> cases t <;>
    simp_all [Globals.renderTargetView, Globals.shaderResourceView, eq_comm]

end PassLemmas

/-! ## The frame of `RenderScene` -/

section Claims

variable {K : Type} [LinearOrderedField K] [FloorRing K]

/-- C1: when the two scene textures are different resources, every post-process pass of a
frame but the last (the seed copy, the five masked passes and the stacked passes,
`6 + n` passes for `n` queued effects) writes one texture of the pair and reads the other one,
and never reads the texture it writes; the last pass writes the back buffer and reads a texture
of the pair. -/
theorem C1_pass_writes_other_texture (g : Globals) (m : CMath K) (frameTime : K)
    (s : SceneState K) (hd : g.distinctTextures) :
    ∃ (post : List (Step K)) (final : Step K) (r : SceneTexture),
      framePasses g m frameTime s = Step.scene g.gSceneRenderTarget1 :: (post ++ [final])
      ∧ post.length = 6 + s.postProcessEffectList.length
      ∧ (∀ p ∈ post,
          (∃ w r, w ≠ r ∧ p.writes g w ∧ p.reads g r) ∧ ∀ t, ¬ (p.writes g t ∧ p.reads g t))
      ∧ final.target? = some g.gBackBufferRenderTarget
      ∧ final.reads g r := by
  rw [framePasses_eq]
  refine ⟨_ :: _ :: _ :: _ :: _ :: _ :: stackedPasses g 0 s.postProcessEffectList, _,
    stackedSource s.postProcessEffectList.length, rfl, ?_, ?_, rfl, rfl⟩
  · simp only [List.length_cons, stackedPasses_length]; omega
  · have key : ∀ (w r : SceneTexture) (p : Step K), w ≠ r →
        p.target? = some (g.renderTargetView w) → p.source? = some (g.shaderResourceView r) →
        (∃ w r, w ≠ r ∧ p.writes g w ∧ p.reads g r) ∧ ∀ t, ¬ (p.writes g t ∧ p.reads g t) := by
      intro w r p hwr ht hs
      refine ⟨⟨w, r, hwr, ht, hs⟩, ?_⟩
      intro t ⟨h1, h2⟩
      unfold Step.writes at h1
      unfold Step.reads at h2
      rw [ht] at h1
      rw [hs] at h2
      exact views_of_different_textures g hd w r hwr t ⟨Option.some.inj h1, Option.some.inj h2⟩
    intro p hp
    simp only [List.mem_cons, List.mem_append] at hp
    rcases hp with rfl | rfl | rfl | rfl | rfl | rfl | hp
    · exact key SceneTexture.gSceneTexture2 SceneTexture.gSceneTexture1 _ (by decide) rfl rfl
    · exact key SceneTexture.gSceneTexture1 SceneTexture.gSceneTexture2 _ (by decide) rfl rfl
    · exact key SceneTexture.gSceneTexture1 SceneTexture.gSceneTexture2 _ (by decide) rfl rfl
    · exact key SceneTexture.gSceneTexture1 SceneTexture.gSceneTexture2 _ (by decide) rfl rfl
    · exact key SceneTexture.gSceneTexture1 SceneTexture.gSceneTexture2 _ (by decide) rfl rfl
    · exact key SceneTexture.gSceneTexture1 SceneTexture.gSceneTexture2 _ (by decide) rfl rfl
    · obtain ⟨e, j, rfl⟩ := stackedPasses_mem g 0 _ p hp
      exact key (stackedTarget j) (stackedSource j) _ (stackedTarget_ne_stackedSource j) rfl rfl


/-- The roles after `n` swaps, from a state whose write target is the view of texture `w` and
whose read source is the view of the other texture `r`. -/
theorem SwapPostProcessEffect_iterate (g : Globals) (s : SceneState K) (w r : SceneTexture)
    (hwr : w ≠ r) (ht : s.gCurrentTarget = g.renderTargetView w)
    (hs : s.gCurrentSRV = g.shaderResourceView r) (n : Nat) :
    ((SwapPostProcessEffect g)^[n] s).gCurrentTarget
        = g.renderTargetView (if n % 2 = 0 then w else r)
    ∧ ((SwapPostProcessEffect g)^[n] s).gCurrentSRV
        = g.shaderResourceView (if n % 2 = 0 then r else w) := by
  induction n with
  | zero => exact ⟨ht, hs⟩
  | succ n ih =>
    rw [Function.iterate_succ_apply']
    rcases Nat.mod_two_eq_zero_or_one n with h | h
    · have h1 : (n + 1) % 2 = 1 := by omega
      simp only [h, h1, if_true, one_ne_zero, if_false] at ih ⊢
      exact SwapPostProcessEffect_roles g _ w r hwr ih.1 ih.2
    · have h1 : (n + 1) % 2 = 0 := by omega
      simp only [h, h1, if_true, one_ne_zero, if_false] at ih ⊢
      exact SwapPostProcessEffect_roles g _ r w (Ne.symm hwr) ih.1 ih.2

/-- C2: from a state whose write target is the view of one scene texture and whose read source
is the view of the other one (two different resources), after `2 * k` calls of
`SwapPostProcessEffect` both roles are on the pointers they started on, after `2 * k + 1`
calls the write target is on the texture that was read and the read source on the texture that
was written, and after any number `n` of calls the two roles are on the views of two
different textures of the pair and not on the two views of one texture. -/
theorem C2_swap_ping_pong (g : Globals) (s : SceneState K) (w r : SceneTexture) (k n : Nat)
    (hd : g.distinctTextures) (hwr : w ≠ r) (ht : s.gCurrentTarget = g.renderTargetView w)
    (hs : s.gCurrentSRV = g.shaderResourceView r) :
    (((SwapPostProcessEffect g)^[2 * k] s).gCurrentTarget = s.gCurrentTarget
      ∧ ((SwapPostProcessEffect g)^[2 * k] s).gCurrentSRV = s.gCurrentSRV)
    ∧ (((SwapPostProcessEffect g)^[2 * k + 1] s).gCurrentTarget = g.renderTargetView r
      ∧ ((SwapPostProcessEffect g)^[2 * k + 1] s).gCurrentSRV = g.shaderResourceView w)
    ∧ (∃ w1 r1, w1 ≠ r1
        ∧ ((SwapPostProcessEffect g)^[n] s).gCurrentTarget = g.renderTargetView w1
        ∧ ((SwapPostProcessEffect g)^[n] s).gCurrentSRV = g.shaderResourceView r1)
    ∧ ∀ t, ¬ (((SwapPostProcessEffect g)^[n] s).gCurrentTarget = g.renderTargetView t
        ∧ ((SwapPostProcessEffect g)^[n] s).gCurrentSRV = g.shaderResourceView t) := by
  have even := SwapPostProcessEffect_iterate g s w r hwr ht hs (2 * k)
  have odd := SwapPostProcessEffect_iterate g s w r hwr ht hs (2 * k + 1)
  have any := SwapPostProcessEffect_iterate g s w r hwr ht hs n
  have h0 : (2 * k) % 2 = 0 := by omega
  have h1 : (2 * k + 1) % 2 = 1 := by omega
  simp only [h0, if_true] at even
  simp only [h1, one_ne_zero, if_false] at odd
  refine ⟨⟨even.1.trans ht.symm, even.2.trans hs.symm⟩, odd, ?_, ?_⟩
  · rcases Nat.mod_two_eq_zero_or_one n with h | h
    · simp only [h, if_true] at any
      exact ⟨w, r, hwr, any.1, any.2⟩
    · simp only [h, one_ne_zero, if_false] at any
      exact ⟨r, w, Ne.symm hwr, any.1, any.2⟩
  intro t ⟨a, b⟩
  rw [any.1] at a
  rw [any.2] at b
  rcases Nat.mod_two_eq_zero_or_one n with h | h
  · simp only [h, if_true] at a b
    exact views_of_different_textures g hd w r hwr t ⟨a, b⟩
  · simp only [h, one_ne_zero, if_false] at a b
    exact views_of_different_textures g hd r w (Ne.symm hwr) t ⟨a, b⟩

/-- C3: for every effect list of `n` effects a frame issues, in this order: the main scene
pass; the seed full-screen pass with effect `None` (copy shader); the five masked passes, HLS
gradient on the square window, underwater on the spade window, retro on the diamond window,
spiral on the club window and distort on the heart window; one full-screen pass per queued
effect in list order, with the shader of that effect; and the final full-screen pass with effect
`None` into the back buffer. These are `n + 8` passes, 10 for the list `[Tint, GreyNoise]`. -/
theorem C3_frame_pass_order (g : Globals) (m : CMath K) (frameTime : K) (s : SceneState K) :
    framePasses g m frameTime s
      = [Step.scene g.gSceneRenderTarget1,
          Step.fullScreen PostProcess.None PixelShader.gCopyPixelShader
            g.gSceneRenderTarget2 g.gSceneTextureSRV1,
          Step.masked PixelShader.gHLSGradientPostProcess
            (windowPoints m s.gCamera SquareWindowPolygonMatrix)
            g.gSceneRenderTarget1 g.gSceneTextureSRV2,
          Step.masked PixelShader.gUnderWaterPostProcess
            (windowPoints m s.gCamera (SpadeWindowPolygonMatrix m))
            g.gSceneRenderTarget1 g.gSceneTextureSRV2,
          Step.masked PixelShader.gRetroPostProcess
            (windowPoints m s.gCamera (DiamondWindowPolygonMatrix m))
            g.gSceneRenderTarget1 g.gSceneTextureSRV2,
          Step.masked PixelShader.gSpiralPostProcess
            (windowPoints m s.gCamera (ClubWindowPolygonMatrix m))
            g.gSceneRenderTarget1 g.gSceneTextureSRV2,
          Step.masked PixelShader.gDistortPostProcess
            (windowPoints m s.gCamera (HeartWindowPolygonMatrix m))
            g.gSceneRenderTarget1 g.gSceneTextureSRV2]
        ++ stackedPasses g 0 s.postProcessEffectList
        ++ [Step.fullScreen PostProcess.None PixelShader.gCopyPixelShader
              g.gBackBufferRenderTarget
              (g.shaderResourceView (stackedSource s.postProcessEffectList.length))]
    ∧ (framePasses g m frameTime s).length = s.postProcessEffectList.length + 8
    ∧ (framePasses g m frameTime
        { s with postProcessEffectList := [PostProcess.Tint, PostProcess.GreyNoise] }).length
        = 10 := by
  refine ⟨?_, ?_, ?_⟩
  · rw [framePasses_eq]; rfl
  · rw [framePasses_eq]
    simp only [List.length_cons, List.length_append, stackedPasses_length, List.length_nil]
  · rw [framePasses_eq]; rfl


theorem stackedPasses_chain (g : Globals) (final : Step K) (effects : List PostProcess) :
    ∀ (k : Nat) (prev : Step K), prev.writes g (stackedSource k) →
      final.reads g (stackedSource (k + effects.length)) →
      List.Chain (fun a b : Step K => ∃ t, a.writes g t ∧ b.reads g t) prev
        (stackedPasses g k effects ++ [final]) := by
  induction effects with
  | nil =>
    intro k prev hp hf
    exact List.Chain.cons ⟨stackedSource k, hp, hf⟩ List.Chain.nil
  | cons e es ih =>
    intro k prev hp hf
    refine List.Chain.cons ⟨stackedSource k, hp, rfl⟩ (ih (k + 1) _ ?_ ?_)
    · show some _ = some _
      rw [stackedSource_succ]
    · rw [Nat.add_assoc, Nat.add_comm 1]
      exact hf

theorem stackedSteps_not_masked (g : Globals) (k : Nat) (effects : List PostProcess) :
    ∀ p ∈ stackedSteps (K := K) g k effects, p.isMasked = false := by
  induction effects generalizing k with
  | nil => simp [stackedSteps]
  | cons e es ih =>
    intro p hp
    simp only [stackedSteps, List.mem_cons] at hp
    rcases hp with rfl | rfl | hp
    · rfl
    · rfl
    · exact ih (k + 1) p hp

/-- C4: in a frame the first stacked full-screen pass reads the texture the masked passes
wrote, every later stacked pass reads the texture written by the stacked pass just before it,
and the final pass, which writes the back buffer, reads the texture written by the last stacked
pass, or the texture the masked passes wrote when the effect list is empty: in the list made of
the fifth masked pass, the stacked passes and the final pass, every pass reads the texture its
predecessor wrote. -/
theorem C4_stacked_passes_chain (g : Globals) (m : CMath K) (frameTime : K)
    (s : SceneState K) :
    ∃ (front : List (Step K)) (masked final : Step K),
      framePasses g m frameTime s
        = front ++ masked :: (stackedPasses g 0 s.postProcessEffectList ++ [final])
      ∧ front.length = 6
      ∧ masked.isMasked = true
      ∧ (∀ p ∈ front, p.isMasked = true → p.target? = masked.target?)
      ∧ final.target? = some g.gBackBufferRenderTarget
      ∧ List.Chain' (fun a b : Step K => ∃ t, a.writes g t ∧ b.reads g t)
          (masked :: (stackedPasses g 0 s.postProcessEffectList ++ [final])) := by
  rw [framePasses_eq]
  refine ⟨[_, _, _, _, _, _], _, _, rfl, rfl, rfl, ?_, rfl, ?_⟩
  · intro p hp hm
    simp only [List.mem_cons, List.mem_singleton, List.not_mem_nil, or_false] at hp
    rcases hp with rfl | rfl | rfl | rfl | rfl | rfl
    · exact absurd hm (by simp [Step.isMasked])
    · exact absurd hm (by simp [Step.isMasked])
    · rfl
    · rfl
    · rfl
    · rfl
  · exact stackedPasses_chain g _ _ 0 _ rfl (by rw [Nat.zero_add]; rfl)

/-- C5: whatever state the previous frame left and whatever the effect list holds, a frame
starts with the main pass into the render target of texture 1, followed by the seed pass, a
full-screen pass with effect `None` (copy shader) that writes the render target of texture 2
and reads the shader-resource view of texture 1, followed by exactly one swap, followed by
the first masked pass. -/
theorem C5_seed_pass (g : Globals) (m : CMath K) (frameTime : K) (s : SceneState K) :
    ∃ (first : Step K) (rest : List (Step K)),
      frameSteps g m frameTime s
        = Step.scene (g.renderTargetView SceneTexture.gSceneTexture1)
          :: Step.fullScreen PostProcess.None PixelShader.gCopyPixelShader
              (g.renderTargetView SceneTexture.gSceneTexture2)
              (g.shaderResourceView SceneTexture.gSceneTexture1)
          :: Step.swap :: first :: rest
      ∧ first.isMasked = true := by
  rw [frameSteps_eq]
  exact ⟨_, _, rfl, rfl⟩

/-- C6: the masked passes of a frame are five consecutive steps, with no swap (and no other
step) between them; all five write the render target of one texture `w` and read the
shader-resource view of the other texture `r`. -/
theorem C6_masked_passes_share_roles (g : Globals) (m : CMath K) (frameTime : K)
    (s : SceneState K) :
    ∃ (w r : SceneTexture) (p1 p2 p3 p4 p5 : PixelShader)
      (q1 q2 q3 q4 q5 : Fin 4 → CVector4 K) (before after : List (Step K)),
      w ≠ r
      ∧ frameSteps g m frameTime s
        = before
          ++ [Step.masked p1 q1 (g.renderTargetView w) (g.shaderResourceView r),
              Step.masked p2 q2 (g.renderTargetView w) (g.shaderResourceView r),
              Step.masked p3 q3 (g.renderTargetView w) (g.shaderResourceView r),
              Step.masked p4 q4 (g.renderTargetView w) (g.shaderResourceView r),
              Step.masked p5 q5 (g.renderTargetView w) (g.shaderResourceView r)]
          ++ after
      ∧ (∀ p ∈ before, p.isMasked = false)
      ∧ (∀ p ∈ after, p.isMasked = false) := by
  rw [frameSteps_eq]
  refine ⟨SceneTexture.gSceneTexture1, SceneTexture.gSceneTexture2, _, _, _, _, _,
    _, _, _, _, _, [_, _, _], _, by decide, rfl, ?_, ?_⟩
  · intro p hp
    simp only [List.mem_cons, List.mem_singleton, List.not_mem_nil, or_false] at hp
    rcases hp with rfl | rfl | rfl <;> rfl
  · intro p hp
    simp only [List.mem_cons, List.mem_append, List.mem_singleton, List.not_mem_nil,
      or_false] at hp
    rcases hp with rfl | hp | rfl
    · rfl
    · exact stackedSteps_not_masked g 0 _ p hp
    · rfl

/-- C7 (as amended): the main scene pass of a frame renders into `gSceneRenderTarget1`, the
render-target view of scene texture 1, a member of the ping-pong pair: the seed pass that
follows reads texture 1 and writes texture 2, and the five masked passes after it write
texture 1. -/
theorem C7_main_pass_target_in_pair (g : Globals) (m : CMath K) (frameTime : K)
    (s : SceneState K) :
    ∃ (seed m1 m2 m3 m4 m5 : Step K) (rest : List (Step K)),
      framePasses g m frameTime s
        = Step.scene (g.renderTargetView SceneTexture.gSceneTexture1)
          :: seed :: m1 :: m2 :: m3 :: m4 :: m5 :: rest
      ∧ seed.reads g SceneTexture.gSceneTexture1
      ∧ seed.writes g SceneTexture.gSceneTexture2
      ∧ ∀ p ∈ [m1, m2, m3, m4, m5],
          p.isMasked = true ∧ p.writes g SceneTexture.gSceneTexture1 := by
  rw [framePasses_eq]
  refine ⟨_, _, _, _, _, _, _, rfl, rfl, rfl, ?_⟩
  intro p hp
  simp only [List.mem_cons, List.mem_singleton, List.not_mem_nil, or_false] at hp
  rcases hp with rfl | rfl | rfl | rfl | rfl <;> exact ⟨rfl, rfl⟩

/-- C7 (as stated) fails: in the frame of the example state with an empty effect list, the
main pass writes render target 1 and so does a later pass of the frame. -/
theorem C7_counterexample :
    (framePasses exampleGlobals (CMath.mk Real.cos Real.sin Real.tan Real.pi) (1 / 60)
        (exampleState (CMath.mk Real.cos Real.sin Real.tan Real.pi) [])).head?
      = some (Step.scene 1)
    ∧ ¬ ∀ p ∈ (framePasses exampleGlobals (CMath.mk Real.cos Real.sin Real.tan Real.pi) (1 / 60)
          (exampleState (CMath.mk Real.cos Real.sin Real.tan Real.pi) [])).tail,
        p.target? ≠ some 1 := by
  rw [framePasses_eq]
  refine ⟨rfl, ?_⟩
  intro h
  exact h _ (List.mem_cons_of_mem _ (List.mem_cons_self _ _)) rfl


/-- The hypothesis of C1 holds for the example globals, whose view pointers are all different;
the frame is that of the example state with the effect list `[Tint, GreyNoise]`. -/
theorem C1_pass_writes_other_texture_witness :
    exampleGlobals.distinctTextures
    ∧ ∃ (post : List (Step ℝ)) (final : Step ℝ) (r : SceneTexture),
        framePasses exampleGlobals (CMath.mk Real.cos Real.sin Real.tan Real.pi) (1 / 60)
            (exampleState (CMath.mk Real.cos Real.sin Real.tan Real.pi) [PostProcess.Tint, PostProcess.GreyNoise])
          = Step.scene exampleGlobals.gSceneRenderTarget1 :: (post ++ [final])
        ∧ post.length
          = 6 + (exampleState (CMath.mk Real.cos Real.sin Real.tan Real.pi)
              [PostProcess.Tint, PostProcess.GreyNoise]).postProcessEffectList.length
        ∧ (∀ p ∈ post,
            (∃ w r, w ≠ r ∧ p.writes exampleGlobals w ∧ p.reads exampleGlobals r)
            ∧ ∀ t, ¬ (p.writes exampleGlobals t ∧ p.reads exampleGlobals t))
        ∧ final.target? = some exampleGlobals.gBackBufferRenderTarget
        ∧ final.reads exampleGlobals r :=
  ⟨by decide,
    C1_pass_writes_other_texture exampleGlobals (CMath.mk Real.cos Real.sin Real.tan Real.pi) (1 / 60)
      (exampleState (CMath.mk Real.cos Real.sin Real.tan Real.pi) [PostProcess.Tint, PostProcess.GreyNoise]) (by decide)⟩

/-- The hypotheses of C2 hold for the example globals and the example state in which the
write target is the render target of texture 2 and the read source the shader-resource view of
texture 1, the roles `RenderScene` assigns before the seed pass; here with two and with three
swaps. -/
theorem C2_swap_ping_pong_witness :
    exampleGlobals.distinctTextures
    ∧ SceneTexture.gSceneTexture2 ≠ SceneTexture.gSceneTexture1
    ∧ (exampleSeedState (CMath.mk Real.cos Real.sin Real.tan Real.pi)).gCurrentTarget
        = exampleGlobals.renderTargetView SceneTexture.gSceneTexture2
    ∧ (exampleSeedState (CMath.mk Real.cos Real.sin Real.tan Real.pi)).gCurrentSRV
        = exampleGlobals.shaderResourceView SceneTexture.gSceneTexture1
    ∧ (((SwapPostProcessEffect exampleGlobals)^[2 * 1] (exampleSeedState (CMath.mk Real.cos Real.sin Real.tan Real.pi))).gCurrentTarget
          = (exampleSeedState (CMath.mk Real.cos Real.sin Real.tan Real.pi)).gCurrentTarget
        ∧ ((SwapPostProcessEffect exampleGlobals)^[2 * 1] (exampleSeedState (CMath.mk Real.cos Real.sin Real.tan Real.pi))).gCurrentSRV
          = (exampleSeedState (CMath.mk Real.cos Real.sin Real.tan Real.pi)).gCurrentSRV)
    ∧ (((SwapPostProcessEffect exampleGlobals)^[2 * 1 + 1] (exampleSeedState (CMath.mk Real.cos Real.sin Real.tan Real.pi))).gCurrentTarget
          = exampleGlobals.renderTargetView SceneTexture.gSceneTexture1
        ∧ ((SwapPostProcessEffect exampleGlobals)^[2 * 1 + 1] (exampleSeedState (CMath.mk Real.cos Real.sin Real.tan Real.pi))).gCurrentSRV
          = exampleGlobals.shaderResourceView SceneTexture.gSceneTexture2)
    ∧ (∃ w1 r1, w1 ≠ r1
        ∧ ((SwapPostProcessEffect exampleGlobals)^[3] (exampleSeedState (CMath.mk Real.cos Real.sin Real.tan Real.pi))).gCurrentTarget
          = exampleGlobals.renderTargetView w1
        ∧ ((SwapPostProcessEffect exampleGlobals)^[3] (exampleSeedState (CMath.mk Real.cos Real.sin Real.tan Real.pi))).gCurrentSRV
          = exampleGlobals.shaderResourceView r1)
    ∧ ∀ t, ¬ (((SwapPostProcessEffect exampleGlobals)^[3] (exampleSeedState (CMath.mk Real.cos Real.sin Real.tan Real.pi))).gCurrentTarget
          = exampleGlobals.renderTargetView t
        ∧ ((SwapPostProcessEffect exampleGlobals)^[3] (exampleSeedState (CMath.mk Real.cos Real.sin Real.tan Real.pi))).gCurrentSRV
          = exampleGlobals.shaderResourceView t) :=
  ⟨by decide, by decide, rfl, rfl,
    C2_swap_ping_pong exampleGlobals (exampleSeedState (CMath.mk Real.cos Real.sin Real.tan Real.pi))
      SceneTexture.gSceneTexture2 SceneTexture.gSceneTexture1 1 3 (by decide) (by decide)
      rfl rfl⟩

end Claims

/-! ## The camera matrices -/

section CameraClaims

/-- C8: for every camera position and rotation, in exact real arithmetic, the view matrix is
the affine inverse of the world matrix and it is its inverse: the product of the matrices
returned by `ViewMatrix()` and `WorldMatrix()`, in either order, is the identity matrix. -/
theorem C8_view_matrix_inverts_world_matrix (c : Camera ℝ) :
    c.ViewMatrix (CMath.mk Real.cos Real.sin Real.tan Real.pi)
      = InverseAffine (c.WorldMatrix (CMath.mk Real.cos Real.sin Real.tan Real.pi))
    ∧ c.ViewMatrix (CMath.mk Real.cos Real.sin Real.tan Real.pi)
        * c.WorldMatrix (CMath.mk Real.cos Real.sin Real.tan Real.pi) = MatrixIdentity
    ∧ c.WorldMatrix (CMath.mk Real.cos Real.sin Real.tan Real.pi)
        * c.ViewMatrix (CMath.mk Real.cos Real.sin Real.tan Real.pi) = MatrixIdentity := by
  have h := view_mul_world (CMath.mk Real.cos Real.sin Real.tan Real.pi)
    (fun a => by
      show Real.cos a * Real.cos a + Real.sin a * Real.sin a = 1
      have := Real.cos_sq_add_sin_sq a
      rw [sq, sq] at this
      exact this) c
  exact ⟨rfl, h.1, h.2⟩

/-- C9: for every camera position and rotation, over any field of scalars, the matrix returned
by `WorldMatrix()` is the product rotationZ(rot.z) x rotationX(rot.x) x rotationY(rot.y) x
translation(pos); transforming a row vector by it applies the Z rotation first, then the X
rotation, then the Y rotation, and the translation last. -/
theorem C9_world_matrix_is_ZXY_then_translation {K : Type} [Field K] (m : CMath K)
    (c : Camera K) :
    c.WorldMatrix m
      = MatrixRotationZ m c.mRotation.z * MatrixRotationX m c.mRotation.x
        * MatrixRotationY m c.mRotation.y * MatrixTranslation c.mPosition
    ∧ ∀ v : CVector4 K,
        TransformVector4 v (c.WorldMatrix m)
          = TransformVector4
              (TransformVector4
                (TransformVector4 (TransformVector4 v (MatrixRotationZ m c.mRotation.z))
                  (MatrixRotationX m c.mRotation.x))
                (MatrixRotationY m c.mRotation.y))
              (MatrixTranslation c.mPosition) := by
  have hw : c.WorldMatrix m
      = MatrixRotationZ m c.mRotation.z * MatrixRotationX m c.mRotation.x
        * MatrixRotationY m c.mRotation.y * MatrixTranslation c.mPosition := rfl
  refine ⟨hw, fun v => ?_⟩
  rw [hw, TransformVector4_mul, TransformVector4_mul, TransformVector4_mul]

/-- C10: for every horizontal field of view with `tan (fovx / 2) ≠ 0`, aspect ratio `a` and
clip distances `n ≠ f`, the matrix returned by `ProjectionMatrix()` has the rows
`(scaleX, 0, 0, 0)`, `(0, scaleY, 0, 0)`, `(0, 0, scaleZa, 1)`, `(0, 0, scaleZb, 0)` with
`scaleX = 1 / tan (fovx / 2)`, `scaleY = a * scaleX`, `scaleZa = f / (f - n)` and
`scaleZb = -n * scaleZa`, where the two quotients are genuine (`scaleX * tan (fovx / 2) = 1`
and `scaleZa * (f - n) = f`); with aspect ratio 1 the entries `scaleX` and `scaleY` are
equal. -/
theorem C10_projection_matrix_entries {K : Type} [Field K] (m : CMath K) (c : Camera K)
    (htan : m.tan (c.mFOVx / 2) ≠ 0) (hclip : c.mNearClip ≠ c.mFarClip) :
    c.ProjectionMatrix m
      = { e00 := 1 / m.tan (c.mFOVx / 2), e01 := 0, e02 := 0, e03 := 0
          e10 := 0, e11 := c.mAspectRatio * (1 / m.tan (c.mFOVx / 2)), e12 := 0, e13 := 0
          e20 := 0, e21 := 0, e22 := c.mFarClip / (c.mFarClip - c.mNearClip), e23 := 1
          e30 := 0, e31 := 0
          e32 := -c.mNearClip * (c.mFarClip / (c.mFarClip - c.mNearClip)), e33 := 0 }
    ∧ (c.ProjectionMatrix m).e00 * m.tan (c.mFOVx / 2) = 1
    ∧ (c.ProjectionMatrix m).e22 * (c.mFarClip - c.mNearClip) = c.mFarClip
    ∧ (Camera.ProjectionMatrix m { c with mAspectRatio := 1 }).e00
        = (Camera.ProjectionMatrix m { c with mAspectRatio := 1 }).e11 := by
  have hhalf : c.mFOVx * (1 / 2) = c.mFOVx / 2 := by ring
  have hsub : c.mFarClip - c.mNearClip ≠ 0 := sub_ne_zero.mpr (Ne.symm hclip)
  refine ⟨?_, ?_, ?_, ?_⟩
  · ext <;> simp only [Camera.ProjectionMatrix, Camera.UpdateMatrices, hhalf]
    ring
  · simp only [Camera.ProjectionMatrix, Camera.UpdateMatrices, hhalf]
    exact one_div_mul_cancel htan
  · simp only [Camera.ProjectionMatrix, Camera.UpdateMatrices]
    exact div_mul_cancel₀ _ hsub
  · simp only [Camera.ProjectionMatrix, Camera.UpdateMatrices]

/-- A camera with which the hypotheses of C10 hold: the camera of `InitScene` over the real
numbers, with field of view `π / 3`, near clip 0.1 and far clip 10000. -/
theorem C10_projection_matrix_entries_witness :
    Real.tan ((exampleCamera (CMath.mk Real.cos Real.sin Real.tan Real.pi)).mFOVx / 2) ≠ 0
    ∧ (exampleCamera (CMath.mk Real.cos Real.sin Real.tan Real.pi)).mNearClip
        ≠ (exampleCamera (CMath.mk Real.cos Real.sin Real.tan Real.pi)).mFarClip
    ∧ (exampleCamera (CMath.mk Real.cos Real.sin Real.tan Real.pi)).ProjectionMatrix
          (CMath.mk Real.cos Real.sin Real.tan Real.pi)
        = { e00 := 1 / Real.tan (Real.pi / 3 / 2), e01 := 0, e02 := 0, e03 := 0
            e10 := 0, e11 := 4 / 3 * (1 / Real.tan (Real.pi / 3 / 2)), e12 := 0, e13 := 0
            e20 := 0, e21 := 0, e22 := 10000 / (10000 - 1 / 10), e23 := 1
            e30 := 0, e31 := 0, e32 := -(1 / 10) * (10000 / (10000 - 1 / 10)), e33 := 0 } := by
  have htan : Real.tan (Real.pi / 3 / 2) ≠ 0 := by
    have hpos : (0 : ℝ) < Real.pi / 3 / 2 := by positivity
    have hlt : Real.pi / 3 / 2 < Real.pi / 2 := by linarith [Real.pi_pos]
    exact (Real.tan_pos_of_pos_of_lt_pi_div_two hpos hlt).ne'
  have hclip : (1 / 10 : ℝ) ≠ 10000 := by norm_num
  exact ⟨htan, hclip,
    (C10_projection_matrix_entries (CMath.mk Real.cos Real.sin Real.tan Real.pi)
      (exampleCamera (CMath.mk Real.cos Real.sin Real.tan Real.pi)) htan hclip).1⟩

end CameraClaims

/-! ## Projection and polygon projection -/

section ProjectionClaims

/-- C11: for every lens with far > near > 0 and every view-space point `(x, y, z, 1)`
multiplied as a row vector by the matrix `ProjectionMatrix()` returns, the resulting `w` is
`z`; the depth `z' / w'` is 0 for a point with `z = near` and 1 for a point with `z = far`. -/
theorem C11_projection_depth_range {K : Type} [LinearOrderedField K] (m : CMath K)
    (c : Camera K) (x y z : K) (hnear : 0 < c.mNearClip) (hfar : c.mNearClip < c.mFarClip) :
    (TransformVector4 (CVector4.mk x y z 1) (c.ProjectionMatrix m)).w = z
    ∧ (TransformVector4 (CVector4.mk x y c.mNearClip 1) (c.ProjectionMatrix m)).z
        / (TransformVector4 (CVector4.mk x y c.mNearClip 1) (c.ProjectionMatrix m)).w = 0
    ∧ (TransformVector4 (CVector4.mk x y c.mFarClip 1) (c.ProjectionMatrix m)).z
        / (TransformVector4 (CVector4.mk x y c.mFarClip 1) (c.ProjectionMatrix m)).w = 1 := by
  have hsub : c.mFarClip - c.mNearClip ≠ 0 := (sub_pos.mpr hfar).ne'
  have hf : c.mFarClip ≠ 0 := (hnear.trans hfar).ne'
  simp only [TransformVector4, Camera.ProjectionMatrix, Camera.UpdateMatrices]
  refine ⟨by ring, ?_, ?_⟩
  · have h0 : x * 0 + y * 0 + c.mNearClip * (c.mFarClip / (c.mFarClip - c.mNearClip))
        + 1 * (-c.mNearClip * (c.mFarClip / (c.mFarClip - c.mNearClip))) = 0 := by ring
    rw [h0, zero_div]
  · have h1 : x * 0 + y * 0 + c.mFarClip * (c.mFarClip / (c.mFarClip - c.mNearClip))
        + 1 * (-c.mNearClip * (c.mFarClip / (c.mFarClip - c.mNearClip))) = c.mFarClip := by
      field_simp
      ring
    have h2 : x * 0 + y * 0 + c.mFarClip * 1 + 1 * 0 = c.mFarClip := by ring
    rw [h1, h2, div_self hf]

/-- The hypotheses of C11 hold for the camera of `InitScene` over the real numbers (near clip
0.1, far clip 10000), here with the point `(3, 4, 5, 1)`. -/
theorem C11_projection_depth_range_witness :
    (0 : ℝ) < (exampleCamera (CMath.mk Real.cos Real.sin Real.tan Real.pi)).mNearClip
    ∧ (exampleCamera (CMath.mk Real.cos Real.sin Real.tan Real.pi)).mNearClip < (exampleCamera (CMath.mk Real.cos Real.sin Real.tan Real.pi)).mFarClip
    ∧ (TransformVector4 (CVector4.mk 3 4 5 1) ((exampleCamera (CMath.mk Real.cos Real.sin Real.tan Real.pi)).ProjectionMatrix (CMath.mk Real.cos Real.sin Real.tan Real.pi))).w = 5
    ∧ (TransformVector4 (CVector4.mk 3 4 (exampleCamera (CMath.mk Real.cos Real.sin Real.tan Real.pi)).mNearClip 1)
          ((exampleCamera (CMath.mk Real.cos Real.sin Real.tan Real.pi)).ProjectionMatrix (CMath.mk Real.cos Real.sin Real.tan Real.pi))).z
        / (TransformVector4 (CVector4.mk 3 4 (exampleCamera (CMath.mk Real.cos Real.sin Real.tan Real.pi)).mNearClip 1)
          ((exampleCamera (CMath.mk Real.cos Real.sin Real.tan Real.pi)).ProjectionMatrix (CMath.mk Real.cos Real.sin Real.tan Real.pi))).w = 0
    ∧ (TransformVector4 (CVector4.mk 3 4 (exampleCamera (CMath.mk Real.cos Real.sin Real.tan Real.pi)).mFarClip 1)
          ((exampleCamera (CMath.mk Real.cos Real.sin Real.tan Real.pi)).ProjectionMatrix (CMath.mk Real.cos Real.sin Real.tan Real.pi))).z
        / (TransformVector4 (CVector4.mk 3 4 (exampleCamera (CMath.mk Real.cos Real.sin Real.tan Real.pi)).mFarClip 1)
          ((exampleCamera (CMath.mk Real.cos Real.sin Real.tan Real.pi)).ProjectionMatrix (CMath.mk Real.cos Real.sin Real.tan Real.pi))).w = 1 := by
  have hnear : (0 : ℝ) < 1 / 10 := by norm_num
  have hfar : (1 / 10 : ℝ) < 10000 := by norm_num
  exact ⟨hnear, hfar,
    C11_projection_depth_range (CMath.mk Real.cos Real.sin Real.tan Real.pi) (exampleCamera (CMath.mk Real.cos Real.sin Real.tan Real.pi)) 3 4 5 hnear hfar⟩

/-- The view-projection matrix of the origin camera over the real numbers: the view matrix is
the identity, so it is the projection matrix for near clip 1 and far clip 100. Only the
entries that act on a point of the Z axis are listed. -/
theorem originCamera_viewProjection :
    ((originCamera (CMath.mk Real.cos Real.sin Real.tan Real.pi)).ViewProjectionMatrix
        (CMath.mk Real.cos Real.sin Real.tan Real.pi)).e22 = 100 / 99
    ∧ ((originCamera (CMath.mk Real.cos Real.sin Real.tan Real.pi)).ViewProjectionMatrix
        (CMath.mk Real.cos Real.sin Real.tan Real.pi)).e32 = -(100 / 99)
    ∧ ((originCamera (CMath.mk Real.cos Real.sin Real.tan Real.pi)).ViewProjectionMatrix
        (CMath.mk Real.cos Real.sin Real.tan Real.pi)).e23 = 1
    ∧ ((originCamera (CMath.mk Real.cos Real.sin Real.tan Real.pi)).ViewProjectionMatrix
        (CMath.mk Real.cos Real.sin Real.tan Real.pi)).e33 = 0 := by
  simp only [Camera.ViewProjectionMatrix, Camera.UpdateMatrices, originCamera,
    CMatrix4x4.mul_def, CMatrix4x4.mul, InverseAffine, MatrixRotationX, MatrixRotationY,
    MatrixRotationZ, MatrixTranslation, Real.cos_zero, Real.sin_zero]
  norm_num


/-- C12 (as amended): for the camera at the origin with zero rotation, field of view 60
degrees, aspect ratio 1, near clip 1 and far clip 100, the point `(0, 0, 1)`, one unit in front
of the camera, projects through `ViewProjectionMatrix()` onto the near plane: `w' = 1` and
`z' / w' = 0`. The point `(0, 0, -1)` lies behind the camera: it projects to `w' = -1` and
`z' / w' = 200 / 99`. -/
theorem C12_near_plane_point :
    (TransformVector4 (CVector4.mk 0 0 1 1)
        ((originCamera (CMath.mk Real.cos Real.sin Real.tan Real.pi)).ViewProjectionMatrix (CMath.mk Real.cos Real.sin Real.tan Real.pi))).w = 1
    ∧ (TransformVector4 (CVector4.mk 0 0 1 1)
        ((originCamera (CMath.mk Real.cos Real.sin Real.tan Real.pi)).ViewProjectionMatrix (CMath.mk Real.cos Real.sin Real.tan Real.pi))).z
      / (TransformVector4 (CVector4.mk 0 0 1 1)
        ((originCamera (CMath.mk Real.cos Real.sin Real.tan Real.pi)).ViewProjectionMatrix (CMath.mk Real.cos Real.sin Real.tan Real.pi))).w = 0
    ∧ (TransformVector4 (CVector4.mk 0 0 (-1) 1)
        ((originCamera (CMath.mk Real.cos Real.sin Real.tan Real.pi)).ViewProjectionMatrix (CMath.mk Real.cos Real.sin Real.tan Real.pi))).w = -1
    ∧ (TransformVector4 (CVector4.mk 0 0 (-1) 1)
        ((originCamera (CMath.mk Real.cos Real.sin Real.tan Real.pi)).ViewProjectionMatrix (CMath.mk Real.cos Real.sin Real.tan Real.pi))).z
      / (TransformVector4 (CVector4.mk 0 0 (-1) 1)
        ((originCamera (CMath.mk Real.cos Real.sin Real.tan Real.pi)).ViewProjectionMatrix (CMath.mk Real.cos Real.sin Real.tan Real.pi))).w = 200 / 99 := by
  obtain ⟨h22, h32, h23, h33⟩ := originCamera_viewProjection
  simp only [TransformVector4, h22, h32, h23, h33]
  norm_num

/-- C12 (as stated) fails: for the origin camera the point `(0, 0, -1)` does not project to
`z' / w' = 0`. -/
theorem C12_counterexample :
    ¬ ((TransformVector4 (CVector4.mk 0 0 (-1) 1)
          ((originCamera (CMath.mk Real.cos Real.sin Real.tan Real.pi)).ViewProjectionMatrix (CMath.mk Real.cos Real.sin Real.tan Real.pi))).z
        / (TransformVector4 (CVector4.mk 0 0 (-1) 1)
          ((originCamera (CMath.mk Real.cos Real.sin Real.tan Real.pi)).ViewProjectionMatrix (CMath.mk Real.cos Real.sin Real.tan Real.pi))).w = 0) := by
  obtain ⟨h22, h32, h23, h33⟩ := originCamera_viewProjection
  simp only [TransformVector4, h22, h32, h23, h33]
  norm_num

/-- C14: for every camera state the matrix returned by `ViewProjectionMatrix()` is the matrix
returned by `ViewMatrix()` multiplied by the one returned by `ProjectionMatrix()`, and
transforming a row vector by it is transforming it by the view matrix and then by the
projection matrix. -/
theorem C14_view_projection_is_view_times_projection {K : Type} [Field K] (m : CMath K)
    (c : Camera K) :
    c.ViewProjectionMatrix m = c.ViewMatrix m * c.ProjectionMatrix m
    ∧ ∀ v : CVector4 K,
        TransformVector4 v (c.ViewProjectionMatrix m)
          = TransformVector4 (TransformVector4 v (c.ViewMatrix m)) (c.ProjectionMatrix m) := by
  have h : c.ViewProjectionMatrix m = c.ViewMatrix m * c.ProjectionMatrix m := rfl
  refine ⟨h, fun v => ?_⟩
  rw [h, TransformVector4_mul]

end ProjectionClaims


section ViewProjectionShape

variable {K : Type} [Field K]

/-- No camera state has the identity as its view-projection matrix: its entries `e22` and
`e23` are `scaleZa` times, and once, the same entry of the view matrix. -/
theorem ViewProjectionMatrix_ne_identity (m : CMath K) (c : Camera K) :
    c.ViewProjectionMatrix m ≠ MatrixIdentity := by
  intro h
  have h23 := congrArg CMatrix4x4.e23 h
  have h22 := congrArg CMatrix4x4.e22 h
  simp only [Camera.ViewProjectionMatrix, Camera.UpdateMatrices, CMatrix4x4.mul_def,
    CMatrix4x4.mul, InverseAffine, MatrixIdentity, mul_zero, zero_mul, add_zero, zero_add,
    mul_one] at h23 h22
  rw [h23, zero_mul] at h22
  exact zero_ne_one h22

end ViewProjectionShape

section PolygonClaims

variable {K : Type} [LinearOrderedField K] [FloorRing K]

/-- The polygon points in the constant buffer after `PolygonPostProcess`. -/
theorem PolygonPostProcess_polygon2DPoints (g : Globals) (m : CMath K)
    (postProcess : PixelShader) (points : Fin 4 → CVector3 K) (worldMatrix : CMatrix4x4 K)
    (frameTime : K) (s : SceneState K) :
    (PolygonPostProcess g m postProcess points worldMatrix
        frameTime s).gPostProcessingConstants.polygon2DPoints
      = projectPolygon points worldMatrix (s.gCamera.ViewProjectionMatrix m) := by
  obtain ⟨e, cam, c, l, t, r, w1, w2, w3, w4, w5, w6, rv, rc, ctx, tr⟩ := s
  have h4 : List.finRange 4 = [0, 1, 2, 3] := rfl
  cases e <;>
    simp [PolygonPostProcess, PolygonPostProcess.transformPoint, h4,
      SceneState.OMSetRenderTargets, SceneState.PSSetShaderResources,
      SceneState.VSSetShader, SceneState.PSSetShader, SceneState.Draw, SceneState.setConstants,
      SceneState.setFullScreenArea, SceneState.randomOffset,
      Camera.ViewProjectionMatrix, UpdateMatrices_UpdateMatrices] <;>
    (funext i; fin_cases i <;> simp [Function.update, projectPolygon])

/-- C13: for every four corners, placement matrix and camera, `PolygonPostProcess` leaves in
`polygon2DPoints[i]`, and draws with it, the row vector `(corner_i, 1)` transformed by the
placement matrix and then by the view-projection matrix of the camera, for each `i` in corner
order. With the identity for both matrices this projection returns the corners with `w = 1`:
`(-1,1,0,1)`, `(1,1,0,1)`, `(-1,-1,0,1)`, `(1,-1,0,1)` for the square of `PolygonPoints`.
Written out in the entries of the matrices, the stored point is the row vector
`(wx, wy, wz, ww)` times the view-projection matrix, where `(wx, wy, wz, ww)` is the row
vector `(corner_i, 1)` times the placement matrix: component `j` of a product is the sum of
the components of the vector times the entries of column `j`. For the corner `(-1, 1, 0)`,
the placement of the square window (scaling 5, translation `(0, 10, -50)`) and a matrix with
the entries `2, 3, 1` on the diagonal, `e23 = 1`, `e30 = 7`, `e32 = -1`, the two products
give `(-5, 15, -50, 1)` and then `(-3, 45, -51, -50)`. -/
theorem C13_polygon_points_projected (g : Globals) (m : CMath K) (postProcess : PixelShader)
    (points : Fin 4 → CVector3 K) (worldMatrix : CMatrix4x4 K) (frameTime : K)
    (s : SceneState K) :
    (∀ i : Fin 4,
      (PolygonPostProcess g m postProcess points worldMatrix
          frameTime s).gPostProcessingConstants.polygon2DPoints i
        = TransformVector4 (TransformVector4 (CVector4.ofVector3 (points i) 1) worldMatrix)
            (s.gCamera.ViewProjectionMatrix m))
    ∧ (∃ ps, (PolygonPostProcess g m postProcess points worldMatrix
          frameTime s).trace.map Event.step
        = s.trace.map Event.step
          ++ [Step.masked ps
                (projectPolygon points worldMatrix (s.gCamera.ViewProjectionMatrix m))
                s.gCurrentTarget s.gCurrentSRV])
    ∧ (∀ i : Fin 4,
        projectPolygon points MatrixIdentity MatrixIdentity i = CVector4.ofVector3 (points i) 1)
    ∧ projectPolygon (K := K) PolygonPoints MatrixIdentity MatrixIdentity
        = ![CVector4.mk (-1) 1 0 1, CVector4.mk 1 1 0 1, CVector4.mk (-1) (-1) 0 1,
            CVector4.mk 1 (-1) 0 1]
    ∧ (∀ i : Fin 4, ∃ wx wy wz ww : K,
        wx = (points i).x * worldMatrix.e00 + (points i).y * worldMatrix.e10
              + (points i).z * worldMatrix.e20 + worldMatrix.e30
        ∧ wy = (points i).x * worldMatrix.e01 + (points i).y * worldMatrix.e11
              + (points i).z * worldMatrix.e21 + worldMatrix.e31
        ∧ wz = (points i).x * worldMatrix.e02 + (points i).y * worldMatrix.e12
              + (points i).z * worldMatrix.e22 + worldMatrix.e32
        ∧ ww = (points i).x * worldMatrix.e03 + (points i).y * worldMatrix.e13
              + (points i).z * worldMatrix.e23 + worldMatrix.e33
        ∧ (PolygonPostProcess g m postProcess points worldMatrix
            frameTime s).gPostProcessingConstants.polygon2DPoints i
          = CVector4.mk
              (wx * (s.gCamera.ViewProjectionMatrix m).e00
                + wy * (s.gCamera.ViewProjectionMatrix m).e10
                + wz * (s.gCamera.ViewProjectionMatrix m).e20
                + ww * (s.gCamera.ViewProjectionMatrix m).e30)
              (wx * (s.gCamera.ViewProjectionMatrix m).e01
                + wy * (s.gCamera.ViewProjectionMatrix m).e11
                + wz * (s.gCamera.ViewProjectionMatrix m).e21
                + ww * (s.gCamera.ViewProjectionMatrix m).e31)
              (wx * (s.gCamera.ViewProjectionMatrix m).e02
                + wy * (s.gCamera.ViewProjectionMatrix m).e12
                + wz * (s.gCamera.ViewProjectionMatrix m).e22
                + ww * (s.gCamera.ViewProjectionMatrix m).e32)
              (wx * (s.gCamera.ViewProjectionMatrix m).e03
                + wy * (s.gCamera.ViewProjectionMatrix m).e13
                + wz * (s.gCamera.ViewProjectionMatrix m).e23
                + ww * (s.gCamera.ViewProjectionMatrix m).e33))
    ∧ TransformVector4
          (TransformVector4 (CVector4.ofVector3 (PolygonPoints (K := K) 0) 1)
            { e00 := 5, e01 := 0, e02 := 0, e03 := 0
              e10 := 0, e11 := 5, e12 := 0, e13 := 0
              e20 := 0, e21 := 0, e22 := 5, e23 := 0
              e30 := 0, e31 := 10, e32 := -50, e33 := 1 })
          { e00 := 2, e01 := 0, e02 := 0, e03 := 0
            e10 := 0, e11 := 3, e12 := 0, e13 := 0
            e20 := 0, e21 := 0, e22 := 1, e23 := 1
            e30 := 7, e31 := 0, e32 := -1, e33 := 0 }
        = CVector4.mk (-3) 45 (-51) (-50) := by
  have hid : ∀ v : CVector4 K, TransformVector4 v MatrixIdentity = v := by
    intro v
    obtain ⟨x, y, z, w⟩ := v
    simp [TransformVector4, MatrixIdentity]
  refine ⟨fun i => ?_, ⟨_, PolygonPostProcess_steps g m frameTime postProcess points
    worldMatrix s⟩, fun i => ?_, ?_, fun i => ?_, ?_⟩
  · rw [PolygonPostProcess_polygon2DPoints]
    rfl
  · simp only [projectPolygon, hid]
  · funext i
    simp only [projectPolygon, hid]
    fin_cases i <;> rfl
  · refine ⟨_, _, _, _, rfl, rfl, rfl, rfl, ?_⟩
    rw [PolygonPostProcess_polygon2DPoints]
    simp only [projectPolygon, TransformVector4, CVector4.ofVector3, one_mul]
  · simp only [TransformVector4, CVector4.ofVector3, PolygonPoints, Matrix.cons_val_zero,
      CVector4.mk.injEq]
    norm_num

end PolygonClaims

/-! ## Camera operations -/

section ControlLemmas

variable {K : Type} [Field K]

/-- The camera after `Control`, in closed form: pitch and yaw move by
`ROTATION_SPEED * frameTime` per held arrow key, the position moves by
`MOVEMENT_SPEED * frameTime` times the first and third rows of the stored world matrix per held
letter key, and nothing else changes. The key parameters do not occur. -/
theorem Control_eq (KeyHeld : KeyCode → Bool) (frameTime : K)
    (k1 k2 k3 k4 k5 k6 k7 k8 : KeyCode) (c : Camera K) :
    c.Control KeyHeld frameTime k1 k2 k3 k4 k5 k6 k7 k8
      = { c with
          mRotation := CVector3.mk
            (c.mRotation.x
              + ((if KeyHeld KeyCode.Key_Down then 1 else 0)
                  - (if KeyHeld KeyCode.Key_Up then 1 else 0)) * (ROTATION_SPEED * frameTime))
            (c.mRotation.y
              + ((if KeyHeld KeyCode.Key_Right then 1 else 0)
                  - (if KeyHeld KeyCode.Key_Left then 1 else 0)) * (ROTATION_SPEED * frameTime))
            c.mRotation.z
          mPosition := CVector3.mk
            (c.mPosition.x
              + ((if KeyHeld KeyCode.Key_D then 1 else 0)
                  - (if KeyHeld KeyCode.Key_A then 1 else 0))
                * (MOVEMENT_SPEED * frameTime * c.mWorldMatrix.e00)
              + ((if KeyHeld KeyCode.Key_W then 1 else 0)
                  - (if KeyHeld KeyCode.Key_S then 1 else 0))
                * (MOVEMENT_SPEED * frameTime * c.mWorldMatrix.e20))
            (c.mPosition.y
              + ((if KeyHeld KeyCode.Key_D then 1 else 0)
                  - (if KeyHeld KeyCode.Key_A then 1 else 0))
                * (MOVEMENT_SPEED * frameTime * c.mWorldMatrix.e01)
              + ((if KeyHeld KeyCode.Key_W then 1 else 0)
                  - (if KeyHeld KeyCode.Key_S then 1 else 0))
                * (MOVEMENT_SPEED * frameTime * c.mWorldMatrix.e21))
            (c.mPosition.z
              + ((if KeyHeld KeyCode.Key_D then 1 else 0)
                  - (if KeyHeld KeyCode.Key_A then 1 else 0))
                * (MOVEMENT_SPEED * frameTime * c.mWorldMatrix.e02)
              + ((if KeyHeld KeyCode.Key_W then 1 else 0)
                  - (if KeyHeld KeyCode.Key_S then 1 else 0))
                * (MOVEMENT_SPEED * frameTime * c.mWorldMatrix.e22)) } := by
  unfold Camera.Control
  lift_lets
  intro r0 c1 r1 c2 r2 c3 r3 c4 c5 c6 c7 c8
  have hrot : c4 = { c with
      mRotation := CVector3.mk
        (c.mRotation.x
          + ((if KeyHeld KeyCode.Key_Down then 1 else 0)
              - (if KeyHeld KeyCode.Key_Up then 1 else 0)) * (ROTATION_SPEED * frameTime))
        (c.mRotation.y
          + ((if KeyHeld KeyCode.Key_Right then 1 else 0)
              - (if KeyHeld KeyCode.Key_Left then 1 else 0)) * (ROTATION_SPEED * frameTime))
        c.mRotation.z } := by
    obtain ⟨⟨px, py, pz⟩, ⟨rx, ry, rz⟩, fov, asp, nr, fr, w, v, p, vp⟩ := c
    cases h1 : KeyHeld KeyCode.Key_Down <;> cases h2 : KeyHeld KeyCode.Key_Up <;>
    cases h3 : KeyHeld KeyCode.Key_Right <;> cases h4 : KeyHeld KeyCode.Key_Left <;>
    simp only [c4, r3, c3, r2, c2, r1, c1, r0, h1, h2, h3, h4, if_true, if_false, Bool.false_eq_true,
      Camera.mk.injEq, CVector3.mk.injEq, true_and, and_true] <;>
    constructor <;> ring
  have hpos : c8 = { c4 with
      mPosition := CVector3.mk
        (c4.mPosition.x
          + ((if KeyHeld KeyCode.Key_D then 1 else 0)
              - (if KeyHeld KeyCode.Key_A then 1 else 0))
            * (MOVEMENT_SPEED * frameTime * c4.mWorldMatrix.e00)
          + ((if KeyHeld KeyCode.Key_W then 1 else 0)
              - (if KeyHeld KeyCode.Key_S then 1 else 0))
            * (MOVEMENT_SPEED * frameTime * c4.mWorldMatrix.e20))
        (c4.mPosition.y
          + ((if KeyHeld KeyCode.Key_D then 1 else 0)
              - (if KeyHeld KeyCode.Key_A then 1 else 0))
            * (MOVEMENT_SPEED * frameTime * c4.mWorldMatrix.e01)
          + ((if KeyHeld KeyCode.Key_W then 1 else 0)
              - (if KeyHeld KeyCode.Key_S then 1 else 0))
            * (MOVEMENT_SPEED * frameTime * c4.mWorldMatrix.e21))
        (c4.mPosition.z
          + ((if KeyHeld KeyCode.Key_D then 1 else 0)
              - (if KeyHeld KeyCode.Key_A then 1 else 0))
            * (MOVEMENT_SPEED * frameTime * c4.mWorldMatrix.e02)
          + ((if KeyHeld KeyCode.Key_W then 1 else 0)
              - (if KeyHeld KeyCode.Key_S then 1 else 0))
            * (MOVEMENT_SPEED * frameTime * c4.mWorldMatrix.e22)) } := by
    clear_value c4
    obtain ⟨⟨px, py, pz⟩, ⟨rx, ry, rz⟩, fov, asp, nr, fr, w, v, p, vp⟩ := c4
    cases h5 : KeyHeld KeyCode.Key_D <;> cases h6 : KeyHeld KeyCode.Key_A <;>
    cases h7 : KeyHeld KeyCode.Key_W <;> cases h8 : KeyHeld KeyCode.Key_S <;>
    simp only [c8, c7, c6, c5, h5, h6, h7, h8, if_true, if_false, Bool.false_eq_true,
      Camera.mk.injEq, CVector3.mk.injEq, true_and, and_true] <;>
    refine ⟨?_, ?_, ?_⟩ <;> ring
  show c8 = _
  rw [hpos, hrot]

end ControlLemmas

section CameraClaims2

/-- C15: for every camera and every sequence of `SetPosition`, `SetRotation`, `SetFOV`,
`SetNearClip`, `SetFarClip` and `Control` calls, the four accessors called afterwards return
the matrices derived from the position, rotation and lens fields the camera then has; the
matrices stored in the camera from earlier reads have no influence on what is returned. -/
theorem C15_accessors_use_current_fields {K : Type} [Field K] (m : CMath K)
    (calls : List (CameraCall K)) (c : Camera K) (w v p vp : CMatrix4x4 K) :
    (c.afterCalls calls).WorldMatrix m
      = derivedWorldMatrix m (c.afterCalls calls).mPosition (c.afterCalls calls).mRotation
    ∧ (c.afterCalls calls).ViewMatrix m
      = InverseAffine
          (derivedWorldMatrix m (c.afterCalls calls).mPosition (c.afterCalls calls).mRotation)
    ∧ (c.afterCalls calls).ProjectionMatrix m
      = derivedProjectionMatrix m (c.afterCalls calls).mFOVx (c.afterCalls calls).mAspectRatio
          (c.afterCalls calls).mNearClip (c.afterCalls calls).mFarClip
    ∧ (c.afterCalls calls).ViewProjectionMatrix m
      = InverseAffine
          (derivedWorldMatrix m (c.afterCalls calls).mPosition (c.afterCalls calls).mRotation)
        * derivedProjectionMatrix m (c.afterCalls calls).mFOVx
            (c.afterCalls calls).mAspectRatio (c.afterCalls calls).mNearClip
            (c.afterCalls calls).mFarClip
    ∧ Camera.WorldMatrix m
        { c.afterCalls calls with
          mWorldMatrix := w, mViewMatrix := v, mProjectionMatrix := p
          mViewProjectionMatrix := vp }
      = (c.afterCalls calls).WorldMatrix m
    ∧ Camera.ViewMatrix m
        { c.afterCalls calls with
          mWorldMatrix := w, mViewMatrix := v, mProjectionMatrix := p
          mViewProjectionMatrix := vp }
      = (c.afterCalls calls).ViewMatrix m
    ∧ Camera.ProjectionMatrix m
        { c.afterCalls calls with
          mWorldMatrix := w, mViewMatrix := v, mProjectionMatrix := p
          mViewProjectionMatrix := vp }
      = (c.afterCalls calls).ProjectionMatrix m
    ∧ Camera.ViewProjectionMatrix m
        { c.afterCalls calls with
          mWorldMatrix := w, mViewMatrix := v, mProjectionMatrix := p
          mViewProjectionMatrix := vp }
      = (c.afterCalls calls).ViewProjectionMatrix m := by
  generalize c.afterCalls calls = d
  have hp : d.ProjectionMatrix m
      = derivedProjectionMatrix m d.mFOVx d.mAspectRatio d.mNearClip d.mFarClip := by
    have hhalf : d.mFOVx * (1 / 2) = d.mFOVx / 2 := by ring
    ext <;> simp only [Camera.ProjectionMatrix, Camera.UpdateMatrices, derivedProjectionMatrix,
      hhalf]
    ring
  refine ⟨rfl, rfl, hp, ?_, rfl, rfl, rfl, rfl⟩
  rw [← hp]
  rfl

end CameraClaims2

section LensClaims

variable {K : Type} [LinearOrderedField K]

/-- C16 (as amended): the lens invariant far clip > near clip > 0 holds for a camera built with
the default arguments of the constructor; `SetFOV`, `SetPosition`, `SetRotation` and `Control`
leave both clip distances as they are, so the invariant holds after them exactly when it held
before; `SetNearClip` and `SetFarClip` store their argument unchecked, so the invariant holds
after `SetNearClip(n)` exactly when `0 < n < far clip`, and after `SetFarClip(f)` exactly when
`0 < near clip < f`; while the invariant holds, `far - near` is not zero. -/
theorem C16_lens_invariant (m : CMath K) (uninitialised : CMatrix4x4 K) (c : Camera K)
    (fov nearClip farClip frameTime : K) (position rotation : CVector3 K)
    (KeyHeld : KeyCode → Bool) (k1 k2 k3 k4 k5 k6 k7 k8 : KeyCode) :
    (Camera.construct m uninitialised).LensInvariant
    ∧ ((c.SetFOV fov).LensInvariant ↔ c.LensInvariant)
    ∧ ((c.SetPosition position).LensInvariant ↔ c.LensInvariant)
    ∧ ((c.SetRotation rotation).LensInvariant ↔ c.LensInvariant)
    ∧ ((c.Control KeyHeld frameTime k1 k2 k3 k4 k5 k6 k7 k8).LensInvariant ↔ c.LensInvariant)
    ∧ ((c.SetNearClip nearClip).LensInvariant ↔ (0 < nearClip ∧ nearClip < c.mFarClip))
    ∧ ((c.SetFarClip farClip).LensInvariant ↔ (0 < c.mNearClip ∧ c.mNearClip < farClip))
    ∧ (c.LensInvariant → c.mFarClip - c.mNearClip ≠ 0) := by
  refine ⟨?_, Iff.rfl, Iff.rfl, Iff.rfl, ?_, Iff.rfl, Iff.rfl, ?_⟩
  · simp only [Camera.LensInvariant, Camera.construct]
    constructor <;> norm_num
  · rw [Control_eq]
    exact Iff.rfl
  · intro h
    exact (sub_pos.mpr h.2).ne'

/-- C16 (as stated) fails: the camera built with the default arguments satisfies the lens
invariant, but after `SetNearClip(10000)` it does not, and `far - near` is zero. -/
theorem C16_counterexample :
    (Camera.construct (CMath.mk Real.cos Real.sin Real.tan Real.pi) MatrixIdentity).LensInvariant
    ∧ ¬ ((Camera.construct (CMath.mk Real.cos Real.sin Real.tan Real.pi) MatrixIdentity).SetNearClip 10000).LensInvariant
    ∧ ((Camera.construct (CMath.mk Real.cos Real.sin Real.tan Real.pi) MatrixIdentity).SetNearClip 10000).mFarClip
        - ((Camera.construct (CMath.mk Real.cos Real.sin Real.tan Real.pi) MatrixIdentity).SetNearClip 10000).mNearClip = 0 := by
  simp only [Camera.LensInvariant, Camera.construct, Camera.SetNearClip]
  norm_num

end LensClaims

section ControlClaims

/-- The rotation block of a world matrix: the last column of the first three rows is zero, and
the first and the third row have length 1, for scalars on which `cos` and `sin` satisfy the
Pythagorean identity. -/
theorem world_matrix_rows {K : Type} [Field K] (m : CMath K)
    (hm : ∀ a, m.cos a * m.cos a + m.sin a * m.sin a = 1) (c : Camera K) :
    (c.WorldMatrix m).e00 * (c.WorldMatrix m).e00 + (c.WorldMatrix m).e01 * (c.WorldMatrix m).e01
        + (c.WorldMatrix m).e02 * (c.WorldMatrix m).e02 = 1
    ∧ (c.WorldMatrix m).e20 * (c.WorldMatrix m).e20
        + (c.WorldMatrix m).e21 * (c.WorldMatrix m).e21
        + (c.WorldMatrix m).e22 * (c.WorldMatrix m).e22 = 1 := by
  have h := (view_mul_world m hm c).2
  have hv : c.ViewMatrix m = InverseAffine (c.WorldMatrix m) := rfl
  have hw : c.WorldMatrix m
      = MatrixRotationZ m c.mRotation.z * MatrixRotationX m c.mRotation.x
        * MatrixRotationY m c.mRotation.y * MatrixTranslation c.mPosition := rfl
  have hlin := IsLinear_mul (IsLinear_mul (IsLinear_RotationZ m c.mRotation.z)
    (IsLinear_RotationX m c.mRotation.x)) (IsLinear_RotationY m c.mRotation.y)
  obtain ⟨l03, l13, l23, -, -, -, -⟩ := hlin
  have hcol : ∀ a : CMatrix4x4 K, (a * MatrixTranslation c.mPosition).e03 = a.e03
      ∧ (a * MatrixTranslation c.mPosition).e23 = a.e23 := by
    intro a
    simp only [CMatrix4x4.mul_def, CMatrix4x4.mul, MatrixTranslation]
    constructor <;> ring
  have w03 : (c.WorldMatrix m).e03 = 0 := by rw [hw, (hcol _).1, l03]
  have w23 : (c.WorldMatrix m).e23 = 0 := by rw [hw, (hcol _).2, l23]
  rw [hv] at h
  have h00 := congrArg CMatrix4x4.e00 h
  have h22 := congrArg CMatrix4x4.e22 h
  simp only [CMatrix4x4.mul_def, CMatrix4x4.mul, InverseAffine, CMatrix4x4.one_def,
    MatrixIdentity, w03, w23, zero_mul, add_zero] at h00 h22
  exact ⟨h00, h22⟩


/-- The stored world matrix of the turned camera is that of the rotation zero; the matrix
`WorldMatrix()` returns for it is that of the quarter turn about Y. -/
theorem turnedCamera_matrices :
    ((turnedCamera (CMath.mk Real.cos Real.sin Real.tan Real.pi)).mWorldMatrix.e20 = 0 ∧ (turnedCamera (CMath.mk Real.cos Real.sin Real.tan Real.pi)).mWorldMatrix.e21 = 0
      ∧ (turnedCamera (CMath.mk Real.cos Real.sin Real.tan Real.pi)).mWorldMatrix.e22 = 1)
    ∧ (((turnedCamera (CMath.mk Real.cos Real.sin Real.tan Real.pi)).WorldMatrix (CMath.mk Real.cos Real.sin Real.tan Real.pi)).e20 = 1 ∧ ((turnedCamera (CMath.mk Real.cos Real.sin Real.tan Real.pi)).WorldMatrix (CMath.mk Real.cos Real.sin Real.tan Real.pi)).e21 = 0
      ∧ ((turnedCamera (CMath.mk Real.cos Real.sin Real.tan Real.pi)).WorldMatrix (CMath.mk Real.cos Real.sin Real.tan Real.pi)).e22 = 0) := by
  simp [turnedCamera, originCamera, Camera.SetRotation, Camera.WorldMatrix,
    Camera.UpdateMatrices, CMatrix4x4.mul_def, CMatrix4x4.mul, MatrixRotationX, MatrixRotationY,
    MatrixRotationZ, MatrixTranslation, Real.cos_zero, Real.sin_zero, Real.cos_pi_div_two,
    Real.sin_pi_div_two]

/-- C17 (what the code does): `Control` with only the forward key `W` held adds
`MOVEMENT_SPEED * dt` times the third row of the world matrix stored in the camera, the one
computed at the last read of a matrix, and with only the right key `D` held the first row of
that stored matrix. For the camera whose rotation was set to a quarter turn about Y after its
matrices were last read, the third row of the matrix `WorldMatrix()` would return is
`(1, 0, 0)`, and one second of forward movement ends at `(0, 0, 50)`, not at `(50, 0, 0)`. -/
theorem C17_control_moves_along_stored_matrix :
    (∀ (c : Camera ℝ) (dt : ℝ) (k1 k2 k3 k4 k5 k6 k7 k8 : KeyCode),
      (c.Control (onlyKeyHeld KeyCode.Key_W) dt k1 k2 k3 k4 k5 k6 k7 k8).mPosition
        = CVector3.mk (c.mPosition.x + MOVEMENT_SPEED * dt * c.mWorldMatrix.e20)
            (c.mPosition.y + MOVEMENT_SPEED * dt * c.mWorldMatrix.e21)
            (c.mPosition.z + MOVEMENT_SPEED * dt * c.mWorldMatrix.e22)
      ∧ (c.Control (onlyKeyHeld KeyCode.Key_D) dt k1 k2 k3 k4 k5 k6 k7 k8).mPosition
        = CVector3.mk (c.mPosition.x + MOVEMENT_SPEED * dt * c.mWorldMatrix.e00)
            (c.mPosition.y + MOVEMENT_SPEED * dt * c.mWorldMatrix.e01)
            (c.mPosition.z + MOVEMENT_SPEED * dt * c.mWorldMatrix.e02))
    ∧ (((turnedCamera (CMath.mk Real.cos Real.sin Real.tan Real.pi)).WorldMatrix (CMath.mk Real.cos Real.sin Real.tan Real.pi)).e20 = 1 ∧ ((turnedCamera (CMath.mk Real.cos Real.sin Real.tan Real.pi)).WorldMatrix (CMath.mk Real.cos Real.sin Real.tan Real.pi)).e21 = 0
      ∧ ((turnedCamera (CMath.mk Real.cos Real.sin Real.tan Real.pi)).WorldMatrix (CMath.mk Real.cos Real.sin Real.tan Real.pi)).e22 = 0)
    ∧ ((turnedCamera (CMath.mk Real.cos Real.sin Real.tan Real.pi)).Control (onlyKeyHeld KeyCode.Key_W) 1 KeyCode.Key_Up KeyCode.Key_Down
          KeyCode.Key_Left KeyCode.Key_Right KeyCode.Key_W KeyCode.Key_S KeyCode.Key_A
          KeyCode.Key_D).mPosition = CVector3.mk 0 0 50
    ∧ ((turnedCamera (CMath.mk Real.cos Real.sin Real.tan Real.pi)).Control (onlyKeyHeld KeyCode.Key_W) 1 KeyCode.Key_Up KeyCode.Key_Down
          KeyCode.Key_Left KeyCode.Key_Right KeyCode.Key_W KeyCode.Key_S KeyCode.Key_A
          KeyCode.Key_D).mPosition ≠ CVector3.mk 50 0 0 := by
  have general : ∀ (c : Camera ℝ) (dt : ℝ) (k1 k2 k3 k4 k5 k6 k7 k8 : KeyCode),
      (c.Control (onlyKeyHeld KeyCode.Key_W) dt k1 k2 k3 k4 k5 k6 k7 k8).mPosition
        = CVector3.mk (c.mPosition.x + MOVEMENT_SPEED * dt * c.mWorldMatrix.e20)
            (c.mPosition.y + MOVEMENT_SPEED * dt * c.mWorldMatrix.e21)
            (c.mPosition.z + MOVEMENT_SPEED * dt * c.mWorldMatrix.e22)
      ∧ (c.Control (onlyKeyHeld KeyCode.Key_D) dt k1 k2 k3 k4 k5 k6 k7 k8).mPosition
        = CVector3.mk (c.mPosition.x + MOVEMENT_SPEED * dt * c.mWorldMatrix.e00)
            (c.mPosition.y + MOVEMENT_SPEED * dt * c.mWorldMatrix.e01)
            (c.mPosition.z + MOVEMENT_SPEED * dt * c.mWorldMatrix.e02) := by
    intro c dt k1 k2 k3 k4 k5 k6 k7 k8
    rw [Control_eq, Control_eq]
    simp [onlyKeyHeld]
  obtain ⟨⟨s20, s21, s22⟩, w⟩ := turnedCamera_matrices
  have hpos : (turnedCamera (CMath.mk Real.cos Real.sin Real.tan Real.pi)).mPosition = CVector3.mk 0 0 0 := rfl
  have hend : ((turnedCamera (CMath.mk Real.cos Real.sin Real.tan Real.pi)).Control (onlyKeyHeld KeyCode.Key_W) 1 KeyCode.Key_Up
      KeyCode.Key_Down KeyCode.Key_Left KeyCode.Key_Right KeyCode.Key_W KeyCode.Key_S
      KeyCode.Key_A KeyCode.Key_D).mPosition = CVector3.mk 0 0 50 := by
    rw [(general _ _ _ _ _ _ _ _ _ _).1, s20, s21, s22, hpos]
    simp [MOVEMENT_SPEED]
  refine ⟨general, w, hend, ?_⟩
  rw [hend]
  simp

/-- C18 (what the code does): the result of `Control` does not depend on the eight key
parameters. With the arrow keys passed as the movement keys and `W`, `S`, `A`, `D` as the
turn keys, and only `W` held for one second, the camera does not turn (its pitch stays 0,
not -1.5) and moves forward to `(0, 0, 50)`. -/
theorem C18_control_ignores_key_parameters :
    (∀ (KeyHeld : KeyCode → Bool) (frameTime : ℝ) (c : Camera ℝ)
        (k1 k2 k3 k4 k5 k6 k7 k8 j1 j2 j3 j4 j5 j6 j7 j8 : KeyCode),
      c.Control KeyHeld frameTime k1 k2 k3 k4 k5 k6 k7 k8
        = c.Control KeyHeld frameTime j1 j2 j3 j4 j5 j6 j7 j8)
    ∧ (((originCamera (CMath.mk Real.cos Real.sin Real.tan Real.pi)).UpdateMatrices (CMath.mk Real.cos Real.sin Real.tan Real.pi)).Control (onlyKeyHeld KeyCode.Key_W) 1
          KeyCode.Key_W KeyCode.Key_S KeyCode.Key_A KeyCode.Key_D KeyCode.Key_Up
          KeyCode.Key_Down KeyCode.Key_Left KeyCode.Key_Right).mRotation = CVector3.mk 0 0 0
    ∧ (((originCamera (CMath.mk Real.cos Real.sin Real.tan Real.pi)).UpdateMatrices (CMath.mk Real.cos Real.sin Real.tan Real.pi)).Control (onlyKeyHeld KeyCode.Key_W) 1
          KeyCode.Key_W KeyCode.Key_S KeyCode.Key_A KeyCode.Key_D KeyCode.Key_Up
          KeyCode.Key_Down KeyCode.Key_Left KeyCode.Key_Right).mPosition
        = CVector3.mk 0 0 50 := by
  refine ⟨fun KeyHeld frameTime c k1 k2 k3 k4 k5 k6 k7 k8 j1 j2 j3 j4 j5 j6 j7 j8 => ?_,
    ?_, ?_⟩
  · rw [Control_eq, Control_eq]
  · rw [Control_eq]
    simp [onlyKeyHeld, originCamera, Camera.UpdateMatrices]
  · rw [Control_eq]
    simp [onlyKeyHeld, originCamera, Camera.UpdateMatrices, CMatrix4x4.mul_def, CMatrix4x4.mul,
      MatrixRotationX, MatrixRotationY, MatrixRotationZ, MatrixTranslation, Real.cos_zero,
      Real.sin_zero, MOVEMENT_SPEED]

/-- C19: for every camera state, frame time and combination of held keys, `Control` leaves
the roll (Z rotation), the field of view, the aspect ratio and both clip distances as they
were; the four stored matrices are not changed either. -/
theorem C19_control_changes_position_pitch_yaw_only {K : Type} [Field K]
    (KeyHeld : KeyCode → Bool) (frameTime : K) (k1 k2 k3 k4 k5 k6 k7 k8 : KeyCode)
    (c : Camera K) :
    (c.Control KeyHeld frameTime k1 k2 k3 k4 k5 k6 k7 k8).mRotation.z = c.mRotation.z
    ∧ (c.Control KeyHeld frameTime k1 k2 k3 k4 k5 k6 k7 k8).mFOVx = c.mFOVx
    ∧ (c.Control KeyHeld frameTime k1 k2 k3 k4 k5 k6 k7 k8).mAspectRatio = c.mAspectRatio
    ∧ (c.Control KeyHeld frameTime k1 k2 k3 k4 k5 k6 k7 k8).mNearClip = c.mNearClip
    ∧ (c.Control KeyHeld frameTime k1 k2 k3 k4 k5 k6 k7 k8).mFarClip = c.mFarClip
    ∧ (c.Control KeyHeld frameTime k1 k2 k3 k4 k5 k6 k7 k8).mWorldMatrix = c.mWorldMatrix
    ∧ (c.Control KeyHeld frameTime k1 k2 k3 k4 k5 k6 k7 k8).mViewMatrix = c.mViewMatrix
    ∧ (c.Control KeyHeld frameTime k1 k2 k3 k4 k5 k6 k7 k8).mProjectionMatrix
        = c.mProjectionMatrix
    ∧ (c.Control KeyHeld frameTime k1 k2 k3 k4 k5 k6 k7 k8).mViewProjectionMatrix
        = c.mViewProjectionMatrix := by
  rw [Control_eq]
  exact ⟨rfl, rfl, rfl, rfl, rfl, rfl, rfl, rfl, rfl⟩


/-- C20: camera motion is independent of how the frame time is split: for every camera state,
every combination of held keys and all frame times `t1`, `t2` (non-negative or not),
`Control(t1)` followed by `Control(t2)` leaves the same camera as `Control(t1 + t2)`. The
rates are `ROTATION_SPEED` and `MOVEMENT_SPEED` per second of frame time: a single held arrow
key changes the pitch or the yaw by `ROTATION_SPEED * t`, and a single held letter key moves
the position by `MOVEMENT_SPEED * t` times a row of the stored world matrix, which is a
distance of `MOVEMENT_SPEED * t` (squared distance `(MOVEMENT_SPEED * t)^2`) when the stored
world matrix is the world matrix of any pose `c0`. -/
theorem C20_control_frame_rate_independent (KeyHeld : KeyCode → Bool)
    (k1 k2 k3 k4 k5 k6 k7 k8 : KeyCode) (c c0 : Camera ℝ) (t1 t2 t : ℝ) :
    (c.Control KeyHeld t1 k1 k2 k3 k4 k5 k6 k7 k8).Control KeyHeld t2 k1 k2 k3 k4 k5 k6 k7 k8
      = c.Control KeyHeld (t1 + t2) k1 k2 k3 k4 k5 k6 k7 k8
    ∧ (c.Control (onlyKeyHeld KeyCode.Key_Down) t k1 k2 k3 k4 k5 k6 k7 k8).mRotation
      = CVector3.mk (c.mRotation.x + ROTATION_SPEED * t) c.mRotation.y c.mRotation.z
    ∧ (c.Control (onlyKeyHeld KeyCode.Key_Up) t k1 k2 k3 k4 k5 k6 k7 k8).mRotation
      = CVector3.mk (c.mRotation.x - ROTATION_SPEED * t) c.mRotation.y c.mRotation.z
    ∧ (c.Control (onlyKeyHeld KeyCode.Key_Right) t k1 k2 k3 k4 k5 k6 k7 k8).mRotation
      = CVector3.mk c.mRotation.x (c.mRotation.y + ROTATION_SPEED * t) c.mRotation.z
    ∧ (c.Control (onlyKeyHeld KeyCode.Key_Left) t k1 k2 k3 k4 k5 k6 k7 k8).mRotation
      = CVector3.mk c.mRotation.x (c.mRotation.y - ROTATION_SPEED * t) c.mRotation.z
    ∧ (c.Control (onlyKeyHeld KeyCode.Key_W) t k1 k2 k3 k4 k5 k6 k7 k8).mPosition
      = CVector3.mk (c.mPosition.x + MOVEMENT_SPEED * t * c.mWorldMatrix.e20)
          (c.mPosition.y + MOVEMENT_SPEED * t * c.mWorldMatrix.e21)
          (c.mPosition.z + MOVEMENT_SPEED * t * c.mWorldMatrix.e22)
    ∧ (c.Control (onlyKeyHeld KeyCode.Key_D) t k1 k2 k3 k4 k5 k6 k7 k8).mPosition
      = CVector3.mk (c.mPosition.x + MOVEMENT_SPEED * t * c.mWorldMatrix.e00)
          (c.mPosition.y + MOVEMENT_SPEED * t * c.mWorldMatrix.e01)
          (c.mPosition.z + MOVEMENT_SPEED * t * c.mWorldMatrix.e02)
    ∧ (∀ key ∈ [KeyCode.Key_W, KeyCode.Key_S, KeyCode.Key_D, KeyCode.Key_A],
        CVector3.distanceSquared
          (Camera.Control (onlyKeyHeld key) t k1 k2 k3 k4 k5 k6 k7 k8
            { c with mWorldMatrix := c0.WorldMatrix (CMath.mk Real.cos Real.sin Real.tan Real.pi) }).mPosition
          c.mPosition
        = (MOVEMENT_SPEED * t) ^ 2) := by
  have hm : ∀ a : ℝ, Real.cos a * Real.cos a + Real.sin a * Real.sin a = 1 := by
    intro a
    have := Real.cos_sq_add_sin_sq a
    rw [sq, sq] at this
    exact this
  obtain ⟨row0, row2⟩ := world_matrix_rows (CMath.mk Real.cos Real.sin Real.tan Real.pi) hm c0
  refine ⟨?_, ?_, ?_, ?_, ?_, ?_, ?_, ?_⟩
  · rw [Control_eq, Control_eq, Control_eq]
    simp only [Camera.mk.injEq, CVector3.mk.injEq, and_true, true_and]
    refine ⟨⟨?_, ?_, ?_⟩, ?_, ?_⟩ <;> ring
  · rw [Control_eq]
    simp [onlyKeyHeld]
  · rw [Control_eq]
    simp [onlyKeyHeld]
    ring
  · rw [Control_eq]
    simp [onlyKeyHeld]
  · rw [Control_eq]
    simp [onlyKeyHeld]
    ring
  · rw [Control_eq]
    simp [onlyKeyHeld]
  · rw [Control_eq]
    simp [onlyKeyHeld]
  · intro key hkey
    simp only [List.mem_cons, List.mem_singleton, List.not_mem_nil, or_false] at hkey
    rcases hkey with rfl | rfl | rfl | rfl <;>
      rw [Control_eq] <;>
      simp [onlyKeyHeld, CVector3.distanceSquared]
    · linear_combination (MOVEMENT_SPEED * t) ^ 2 * row2
    · linear_combination (MOVEMENT_SPEED * t) ^ 2 * row2
    · linear_combination (MOVEMENT_SPEED * t) ^ 2 * row0
    · linear_combination (MOVEMENT_SPEED * t) ^ 2 * row0

end ControlClaims

/-! ## The animated parameters, the effect list and `CVector2` -/

section ParameterLemmas

variable {K : Type} [LinearOrderedField K] [FloorRing K]
variable (g : Globals) (m : CMath K) (frameTime : K)

theorem PostProcessing_trace (RenderTarget NextSRV : Handle) (s : SceneState K) :
    (PostProcessing g m RenderTarget NextSRV frameTime s).trace
      = s.trace ++ [Event.draw
          { renderTarget := RenderTarget
            shaderResource := NextSRV
            vertexShader := VertexShader.gFullScreenQuadVertexShader
            pixelShader := s.gCurrentPostProcess.shader
            effect := s.gCurrentPostProcess
            constants :=
              (PostProcessing g m RenderTarget NextSRV frameTime s).gPostProcessingConstants }] := by
  obtain ⟨e, cam, c, l, t, r, w1, w2, w3, w4, w5, w6, rv, rc, ctx, tr⟩ := s
  cases e <;>
    simp [PostProcessing, SceneState.OMSetRenderTargets, SceneState.PSSetShaderResources,
      SceneState.VSSetShader, SceneState.PSSetShader, SceneState.Draw, SceneState.setConstants,
      SceneState.setFullScreenArea, SceneState.randomOffset, PostProcess.shader]

theorem PostProcessing_statics (RenderTarget NextSRV : Handle) (s : SceneState K) :
    (PostProcessing g m RenderTarget NextSRV frameTime s).spiralWiggle
        = s.spiralWiggle
          + (if s.gCurrentPostProcess = PostProcess.Spiral then 1 * frameTime else 0)
    ∧ (PostProcessing g m RenderTarget NextSRV frameTime s).hueWiggle
        = s.hueWiggle
          + (if s.gCurrentPostProcess = PostProcess.HLSGradient then 1 / 2 * frameTime else 0)
    ∧ (PostProcessing g m RenderTarget NextSRV frameTime s).waterWiggle
        = s.waterWiggle
          + (if s.gCurrentPostProcess = PostProcess.UnderWater then 1 / 2 * frameTime else 0)
    ∧ (PostProcessing g m RenderTarget NextSRV frameTime s).polygonSpiralWiggle
        = s.polygonSpiralWiggle
    ∧ (PostProcessing g m RenderTarget NextSRV frameTime s).polygonHueWiggle
        = s.polygonHueWiggle
    ∧ (PostProcessing g m RenderTarget NextSRV frameTime s).polygonWaterWiggle
        = s.polygonWaterWiggle := by
  obtain ⟨e, cam, c, l, t, r, w1, w2, w3, w4, w5, w6, rv, rc, ctx, tr⟩ := s
  cases e <;>
    simp [PostProcessing, SceneState.OMSetRenderTargets, SceneState.PSSetShaderResources,
      SceneState.VSSetShader, SceneState.PSSetShader, SceneState.Draw, SceneState.setConstants,
      SceneState.setFullScreenArea, SceneState.randomOffset]

theorem PostProcessing_values (RenderTarget NextSRV : Handle) (s : SceneState K) :
    (PostProcessing g m RenderTarget NextSRV frameTime s).gPostProcessingConstants.hueShift
        = (if s.gCurrentPostProcess = PostProcess.HLSGradient then s.hueWiggle
           else s.gPostProcessingConstants.hueShift)
    ∧ (PostProcessing g m RenderTarget NextSRV
          frameTime s).gPostProcessingConstants.underWaterLevel
        = (if s.gCurrentPostProcess = PostProcess.UnderWater then s.waterWiggle
           else s.gPostProcessingConstants.underWaterLevel)
    ∧ (PostProcessing g m RenderTarget NextSRV frameTime s).gPostProcessingConstants.spiralLevel
        = (if s.gCurrentPostProcess = PostProcess.Spiral then (1 - m.cos s.spiralWiggle) * 4
           else s.gPostProcessingConstants.spiralLevel)
    ∧ (PostProcessing g m RenderTarget NextSRV frameTime s).gPostProcessingConstants.burnHeight
        = (if s.gCurrentPostProcess = PostProcess.Burn then
             fmod (s.gPostProcessingConstants.burnHeight + 2 / 10 * frameTime) 1
           else s.gPostProcessingConstants.burnHeight)
    ∧ (PostProcessing g m RenderTarget NextSRV frameTime s).gPostProcessingConstants.distortLevel
        = (if s.gCurrentPostProcess = PostProcess.Distort then 3 / 100
           else s.gPostProcessingConstants.distortLevel) := by
  obtain ⟨e, cam, c, l, t, r, w1, w2, w3, w4, w5, w6, rv, rc, ctx, tr⟩ := s
  cases e <;>
    simp [PostProcessing, SceneState.OMSetRenderTargets, SceneState.PSSetShaderResources,
      SceneState.VSSetShader, SceneState.PSSetShader, SceneState.Draw, SceneState.setConstants,
      SceneState.setFullScreenArea, SceneState.randomOffset]

theorem PolygonPostProcess_trace (postProcess : PixelShader) (points : Fin 4 → CVector3 K)
    (worldMatrix : CMatrix4x4 K) (s : SceneState K) :
    (PolygonPostProcess g m postProcess points worldMatrix frameTime s).trace
      = s.trace ++ [Event.draw
          { renderTarget := s.gCurrentTarget
            shaderResource := s.gCurrentSRV
            vertexShader := VertexShader.g2DPolygonVertexShader
            pixelShader :=
              (match s.gCurrentPostProcess with
                | PostProcess.None => postProcess
                | effect => effect.shader)
            effect := s.gCurrentPostProcess
            constants :=
              (PolygonPostProcess g m postProcess points worldMatrix
                frameTime s).gPostProcessingConstants }] := by
  obtain ⟨e, cam, c, l, t, r, w1, w2, w3, w4, w5, w6, rv, rc, ctx, tr⟩ := s
  have h4 : List.finRange 4 = [0, 1, 2, 3] := rfl
  cases e <;>
    simp [PolygonPostProcess, PolygonPostProcess.transformPoint, h4,
      SceneState.OMSetRenderTargets, SceneState.PSSetShaderResources,
      SceneState.VSSetShader, SceneState.PSSetShader, SceneState.Draw, SceneState.setConstants,
      SceneState.setFullScreenArea, SceneState.randomOffset, PostProcess.shader]

theorem PolygonPostProcess_statics (postProcess : PixelShader) (points : Fin 4 → CVector3 K)
    (worldMatrix : CMatrix4x4 K) (s : SceneState K) :
    (PolygonPostProcess g m postProcess points worldMatrix frameTime s).polygonSpiralWiggle
        = s.polygonSpiralWiggle
          + (if s.gCurrentPostProcess = PostProcess.Spiral then 1 * frameTime else 0)
    ∧ (PolygonPostProcess g m postProcess points worldMatrix frameTime s).polygonHueWiggle
        = s.polygonHueWiggle
          + (if s.gCurrentPostProcess = PostProcess.HLSGradient then 1 / 2 * frameTime else 0)
    ∧ (PolygonPostProcess g m postProcess points worldMatrix frameTime s).polygonWaterWiggle
        = s.polygonWaterWiggle
          + (if s.gCurrentPostProcess = PostProcess.UnderWater then 1 / 2 * frameTime else 0)
    ∧ (PolygonPostProcess g m postProcess points worldMatrix frameTime s).spiralWiggle
        = s.spiralWiggle
    ∧ (PolygonPostProcess g m postProcess points worldMatrix frameTime s).hueWiggle
        = s.hueWiggle
    ∧ (PolygonPostProcess g m postProcess points worldMatrix frameTime s).waterWiggle
        = s.waterWiggle := by
  obtain ⟨e, cam, c, l, t, r, w1, w2, w3, w4, w5, w6, rv, rc, ctx, tr⟩ := s
  have h4 : List.finRange 4 = [0, 1, 2, 3] := rfl
  cases e <;>
    simp [PolygonPostProcess, PolygonPostProcess.transformPoint, h4,
      SceneState.OMSetRenderTargets, SceneState.PSSetShaderResources,
      SceneState.VSSetShader, SceneState.PSSetShader, SceneState.Draw, SceneState.setConstants,
      SceneState.setFullScreenArea, SceneState.randomOffset]

theorem PolygonPostProcess_values (postProcess : PixelShader) (points : Fin 4 → CVector3 K)
    (worldMatrix : CMatrix4x4 K) (s : SceneState K) :
    (PolygonPostProcess g m postProcess points worldMatrix
        frameTime s).gPostProcessingConstants.hueShift
        = (if s.gCurrentPostProcess = PostProcess.HLSGradient then s.polygonHueWiggle
           else s.gPostProcessingConstants.hueShift)
    ∧ (PolygonPostProcess g m postProcess points worldMatrix
          frameTime s).gPostProcessingConstants.underWaterLevel
        = (if s.gCurrentPostProcess = PostProcess.UnderWater then s.polygonWaterWiggle
           else s.gPostProcessingConstants.underWaterLevel)
    ∧ (PolygonPostProcess g m postProcess points worldMatrix
          frameTime s).gPostProcessingConstants.spiralLevel
        = (if s.gCurrentPostProcess = PostProcess.Spiral then
             (1 - m.cos s.polygonSpiralWiggle) * 4
           else s.gPostProcessingConstants.spiralLevel)
    ∧ (PolygonPostProcess g m postProcess points worldMatrix
          frameTime s).gPostProcessingConstants.distortLevel
        = (if s.gCurrentPostProcess = PostProcess.Distort then 3 / 100
           else s.gPostProcessingConstants.distortLevel) := by
  obtain ⟨e, cam, c, l, t, r, w1, w2, w3, w4, w5, w6, rv, rc, ctx, tr⟩ := s
  have h4 : List.finRange 4 = [0, 1, 2, 3] := rfl
  cases e <;>
    simp [PolygonPostProcess, PolygonPostProcess.transformPoint, h4,
      SceneState.OMSetRenderTargets, SceneState.PSSetShaderResources,
      SceneState.VSSetShader, SceneState.PSSetShader, SceneState.Draw, SceneState.setConstants,
      SceneState.setFullScreenArea, SceneState.randomOffset]

theorem SwapPostProcessEffect_statics (s : SceneState K) :
    (SwapPostProcessEffect g s).gPostProcessingConstants = s.gPostProcessingConstants
    ∧ (SwapPostProcessEffect g s).polygonSpiralWiggle = s.polygonSpiralWiggle
    ∧ (SwapPostProcessEffect g s).polygonHueWiggle = s.polygonHueWiggle
    ∧ (SwapPostProcessEffect g s).polygonWaterWiggle = s.polygonWaterWiggle := by
  unfold SwapPostProcessEffect
  refine ⟨?_, ?_, ?_, ?_⟩ <;> (simp only []; split_ifs <;> rfl)

theorem RenderSceneFromCamera_statics (s : SceneState K) :
    (RenderSceneFromCamera g m s).gPostProcessingConstants = s.gPostProcessingConstants
    ∧ (RenderSceneFromCamera g m s).polygonSpiralWiggle = s.polygonSpiralWiggle
    ∧ (RenderSceneFromCamera g m s).polygonHueWiggle = s.polygonHueWiggle
    ∧ (RenderSceneFromCamera g m s).polygonWaterWiggle = s.polygonWaterWiggle
    ∧ (RenderSceneFromCamera g m s).trace
        = s.trace ++ [Event.scene s.context.renderTarget] := by
  refine ⟨rfl, rfl, rfl, rfl, rfl⟩


theorem applyEffect_foldl_statics (effects : List PostProcess) :
    ∀ s : SceneState K,
      (∃ rest, (effects.foldl (RenderScene.applyEffect g m frameTime) s).trace = s.trace ++ rest)
      ∧ (effects.foldl (RenderScene.applyEffect g m frameTime) s).postProcessEffectList
          = s.postProcessEffectList
      ∧ (effects.foldl (RenderScene.applyEffect g m frameTime) s).polygonSpiralWiggle
          = s.polygonSpiralWiggle
      ∧ (effects.foldl (RenderScene.applyEffect g m frameTime) s).polygonHueWiggle
          = s.polygonHueWiggle
      ∧ (effects.foldl (RenderScene.applyEffect g m frameTime) s).polygonWaterWiggle
          = s.polygonWaterWiggle := by
  induction effects with
  | nil => intro s; exact ⟨⟨[], (List.append_nil _).symm⟩, rfl, rfl, rfl, rfl⟩
  | cons effect effects ih =>
    intro s
    have hP := PostProcessing_frame g m frameTime s.gCurrentTarget s.gCurrentSRV
      { s with gCurrentPostProcess := effect }
    have hT := PostProcessing_trace g m frameTime s.gCurrentTarget s.gCurrentSRV
      { s with gCurrentPostProcess := effect }
    have hW := PostProcessing_statics g m frameTime s.gCurrentTarget s.gCurrentSRV
      { s with gCurrentPostProcess := effect }
    have hS := SwapPostProcessEffect_frame g
      (PostProcessing g m s.gCurrentTarget s.gCurrentSRV frameTime
        { s with gCurrentPostProcess := effect })
    have hX := SwapPostProcessEffect_statics g
      (PostProcessing g m s.gCurrentTarget s.gCurrentSRV frameTime
        { s with gCurrentPostProcess := effect })
    obtain ⟨⟨rest, hrest⟩, hl, h1, h2, h3⟩ := ih (RenderScene.applyEffect g m frameTime s effect)
    have hstep : ∃ r1, (RenderScene.applyEffect g m frameTime s effect).trace = s.trace ++ r1 :=
      ⟨_, by simp only [RenderScene.applyEffect]; rw [hS.2.2.2, hT, List.append_assoc]⟩
    obtain ⟨r1, hr1⟩ := hstep
    simp only [List.foldl_cons]
    refine ⟨⟨r1 ++ rest, ?_⟩, ?_, ?_, ?_, ?_⟩
    · rw [hrest, hr1, List.append_assoc]
    · rw [hl]; simp only [RenderScene.applyEffect, hS.2.1, hP.2.2.2.1]
    · rw [h1]; simp only [RenderScene.applyEffect, hX.2.1, hW.2.2.2.1]
    · rw [h2]; simp only [RenderScene.applyEffect, hX.2.2.1, hW.2.2.2.2.1]
    · rw [h3]; simp only [RenderScene.applyEffect, hX.2.2.2, hW.2.2.2.2.2]


theorem PostProcessing_draw (RenderTarget NextSRV : Handle) (s : SceneState K) :
    ∃ d : DrawCall K,
      (PostProcessing g m RenderTarget NextSRV frameTime s).trace = s.trace ++ [Event.draw d]
      ∧ d.pixelShader = s.gCurrentPostProcess.shader
      ∧ d.effect = s.gCurrentPostProcess
      ∧ d.constants
          = (PostProcessing g m RenderTarget NextSRV frameTime s).gPostProcessingConstants :=
  ⟨_, PostProcessing_trace g m frameTime RenderTarget NextSRV s, rfl, rfl, rfl⟩

theorem PolygonPostProcess_draw (postProcess : PixelShader) (points : Fin 4 → CVector3 K)
    (worldMatrix : CMatrix4x4 K) (s : SceneState K) :
    ∃ d : DrawCall K,
      (PolygonPostProcess g m postProcess points worldMatrix frameTime s).trace
        = s.trace ++ [Event.draw d]
      ∧ d.vertexShader = VertexShader.g2DPolygonVertexShader
      ∧ d.pixelShader
          = (match s.gCurrentPostProcess with
              | PostProcess.None => postProcess
              | effect => effect.shader)
      ∧ d.effect = s.gCurrentPostProcess
      ∧ d.constants
          = (PolygonPostProcess g m postProcess points worldMatrix
              frameTime s).gPostProcessingConstants :=
  ⟨_, PolygonPostProcess_trace g m frameTime postProcess points worldMatrix s, rfl, rfl, rfl, rfl⟩

/-- The first calls of a frame, with the shader, the value of `gCurrentPostProcess` and the
animated parameters of the five draws of the windows, and the statics of `PolygonPostProcess`
and the effect list at the end of the frame. -/
theorem RenderScene_windows (s : SceneState K) :
    ∃ (seed d1 d2 d3 d4 d5 : DrawCall K) (rest : List (Event K)),
      (RenderScene g m frameTime s).trace
        = s.trace ++ (Event.scene g.gSceneRenderTarget1 :: Event.draw seed :: Event.swap
            :: Event.draw d1 :: Event.draw d2 :: Event.draw d3 :: Event.draw d4
            :: Event.draw d5 :: Event.swap :: rest)
      ∧ (d1.vertexShader = VertexShader.g2DPolygonVertexShader
          ∧ d2.vertexShader = VertexShader.g2DPolygonVertexShader
          ∧ d3.vertexShader = VertexShader.g2DPolygonVertexShader
          ∧ d4.vertexShader = VertexShader.g2DPolygonVertexShader
          ∧ d5.vertexShader = VertexShader.g2DPolygonVertexShader)
      ∧ (d1.pixelShader = PixelShader.gHLSGradientPostProcess
          ∧ d1.effect = PostProcess.None
          ∧ d1.constants.hueShift = s.gPostProcessingConstants.hueShift)
      ∧ (d2.pixelShader = PixelShader.gUnderWaterPostProcess
          ∧ d2.effect = PostProcess.None
          ∧ d2.constants.underWaterLevel = s.gPostProcessingConstants.underWaterLevel)
      ∧ (d3.pixelShader = PixelShader.gRetroPostProcess ∧ d3.effect = PostProcess.None)
      ∧ (d4.pixelShader = PixelShader.gSpiralPostProcess
          ∧ d4.effect = PostProcess.Spiral
          ∧ d4.constants.spiralLevel = (1 - m.cos s.polygonSpiralWiggle) * 4)
      ∧ (d5.pixelShader = PixelShader.gDistortPostProcess
          ∧ d5.effect = PostProcess.Distort
          ∧ d5.constants.distortLevel = 3 / 100)
      ∧ (RenderScene g m frameTime s).polygonSpiralWiggle
          = s.polygonSpiralWiggle + 1 * frameTime
      ∧ (RenderScene g m frameTime s).polygonHueWiggle = s.polygonHueWiggle
      ∧ (RenderScene g m frameTime s).polygonWaterWiggle = s.polygonWaterWiggle
      ∧ (RenderScene g m frameTime s).postProcessEffectList = s.postProcessEffectList := by
  unfold RenderScene
  lift_lets
  intro s1 s2 s3 s4 s5 s6 s7 s8 s9 s10 s11 s12 s13 s14 s15 s16 s17
  -- main pass
  have t5 : s5.trace = s.trace ++ [Event.scene g.gSceneRenderTarget1] := rfl
  have k5 : s5.gPostProcessingConstants = s.gPostProcessingConstants := rfl
  have e5 : s5.gCurrentPostProcess = PostProcess.None := rfl
  have l5 : s5.postProcessEffectList = s.postProcessEffectList := rfl
  have a5 : s5.polygonSpiralWiggle = s.polygonSpiralWiggle := rfl
  have b5 : s5.polygonHueWiggle = s.polygonHueWiggle := rfl
  have w5 : s5.polygonWaterWiggle = s.polygonWaterWiggle := rfl
  -- seed pass and first swap
  obtain ⟨seed, t6, -, -, -⟩ :=
    PostProcessing_draw g m frameTime s5.gCurrentTarget s5.gCurrentSRV s5
  have h6 := PostProcessing_frame g m frameTime s5.gCurrentTarget s5.gCurrentSRV s5
  have v6 := PostProcessing_values g m frameTime s5.gCurrentTarget s5.gCurrentSRV s5
  have x6 := PostProcessing_statics g m frameTime s5.gCurrentTarget s5.gCurrentSRV s5
  have h7 := SwapPostProcessEffect_frame g s6
  have x7 := SwapPostProcessEffect_statics g s6
  have e7 : s7.gCurrentPostProcess = PostProcess.None := h7.1.trans h6.2.2.1
  have hue7 : s7.gPostProcessingConstants.hueShift = s.gPostProcessingConstants.hueShift := by
    show (SwapPostProcessEffect g s6).gPostProcessingConstants.hueShift = _
    rw [x7.1]
    exact v6.1.trans (by rw [e5, if_neg (by decide)]; rfl)
  have uw7 : s7.gPostProcessingConstants.underWaterLevel
      = s.gPostProcessingConstants.underWaterLevel := by
    show (SwapPostProcessEffect g s6).gPostProcessingConstants.underWaterLevel = _
    rw [x7.1]
    exact v6.2.1.trans (by rw [e5, if_neg (by decide)]; rfl)
  have a7 : s7.polygonSpiralWiggle = s.polygonSpiralWiggle := x7.2.1.trans x6.2.2.2.1
  have b7 : s7.polygonHueWiggle = s.polygonHueWiggle := x7.2.2.1.trans x6.2.2.2.2.1
  have w7 : s7.polygonWaterWiggle = s.polygonWaterWiggle := x7.2.2.2.trans x6.2.2.2.2.2
  have l7 : s7.postProcessEffectList = s.postProcessEffectList :=
    h7.2.1.trans (h6.2.2.2.1.trans l5)
  -- the window of the HLS gradient
  obtain ⟨d1, t8, q8, p8, f8, k8⟩ := PolygonPostProcess_draw g m frameTime
    PixelShader.gHLSGradientPostProcess PolygonPoints SquareWindowPolygonMatrix s7
  have h8 := PolygonPostProcess_frame g m frameTime PixelShader.gHLSGradientPostProcess
    PolygonPoints SquareWindowPolygonMatrix s7
  have v8 := PolygonPostProcess_values g m frameTime PixelShader.gHLSGradientPostProcess
    PolygonPoints SquareWindowPolygonMatrix s7
  have x8 := PolygonPostProcess_statics g m frameTime PixelShader.gHLSGradientPostProcess
    PolygonPoints SquareWindowPolygonMatrix s7
  rw [e7] at p8 f8
  simp only [e7, reduceCtorEq, if_false, add_zero] at v8 x8
  have e8 : s8.gCurrentPostProcess = PostProcess.None := h8.2.2.1.trans e7
  -- the window of the underwater effect
  obtain ⟨d2, t9, q9, p9, f9, k9⟩ := PolygonPostProcess_draw g m frameTime
    PixelShader.gUnderWaterPostProcess PolygonPoints (SpadeWindowPolygonMatrix m) s8
  have h9 := PolygonPostProcess_frame g m frameTime PixelShader.gUnderWaterPostProcess
    PolygonPoints (SpadeWindowPolygonMatrix m) s8
  have v9 := PolygonPostProcess_values g m frameTime PixelShader.gUnderWaterPostProcess
    PolygonPoints (SpadeWindowPolygonMatrix m) s8
  have x9 := PolygonPostProcess_statics g m frameTime PixelShader.gUnderWaterPostProcess
    PolygonPoints (SpadeWindowPolygonMatrix m) s8
  rw [e8] at p9 f9
  simp only [e8, reduceCtorEq, if_false, add_zero] at v9 x9
  have e9 : s9.gCurrentPostProcess = PostProcess.None := h9.2.2.1.trans e8
  -- the window of the retro effect
  obtain ⟨d3, t10, q10, p10, f10, -⟩ := PolygonPostProcess_draw g m frameTime
    PixelShader.gRetroPostProcess PolygonPoints (DiamondWindowPolygonMatrix m) s9
  have h10 := PolygonPostProcess_frame g m frameTime PixelShader.gRetroPostProcess
    PolygonPoints (DiamondWindowPolygonMatrix m) s9
  have x10 := PolygonPostProcess_statics g m frameTime PixelShader.gRetroPostProcess
    PolygonPoints (DiamondWindowPolygonMatrix m) s9
  rw [e9] at p10 f10
  simp only [e9, reduceCtorEq, if_false, add_zero] at x10
  -- the window of the spiral
  have e11 : s11.gCurrentPostProcess = PostProcess.Spiral := rfl
  obtain ⟨d4, t12, q12, p12, f12, k12⟩ := PolygonPostProcess_draw g m frameTime
    PixelShader.gSpiralPostProcess PolygonPoints (ClubWindowPolygonMatrix m) s11
  have h12 := PolygonPostProcess_frame g m frameTime PixelShader.gSpiralPostProcess
    PolygonPoints (ClubWindowPolygonMatrix m) s11
  have v12 := PolygonPostProcess_values g m frameTime PixelShader.gSpiralPostProcess
    PolygonPoints (ClubWindowPolygonMatrix m) s11
  have x12 := PolygonPostProcess_statics g m frameTime PixelShader.gSpiralPostProcess
    PolygonPoints (ClubWindowPolygonMatrix m) s11
  rw [e11] at p12 f12
  simp only [e11, reduceCtorEq, if_false, if_true, add_zero] at v12 x12
  -- the window of the distortion
  have e13 : s13.gCurrentPostProcess = PostProcess.Distort := rfl
  obtain ⟨d5, t14, q14, p14, f14, k14⟩ := PolygonPostProcess_draw g m frameTime
    PixelShader.gDistortPostProcess PolygonPoints (HeartWindowPolygonMatrix m) s13
  have h14 := PolygonPostProcess_frame g m frameTime PixelShader.gDistortPostProcess
    PolygonPoints (HeartWindowPolygonMatrix m) s13
  have v14 := PolygonPostProcess_values g m frameTime PixelShader.gDistortPostProcess
    PolygonPoints (HeartWindowPolygonMatrix m) s13
  have x14 := PolygonPostProcess_statics g m frameTime PixelShader.gDistortPostProcess
    PolygonPoints (HeartWindowPolygonMatrix m) s13
  rw [e13] at p14 f14
  simp only [e13, reduceCtorEq, if_false, if_true, add_zero] at v14 x14
  -- second swap, stacked passes and final pass
  have h15 := SwapPostProcessEffect_frame g s14
  have x15 := SwapPostProcessEffect_statics g s14
  obtain ⟨⟨rest16, t16⟩, l16, a16, b16, w16⟩ :=
    applyEffect_foldl_statics g m frameTime s15.postProcessEffectList s15
  obtain ⟨final, t18, -, -, -⟩ :=
    PostProcessing_draw g m frameTime g.gBackBufferRenderTarget s17.gCurrentSRV s17
  have h18 := PostProcessing_frame g m frameTime g.gBackBufferRenderTarget s17.gCurrentSRV s17
  have x18 := PostProcessing_statics g m frameTime g.gBackBufferRenderTarget s17.gCurrentSRV s17
  have tr17 : s17.trace = s16.trace := rfl
  have tr13 : s13.trace = s12.trace := rfl
  have tr11 : s11.trace = s10.trace := rfl
  refine ⟨seed, d1, d2, d3, d4, d5, rest16 ++ [Event.draw final], ?_,
    ⟨q8, q9, q10, q12, q14⟩, ⟨p8, f8, ?_⟩,
    ⟨p9, f9, ?_⟩, ⟨p10, f10⟩, ⟨p12, f12, ?_⟩, ⟨p14, f14, ?_⟩, ?_, ?_, ?_, ?_⟩
  · show (PostProcessing g m g.gBackBufferRenderTarget s17.gCurrentSRV frameTime s17).trace = _
    rw [t18, tr17, t16, h15.2.2.2, t14, tr13, t12, tr11, t10, t9, t8, h7.2.2.2, t6, t5]
    simp only [List.append_assoc, List.cons_append, List.nil_append]
  · rw [k8, v8.1, hue7]
  · rw [k9, v9.2.1, v8.2.1, uw7]
  · rw [k12, v12.2.2.1]
    show (1 - m.cos s10.polygonSpiralWiggle) * 4 = _
    rw [x10.1, x9.1, x8.1, a7]
  · rw [k14, v14.2.2.2]
  · show (PostProcessing g m g.gBackBufferRenderTarget s17.gCurrentSRV
      frameTime s17).polygonSpiralWiggle = _
    rw [x18.2.2.2.1]
    show s16.polygonSpiralWiggle = _
    rw [a16, x15.2.1, x14.1]
    show s12.polygonSpiralWiggle = _
    rw [x12.1]
    show s10.polygonSpiralWiggle + 1 * frameTime = _
    rw [x10.1, x9.1, x8.1, a7]
  · show (PostProcessing g m g.gBackBufferRenderTarget s17.gCurrentSRV
      frameTime s17).polygonHueWiggle = _
    rw [x18.2.2.2.2.1]
    show s16.polygonHueWiggle = _
    rw [b16, x15.2.2.1, x14.2.1]
    show s12.polygonHueWiggle = _
    rw [x12.2.1]
    show s10.polygonHueWiggle = _
    rw [x10.2.1, x9.2.1, x8.2.1, b7]
  · show (PostProcessing g m g.gBackBufferRenderTarget s17.gCurrentSRV
      frameTime s17).polygonWaterWiggle = _
    rw [x18.2.2.2.2.2]
    show s16.polygonWaterWiggle = _
    rw [w16, x15.2.2.2, x14.2.2.1]
    show s12.polygonWaterWiggle = _
    rw [x12.2.2.1]
    show s10.polygonWaterWiggle = _
    rw [x10.2.2.1, x9.2.2.1, x8.2.2.1, w7]
  · show (PostProcessing g m g.gBackBufferRenderTarget s17.gCurrentSRV
      frameTime s17).postProcessEffectList = _
    rw [h18.2.2.2.1]
    show s16.postProcessEffectList = _
    rw [l16, h15.2.1, h14.2.2.2.1]
    show s12.postProcessEffectList = _
    rw [h12.2.2.2.1]
    show s10.postProcessEffectList = _
    rw [h10.2.2.2.1, h9.2.2.2.1, h8.2.2.2.1, l7]


/-! ### Invocations of `PostProcessing` in a row -/

theorem effectTime_nil (effect : PostProcess) : effectTime effect ([] : List (Invocation K)) = 0 :=
  rfl

theorem effectTime_cons (effect : PostProcess) (i : Invocation K) (calls : List (Invocation K)) :
    effectTime effect (i :: calls)
      = (if i.effect = effect then i.frameTime else 0) + effectTime effect calls := by
  unfold effectTime
  by_cases h : i.effect = effect <;> simp [List.filter_cons, h]

theorem Invocation_run_statics (s : SceneState K) (i : Invocation K) :
    (Invocation.run g m s i).spiralWiggle
        = s.spiralWiggle + (if i.effect = PostProcess.Spiral then 1 * i.frameTime else 0)
    ∧ (Invocation.run g m s i).hueWiggle
        = s.hueWiggle + (if i.effect = PostProcess.HLSGradient then 1 / 2 * i.frameTime else 0)
    ∧ (Invocation.run g m s i).waterWiggle
        = s.waterWiggle
          + (if i.effect = PostProcess.UnderWater then 1 / 2 * i.frameTime else 0) := by
  have h := PostProcessing_statics g m i.frameTime i.RenderTarget i.NextSRV
    { s with gCurrentPostProcess := i.effect }
  exact ⟨h.1, h.2.1, h.2.2.1⟩

theorem runInvocations_statics (calls : List (Invocation K)) :
    ∀ s : SceneState K,
      (runInvocations g m calls s).spiralWiggle
          = s.spiralWiggle + 1 * effectTime PostProcess.Spiral calls
      ∧ (runInvocations g m calls s).hueWiggle
          = s.hueWiggle + 1 / 2 * effectTime PostProcess.HLSGradient calls
      ∧ (runInvocations g m calls s).waterWiggle
          = s.waterWiggle + 1 / 2 * effectTime PostProcess.UnderWater calls := by
  induction calls with
  | nil => intro s; simp [runInvocations, effectTime]
  | cons i calls ih =>
    intro s
    have h := Invocation_run_statics g m s i
    have h2 := ih (Invocation.run g m s i)
    simp only [runInvocations, List.foldl_cons] at h2 ⊢
    rw [h2.1, h2.2.1, h2.2.2, h.1, h.2.1, h.2.2, effectTime_cons, effectTime_cons,
      effectTime_cons]
    refine ⟨?_, ?_, ?_⟩ <;> split_ifs <;> ring

theorem Invocation_run_lastDraw (s : SceneState K) (i : Invocation K) :
    (Invocation.run g m s i).lastDraw?
      = some
          { renderTarget := i.RenderTarget
            shaderResource := i.NextSRV
            vertexShader := VertexShader.gFullScreenQuadVertexShader
            pixelShader := i.effect.shader
            effect := i.effect
            constants := (Invocation.run g m s i).gPostProcessingConstants } := by
  have h := PostProcessing_trace g m i.frameTime i.RenderTarget i.NextSRV
    { s with gCurrentPostProcess := i.effect }
  unfold SceneState.lastDraw?
  unfold Invocation.run
  rw [h]
  simp

theorem Invocation_run_values (s : SceneState K) (i : Invocation K) :
    (Invocation.run g m s i).gPostProcessingConstants.hueShift
        = (if i.effect = PostProcess.HLSGradient then s.hueWiggle
           else s.gPostProcessingConstants.hueShift)
    ∧ (Invocation.run g m s i).gPostProcessingConstants.underWaterLevel
        = (if i.effect = PostProcess.UnderWater then s.waterWiggle
           else s.gPostProcessingConstants.underWaterLevel)
    ∧ (Invocation.run g m s i).gPostProcessingConstants.spiralLevel
        = (if i.effect = PostProcess.Spiral then (1 - m.cos s.spiralWiggle) * 4
           else s.gPostProcessingConstants.spiralLevel)
    ∧ (Invocation.run g m s i).gPostProcessingConstants.burnHeight
        = (if i.effect = PostProcess.Burn then
             fmod (s.gPostProcessingConstants.burnHeight + 2 / 10 * i.frameTime) 1
           else s.gPostProcessingConstants.burnHeight) := by
  have h := PostProcessing_values g m i.frameTime i.RenderTarget i.NextSRV
    { s with gCurrentPostProcess := i.effect }
  exact ⟨h.1, h.2.1, h.2.2.1, h.2.2.2.1⟩

theorem fmod_one_of_nonneg (x : K) (hx : 0 ≤ x) : fmod x 1 = Int.fract x := by
  unfold fmod
  rw [div_one, if_pos hx, one_mul]
  rfl

end ParameterLemmas

section EffectClaims

variable {K : Type} [LinearOrderedField K] [FloorRing K]

/-- C22: `RenderScene` leaves the effect list as it was, for every list; the stacked passes
and the final pass of the next frame are those of the same list, in the same order, the
same passes as in the frame before. -/
theorem C22_frame_keeps_effect_list (g : Globals) (m : CMath K) (frameTime nextFrameTime : K)
    (s : SceneState K) :
    (RenderScene g m frameTime s).postProcessEffectList = s.postProcessEffectList
    ∧ (framePasses g m nextFrameTime (RenderScene g m frameTime s)).drop 7
        = stackedPasses g 0 s.postProcessEffectList
          ++ [Step.fullScreen PostProcess.None PixelShader.gCopyPixelShader
                g.gBackBufferRenderTarget
                (g.shaderResourceView (stackedSource s.postProcessEffectList.length))]
    ∧ (framePasses g m nextFrameTime (RenderScene g m frameTime s)).drop 7
        = (framePasses g m frameTime s).drop 7 := by
  obtain ⟨_, _, _, _, _, _, _, -, -, -, -, -, -, -, -, -, -, hl⟩ :=
    RenderScene_windows g m frameTime s
  rw [framePasses_eq, framePasses_eq, hl]
  simp only [List.drop_succ_cons, List.drop_zero, and_self]

/-- C23: an application of the burn effect with frame time `dt ≥ 0` to a burn height `h ≥ 0`
leaves the burn height `(h + 0.2 dt) mod 1`, the fractional part of `h + 0.2 dt`, which is in
`[0, 1)`, and the draw is issued with it; six applications with `dt = 1` from `h = 0` give
the burn heights 1/5, 2/5, 3/5, 4/5, 0, 1/5. -/
theorem C23_burn_height_wraps (g : Globals) (m : CMath K) (RenderTarget NextSRV : Handle)
    (dt : K) (s : SceneState K) (hh : 0 ≤ s.gPostProcessingConstants.burnHeight)
    (hdt : 0 ≤ dt) :
    (Invocation.run g m s
        (Invocation.mk PostProcess.Burn dt RenderTarget NextSRV)).gPostProcessingConstants.burnHeight
        = Int.fract (s.gPostProcessingConstants.burnHeight + 2 / 10 * dt)
    ∧ 0 ≤ (Invocation.run g m s
        (Invocation.mk PostProcess.Burn dt RenderTarget NextSRV)).gPostProcessingConstants.burnHeight
    ∧ (Invocation.run g m s
        (Invocation.mk PostProcess.Burn dt RenderTarget NextSRV)).gPostProcessingConstants.burnHeight
        < 1
    ∧ (∃ d, (Invocation.run g m s
          (Invocation.mk PostProcess.Burn dt RenderTarget NextSRV)).lastDraw? = some d
        ∧ d.constants.burnHeight
            = Int.fract (s.gPostProcessingConstants.burnHeight + 2 / 10 * dt))
    ∧ burnHeights g m 1 (burnState m 0) 6 = [1 / 5, 2 / 5, 3 / 5, 4 / 5, 0, 1 / 5] := by
  have hv := (Invocation_run_values g m s
    (Invocation.mk PostProcess.Burn dt RenderTarget NextSRV)).2.2.2
  have hx : 0 ≤ s.gPostProcessingConstants.burnHeight + 2 / 10 * dt := by positivity
  simp only [if_true] at hv
  rw [fmod_one_of_nonneg _ hx] at hv
  refine ⟨hv, ?_, ?_, ?_, ?_⟩
  · rw [hv]; exact Int.fract_nonneg _
  · rw [hv]; exact Int.fract_lt_one _
  · exact ⟨_, Invocation_run_lastDraw g m s _, hv⟩
  · have step : ∀ (t : SceneState K) (rt srv : Handle),
        (Invocation.run g m t
          (Invocation.mk PostProcess.Burn 1 rt srv)).gPostProcessingConstants.burnHeight
          = fmod (t.gPostProcessingConstants.burnHeight + 2 / 10 * 1) 1 := by
      intro t rt srv
      have h := (Invocation_run_values g m t (Invocation.mk PostProcess.Burn 1 rt srv)).2.2.2
      simpa using h
    have f1 : fmod ((0 : K) + 2 / 10 * 1) 1 = 1 / 5 := by
      rw [fmod_one_of_nonneg _ (by norm_num), Int.fract_eq_iff]
      exact ⟨by norm_num, by norm_num, 0, by norm_num⟩
    have f2 : fmod ((1 / 5 : K) + 2 / 10 * 1) 1 = 2 / 5 := by
      rw [fmod_one_of_nonneg _ (by norm_num), Int.fract_eq_iff]
      exact ⟨by norm_num, by norm_num, 0, by norm_num⟩
    have f3 : fmod ((2 / 5 : K) + 2 / 10 * 1) 1 = 3 / 5 := by
      rw [fmod_one_of_nonneg _ (by norm_num), Int.fract_eq_iff]
      exact ⟨by norm_num, by norm_num, 0, by norm_num⟩
    have f4 : fmod ((3 / 5 : K) + 2 / 10 * 1) 1 = 4 / 5 := by
      rw [fmod_one_of_nonneg _ (by norm_num), Int.fract_eq_iff]
      exact ⟨by norm_num, by norm_num, 0, by norm_num⟩
    have f5 : fmod ((4 / 5 : K) + 2 / 10 * 1) 1 = 0 := by
      rw [fmod_one_of_nonneg _ (by norm_num), Int.fract_eq_iff]
      exact ⟨by norm_num, by norm_num, 1, by norm_num⟩
    have h0 : (burnState m (0 : K)).gPostProcessingConstants.burnHeight = 0 := rfl
    simp only [burnHeights, step, h0, f1, f2, f3, f4, f5]


/-- C24 (amended): nothing keeps the three phase accumulators of `PostProcessing` within a
bound. One application of an effect with frame time `dt` adds `1 dt` to the accumulator of
the spiral, `dt / 2` to that of the hue shift or `dt / 2` to that of the underwater level, if
it is the effect applied, and leaves the other accumulators as they are; with `dt ≥ 0` no
accumulator decreases. Applied once with the accumulators at their initial value 0, the
effect leaves `dt`, `dt / 2` and `dt / 2`; so for every bound `B` the single application
with the non-negative frame time `2 (|B| + 1)` leaves the accumulator above `B`. The spiral
accumulator of `PolygonPostProcess` grows by the frame time in every frame. -/
theorem C24_accumulators_not_bounded (g : Globals) (m : CMath K)
    (RenderTarget NextSRV : Handle) (effect : PostProcess) (dt frameTime : K)
    (s : SceneState K) :
    ((Invocation.run g m s (Invocation.mk effect dt RenderTarget NextSRV)).spiralWiggle
          = s.spiralWiggle + (if effect = PostProcess.Spiral then 1 * dt else 0)
      ∧ (Invocation.run g m s (Invocation.mk effect dt RenderTarget NextSRV)).hueWiggle
          = s.hueWiggle + (if effect = PostProcess.HLSGradient then 1 / 2 * dt else 0)
      ∧ (Invocation.run g m s (Invocation.mk effect dt RenderTarget NextSRV)).waterWiggle
          = s.waterWiggle + (if effect = PostProcess.UnderWater then 1 / 2 * dt else 0))
    ∧ (0 ≤ dt →
        s.spiralWiggle
          ≤ (Invocation.run g m s (Invocation.mk effect dt RenderTarget NextSRV)).spiralWiggle
        ∧ s.hueWiggle
          ≤ (Invocation.run g m s (Invocation.mk effect dt RenderTarget NextSRV)).hueWiggle
        ∧ s.waterWiggle
          ≤ (Invocation.run g m s (Invocation.mk effect dt RenderTarget NextSRV)).waterWiggle)
    ∧ ((Invocation.run g m { s with spiralWiggle := 0, hueWiggle := 0, waterWiggle := 0 }
          (Invocation.mk PostProcess.Spiral dt RenderTarget NextSRV)).spiralWiggle = dt
      ∧ (Invocation.run g m { s with spiralWiggle := 0, hueWiggle := 0, waterWiggle := 0 }
          (Invocation.mk PostProcess.HLSGradient dt RenderTarget NextSRV)).hueWiggle = dt / 2
      ∧ (Invocation.run g m { s with spiralWiggle := 0, hueWiggle := 0, waterWiggle := 0 }
          (Invocation.mk PostProcess.UnderWater dt RenderTarget NextSRV)).waterWiggle = dt / 2)
    ∧ (∀ B : K,
        0 ≤ 2 * (|B| + 1)
        ∧ B < (Invocation.run g m { s with spiralWiggle := 0, hueWiggle := 0, waterWiggle := 0 }
            (Invocation.mk PostProcess.Spiral (2 * (|B| + 1))
              RenderTarget NextSRV)).spiralWiggle
        ∧ B < (Invocation.run g m { s with spiralWiggle := 0, hueWiggle := 0, waterWiggle := 0 }
            (Invocation.mk PostProcess.HLSGradient (2 * (|B| + 1))
              RenderTarget NextSRV)).hueWiggle
        ∧ B < (Invocation.run g m { s with spiralWiggle := 0, hueWiggle := 0, waterWiggle := 0 }
            (Invocation.mk PostProcess.UnderWater (2 * (|B| + 1))
              RenderTarget NextSRV)).waterWiggle)
    ∧ (RenderScene g m frameTime s).polygonSpiralWiggle
        = s.polygonSpiralWiggle + 1 * frameTime := by
  have one : ∀ (t : K),
      (Invocation.run g m { s with spiralWiggle := 0, hueWiggle := 0, waterWiggle := 0 }
          (Invocation.mk PostProcess.Spiral t RenderTarget NextSRV)).spiralWiggle = t
      ∧ (Invocation.run g m { s with spiralWiggle := 0, hueWiggle := 0, waterWiggle := 0 }
          (Invocation.mk PostProcess.HLSGradient t RenderTarget NextSRV)).hueWiggle = t / 2
      ∧ (Invocation.run g m { s with spiralWiggle := 0, hueWiggle := 0, waterWiggle := 0 }
          (Invocation.mk PostProcess.UnderWater t RenderTarget NextSRV)).waterWiggle
          = t / 2 := by
    intro t
    refine ⟨?_, ?_, ?_⟩
    · rw [(Invocation_run_statics g m _ _).1]
      simp
    · rw [(Invocation_run_statics g m _ _).2.1]
      simp only [if_true, zero_add]
      ring
    · rw [(Invocation_run_statics g m _ _).2.2]
      simp only [if_true, zero_add]
      ring
  refine ⟨Invocation_run_statics g m s _, ?_, one dt, ?_, ?_⟩
  · intro h
    obtain ⟨h1, h2, h3⟩ :=
      Invocation_run_statics g m s (Invocation.mk effect dt RenderTarget NextSRV)
    rw [h1, h2, h3]
    simp only []
    refine ⟨?_, ?_, ?_⟩ <;> split_ifs <;> linarith
  · intro B
    have b0 := abs_nonneg B
    have b1 := le_abs_self B
    obtain ⟨h1, h2, h3⟩ := one (2 * (|B| + 1))
    rw [h1, h2, h3]
    refine ⟨?_, ?_, ?_, ?_⟩ <;> linarith
  · obtain ⟨_, _, _, _, _, _, _, -, -, -, -, -, -, -, h, -⟩ :=
      RenderScene_windows g m frameTime s
    exact h

/-- C25: the five draws of the windows in a frame are issued with the shaders of the HLS
gradient, the underwater effect, the retro effect, the spiral and the distortion, in this
order, the shaders passed to `PolygonPostProcess`. In the first three `gCurrentPostProcess` is
`None`, so no shader is chosen from it; in the last two it is `Spiral` and `Distort`, whose
shaders are the ones passed. -/
theorem C25_masked_pass_shader (g : Globals) (m : CMath K) (frameTime : K)
    (s : SceneState K) :
    ∃ (seed d1 d2 d3 d4 d5 : DrawCall K) (rest : List (Event K)),
      frameEvents g m frameTime s
        = Event.scene g.gSceneRenderTarget1 :: Event.draw seed :: Event.swap
            :: Event.draw d1 :: Event.draw d2 :: Event.draw d3 :: Event.draw d4
            :: Event.draw d5 :: Event.swap :: rest
      ∧ (d1.vertexShader = VertexShader.g2DPolygonVertexShader
          ∧ d2.vertexShader = VertexShader.g2DPolygonVertexShader
          ∧ d3.vertexShader = VertexShader.g2DPolygonVertexShader
          ∧ d4.vertexShader = VertexShader.g2DPolygonVertexShader
          ∧ d5.vertexShader = VertexShader.g2DPolygonVertexShader)
      ∧ (d1.pixelShader = PixelShader.gHLSGradientPostProcess
          ∧ d2.pixelShader = PixelShader.gUnderWaterPostProcess
          ∧ d3.pixelShader = PixelShader.gRetroPostProcess
          ∧ d4.pixelShader = PixelShader.gSpiralPostProcess
          ∧ d5.pixelShader = PixelShader.gDistortPostProcess)
      ∧ (d1.effect = PostProcess.None ∧ d2.effect = PostProcess.None
          ∧ d3.effect = PostProcess.None)
      ∧ (d4.effect = PostProcess.Spiral
          ∧ PostProcess.Spiral.shader = PixelShader.gSpiralPostProcess)
      ∧ (d5.effect = PostProcess.Distort
          ∧ PostProcess.Distort.shader = PixelShader.gDistortPostProcess) := by
  obtain ⟨seed, d1, d2, d3, d4, d5, rest, ht, hv, h1, h2, h3, h4, h5, -⟩ :=
    RenderScene_windows g m frameTime s
  refine ⟨seed, d1, d2, d3, d4, d5, rest, ?_, hv, ⟨h1.1, h2.1, h3.1, h4.1, h5.1⟩,
    ⟨h1.2.1, h2.2.1, h3.2⟩, ⟨h4.2.1, rfl⟩, ⟨h5.2.1, rfl⟩⟩
  unfold frameEvents
  rw [ht]
  exact List.drop_left _ _

/-- C26 (what the code does): in every frame the draws of the HLS-gradient window and of the
underwater window are issued while `gCurrentPostProcess` is `None`: the hue shift and the
underwater level they carry are the values the constants held when the frame began, not
values taken from the accumulators of `PolygonPostProcess`, and these two accumulators are
the same after the frame as before it. The spiral window carries the spiral level computed
from its accumulator, which the frame advances by the frame time, and the distortion window
carries the level 3/100. For the state before the first frame and a frame of one second the
HLS-gradient accumulator is 0 after the frame, not 1/2. -/
theorem C26_window_parameters (g : Globals) (m : CMath K) (frameTime : K)
    (s : SceneState K) :
    (∃ (seed d1 d2 d3 d4 d5 : DrawCall K) (rest : List (Event K)),
      frameEvents g m frameTime s
        = Event.scene g.gSceneRenderTarget1 :: Event.draw seed :: Event.swap
            :: Event.draw d1 :: Event.draw d2 :: Event.draw d3 :: Event.draw d4
            :: Event.draw d5 :: Event.swap :: rest
      ∧ (d1.pixelShader = PixelShader.gHLSGradientPostProcess
          ∧ d1.effect = PostProcess.None
          ∧ d1.constants.hueShift = s.gPostProcessingConstants.hueShift)
      ∧ (d2.pixelShader = PixelShader.gUnderWaterPostProcess
          ∧ d2.effect = PostProcess.None
          ∧ d2.constants.underWaterLevel = s.gPostProcessingConstants.underWaterLevel)
      ∧ (d4.pixelShader = PixelShader.gSpiralPostProcess
          ∧ d4.effect = PostProcess.Spiral
          ∧ d4.constants.spiralLevel = (1 - m.cos s.polygonSpiralWiggle) * 4)
      ∧ (d5.pixelShader = PixelShader.gDistortPostProcess
          ∧ d5.effect = PostProcess.Distort
          ∧ d5.constants.distortLevel = 3 / 100))
    ∧ (RenderScene g m frameTime s).polygonHueWiggle = s.polygonHueWiggle
    ∧ (RenderScene g m frameTime s).polygonWaterWiggle = s.polygonWaterWiggle
    ∧ (RenderScene g m frameTime s).polygonSpiralWiggle
        = s.polygonSpiralWiggle + 1 * frameTime
    ∧ (RenderScene exampleGlobals m 1 (exampleState m [])).polygonHueWiggle = 0
    ∧ (RenderScene exampleGlobals m 1 (exampleState m [])).polygonWaterWiggle = 0 := by
  obtain ⟨seed, d1, d2, d3, d4, d5, rest, ht, -, h1, h2, -, h4, h5, a, b, w, -⟩ :=
    RenderScene_windows g m frameTime s
  obtain ⟨_, _, _, _, _, _, _, -, -, -, -, -, -, -, -, b0, w0, -⟩ :=
    RenderScene_windows exampleGlobals m 1 (exampleState m [])
  refine ⟨⟨seed, d1, d2, d3, d4, d5, rest, ?_, h1, h2, h4, h5⟩, b, w, a, b0, w0⟩
  unfold frameEvents
  rw [ht]
  exact List.drop_left _ _

end EffectClaims

section PhaseClaims

/-- C29: after any invocations `calls` of `PostProcessing` made from the initial statics 0,
the next invocation of the HLS gradient draws with the hue shift `0.5 (t1 + ... + t(k-1))`,
that of the underwater effect with the underwater level `0.5 (t1 + ... + t(k-1))` and that
of the spiral with the spiral level `4 (1 - cos (t1 + ... + t(k-1)))`, where the `t` are the
frame times of the earlier invocations of the same effect: the frame time `t` of the
invocation itself does not enter, and the first invocation draws with 0. -/
theorem C29_parameter_from_phase_before_advance (g : Globals) (calls : List (Invocation ℝ))
    (t : ℝ) (RenderTarget NextSRV : Handle) (s : SceneState ℝ) :
    (∃ d, (Invocation.run g (CMath.mk Real.cos Real.sin Real.tan Real.pi)
            (runInvocations g (CMath.mk Real.cos Real.sin Real.tan Real.pi) calls
              { s with spiralWiggle := 0, hueWiggle := 0, waterWiggle := 0 })
            (Invocation.mk PostProcess.HLSGradient t RenderTarget NextSRV)).lastDraw? = some d
        ∧ d.effect = PostProcess.HLSGradient
        ∧ d.constants.hueShift = 1 / 2 * effectTime PostProcess.HLSGradient calls)
    ∧ (∃ d, (Invocation.run g (CMath.mk Real.cos Real.sin Real.tan Real.pi)
            (runInvocations g (CMath.mk Real.cos Real.sin Real.tan Real.pi) calls
              { s with spiralWiggle := 0, hueWiggle := 0, waterWiggle := 0 })
            (Invocation.mk PostProcess.UnderWater t RenderTarget NextSRV)).lastDraw? = some d
        ∧ d.effect = PostProcess.UnderWater
        ∧ d.constants.underWaterLevel = 1 / 2 * effectTime PostProcess.UnderWater calls)
    ∧ (∃ d, (Invocation.run g (CMath.mk Real.cos Real.sin Real.tan Real.pi)
            (runInvocations g (CMath.mk Real.cos Real.sin Real.tan Real.pi) calls
              { s with spiralWiggle := 0, hueWiggle := 0, waterWiggle := 0 })
            (Invocation.mk PostProcess.Spiral t RenderTarget NextSRV)).lastDraw? = some d
        ∧ d.effect = PostProcess.Spiral
        ∧ d.constants.spiralLevel
            = 4 * (1 - Real.cos (effectTime PostProcess.Spiral calls)))
    ∧ (∃ d, (Invocation.run g (CMath.mk Real.cos Real.sin Real.tan Real.pi)
            { s with spiralWiggle := 0, hueWiggle := 0, waterWiggle := 0 }
            (Invocation.mk PostProcess.HLSGradient t RenderTarget NextSRV)).lastDraw? = some d
        ∧ d.constants.hueShift = 0)
    ∧ (∃ d, (Invocation.run g (CMath.mk Real.cos Real.sin Real.tan Real.pi)
            { s with spiralWiggle := 0, hueWiggle := 0, waterWiggle := 0 }
            (Invocation.mk PostProcess.UnderWater t RenderTarget NextSRV)).lastDraw? = some d
        ∧ d.constants.underWaterLevel = 0)
    ∧ (∃ d, (Invocation.run g (CMath.mk Real.cos Real.sin Real.tan Real.pi)
            { s with spiralWiggle := 0, hueWiggle := 0, waterWiggle := 0 }
            (Invocation.mk PostProcess.Spiral t RenderTarget NextSRV)).lastDraw? = some d
        ∧ d.constants.spiralLevel = 0) := by
  obtain ⟨a1, a2, a3⟩ := runInvocations_statics g
    (CMath.mk Real.cos Real.sin Real.tan Real.pi) calls
    { s with spiralWiggle := 0, hueWiggle := 0, waterWiggle := 0 }
  simp only [zero_add, one_mul] at a1 a2 a3
  refine ⟨⟨_, Invocation_run_lastDraw _ _ _ _, rfl, ?_⟩,
    ⟨_, Invocation_run_lastDraw _ _ _ _, rfl, ?_⟩,
    ⟨_, Invocation_run_lastDraw _ _ _ _, rfl, ?_⟩,
    ⟨_, Invocation_run_lastDraw _ _ _ _, ?_⟩,
    ⟨_, Invocation_run_lastDraw _ _ _ _, ?_⟩,
    ⟨_, Invocation_run_lastDraw _ _ _ _, ?_⟩⟩
  · rw [(Invocation_run_values _ _ _ _).1, if_pos rfl, a2]
  · rw [(Invocation_run_values _ _ _ _).2.1, if_pos rfl, a3]
  · rw [(Invocation_run_values _ _ _ _).2.2.1, if_pos rfl, a1]
    ring
  · rw [(Invocation_run_values _ _ _ _).1, if_pos rfl]
  · rw [(Invocation_run_values _ _ _ _).2.1, if_pos rfl]
  · rw [(Invocation_run_values _ _ _ _).2.2.1, if_pos rfl]
    simp [Real.cos_zero]

/-- The claim C24 as stated fails. One application of 202 seconds, made in the state before
the first frame, leaves the accumulator of the spiral at 202 and those of the hue shift and of
the underwater level at 101. For no bound `B` do the three accumulators stay below `B` after
every sequence of applications with non-negative frame times: the single application with
frame time `2 (|B| + 1)` leaves each of them above `B`. -/
theorem C24_counterexample :
    ((Invocation.run exampleGlobals (CMath.mk Real.cos Real.sin Real.tan Real.pi)
          (exampleState (CMath.mk Real.cos Real.sin Real.tan Real.pi) [])
          (Invocation.mk PostProcess.Spiral 202 3 2)).spiralWiggle = 202
      ∧ (Invocation.run exampleGlobals (CMath.mk Real.cos Real.sin Real.tan Real.pi)
          (exampleState (CMath.mk Real.cos Real.sin Real.tan Real.pi) [])
          (Invocation.mk PostProcess.HLSGradient 202 3 2)).hueWiggle = 101
      ∧ (Invocation.run exampleGlobals (CMath.mk Real.cos Real.sin Real.tan Real.pi)
          (exampleState (CMath.mk Real.cos Real.sin Real.tan Real.pi) [])
          (Invocation.mk PostProcess.UnderWater 202 3 2)).waterWiggle = 101)
    ∧ (¬ ∃ B : ℝ, ∀ calls : List (Invocation ℝ), (∀ i ∈ calls, 0 ≤ i.frameTime) →
        (runInvocations exampleGlobals (CMath.mk Real.cos Real.sin Real.tan Real.pi) calls
          (exampleState (CMath.mk Real.cos Real.sin Real.tan Real.pi) [])).spiralWiggle ≤ B)
    ∧ (¬ ∃ B : ℝ, ∀ calls : List (Invocation ℝ), (∀ i ∈ calls, 0 ≤ i.frameTime) →
        (runInvocations exampleGlobals (CMath.mk Real.cos Real.sin Real.tan Real.pi) calls
          (exampleState (CMath.mk Real.cos Real.sin Real.tan Real.pi) [])).hueWiggle ≤ B)
    ∧ (¬ ∃ B : ℝ, ∀ calls : List (Invocation ℝ), (∀ i ∈ calls, 0 ≤ i.frameTime) →
        (runInvocations exampleGlobals (CMath.mk Real.cos Real.sin Real.tan Real.pi) calls
          (exampleState (CMath.mk Real.cos Real.sin Real.tan Real.pi) [])).waterWiggle ≤ B) := by
  have one : ∀ (e : PostProcess) (t : ℝ),
      (Invocation.run exampleGlobals (CMath.mk Real.cos Real.sin Real.tan Real.pi)
          (exampleState (CMath.mk Real.cos Real.sin Real.tan Real.pi) [])
          (Invocation.mk e t 3 2)).spiralWiggle
        = 0 + (if e = PostProcess.Spiral then 1 * t else 0)
      ∧ (Invocation.run exampleGlobals (CMath.mk Real.cos Real.sin Real.tan Real.pi)
          (exampleState (CMath.mk Real.cos Real.sin Real.tan Real.pi) [])
          (Invocation.mk e t 3 2)).hueWiggle
        = 0 + (if e = PostProcess.HLSGradient then 1 / 2 * t else 0)
      ∧ (Invocation.run exampleGlobals (CMath.mk Real.cos Real.sin Real.tan Real.pi)
          (exampleState (CMath.mk Real.cos Real.sin Real.tan Real.pi) [])
          (Invocation.mk e t 3 2)).waterWiggle
        = 0 + (if e = PostProcess.UnderWater then 1 / 2 * t else 0) :=
    fun e t => Invocation_run_statics exampleGlobals _ _ (Invocation.mk e t 3 2)
  have single : ∀ (e : PostProcess) (B : ℝ),
      ∀ i ∈ [Invocation.mk e (2 * (|B| + 1)) 3 2], (0 : ℝ) ≤ i.frameTime := by
    intro e B i hi
    rw [List.mem_singleton.mp hi]
    have := abs_nonneg B
    show (0 : ℝ) ≤ 2 * (|B| + 1)
    linarith
  refine ⟨⟨?_, ?_, ?_⟩, ?_, ?_, ?_⟩
  · rw [(one _ _).1]; norm_num
  · rw [(one _ _).2.1]; norm_num
  · rw [(one _ _).2.2]; norm_num
  · rintro ⟨B, hB⟩
    have h := hB _ (single PostProcess.Spiral B)
    have e : runInvocations exampleGlobals (CMath.mk Real.cos Real.sin Real.tan Real.pi)
        [Invocation.mk PostProcess.Spiral (2 * (|B| + 1)) 3 2]
        (exampleState (CMath.mk Real.cos Real.sin Real.tan Real.pi) [])
        = Invocation.run exampleGlobals (CMath.mk Real.cos Real.sin Real.tan Real.pi)
            (exampleState (CMath.mk Real.cos Real.sin Real.tan Real.pi) [])
            (Invocation.mk PostProcess.Spiral (2 * (|B| + 1)) 3 2) := rfl
    rw [e, (one _ _).1, if_pos rfl] at h
    have := abs_nonneg B
    have := le_abs_self B
    linarith
  · rintro ⟨B, hB⟩
    have h := hB _ (single PostProcess.HLSGradient B)
    have e : runInvocations exampleGlobals (CMath.mk Real.cos Real.sin Real.tan Real.pi)
        [Invocation.mk PostProcess.HLSGradient (2 * (|B| + 1)) 3 2]
        (exampleState (CMath.mk Real.cos Real.sin Real.tan Real.pi) [])
        = Invocation.run exampleGlobals (CMath.mk Real.cos Real.sin Real.tan Real.pi)
            (exampleState (CMath.mk Real.cos Real.sin Real.tan Real.pi) [])
            (Invocation.mk PostProcess.HLSGradient (2 * (|B| + 1)) 3 2) := rfl
    rw [e, (one _ _).2.1, if_pos rfl] at h
    have := abs_nonneg B
    have := le_abs_self B
    linarith
  · rintro ⟨B, hB⟩
    have h := hB _ (single PostProcess.UnderWater B)
    have e : runInvocations exampleGlobals (CMath.mk Real.cos Real.sin Real.tan Real.pi)
        [Invocation.mk PostProcess.UnderWater (2 * (|B| + 1)) 3 2]
        (exampleState (CMath.mk Real.cos Real.sin Real.tan Real.pi) [])
        = Invocation.run exampleGlobals (CMath.mk Real.cos Real.sin Real.tan Real.pi)
            (exampleState (CMath.mk Real.cos Real.sin Real.tan Real.pi) [])
            (Invocation.mk PostProcess.UnderWater (2 * (|B| + 1)) 3 2) := rfl
    rw [e, (one _ _).2.2, if_pos rfl] at h
    have := abs_nonneg B
    have := le_abs_self B
    linarith

end PhaseClaims

section EffectListClaims

variable {K : Type} [LinearOrderedField K] [FloorRing K]

theorem effectsSinceLastReset_reset (calls : List EffectListCall) :
    effectsSinceLastReset (calls ++ [EffectListCall.reset]) = [] := by
  simp [effectsSinceLastReset]

theorem effectsSinceLastReset_update (calls : List EffectListCall) (e : PostProcess) :
    effectsSinceLastReset (calls ++ [EffectListCall.update e])
      = effectsSinceLastReset calls ++ (if e = PostProcess.None then [] else [e]) := by
  simp only [effectsSinceLastReset, List.reverse_append, List.reverse_cons, List.reverse_nil,
    List.nil_append, List.singleton_append]
  rw [List.takeWhile_cons_of_pos (by simp)]
  simp only [List.reverse_cons, List.filterMap_append, List.filterMap_cons, List.filterMap_nil]
  split_ifs <;> simp

theorem effectsSinceLastReset_no_None (calls : List EffectListCall) :
    PostProcess.None ∉ effectsSinceLastReset calls := by
  intro h
  simp only [effectsSinceLastReset, List.mem_filterMap] at h
  obtain ⟨c, -, hc⟩ := h
  cases c with
  | update e =>
    by_cases he : e = PostProcess.None
    · simp [he] at hc
    · simp [he] at hc
  | reset => exact Option.noConfusion hc

theorem afterListCalls_list (calls : List EffectListCall) (s : SceneState K)
    (h : s.postProcessEffectList = []) :
    (s.afterListCalls calls).postProcessEffectList = effectsSinceLastReset calls := by
  induction calls using List.reverseRecOn with
  | nil => simpa [SceneState.afterListCalls, effectsSinceLastReset] using h
  | append_singleton calls c ih =>
    have hstep : s.afterListCalls (calls ++ [c]) = EffectListCall.apply (s.afterListCalls calls) c := by
      simp [SceneState.afterListCalls, List.foldl_append]
    rw [hstep]
    cases c with
    | update e =>
      rw [effectsSinceLastReset_update, ← ih]
      by_cases he : e = PostProcess.None
      · simp [EffectListCall.apply, UpdatePostProcessEffectsList, he]
      · simp [EffectListCall.apply, UpdatePostProcessEffectsList, he]
    | reset =>
      rw [effectsSinceLastReset_reset]
      simp [EffectListCall.apply, ResetPostProcessEffectsList]

/-- C21: after any sequence of calls of `UpdatePostProcessEffectsList` and
`ResetPostProcessEffectsList` made on an empty effect list, the list holds exactly the effects
other than `None` appended after the last reset, in the order of the calls; it never contains
`None`; one more append of `None` leaves the list and its length unchanged, one more append of
another effect puts it at the end, and a reset gives the empty list. -/
theorem C21_effect_list_contents (calls : List EffectListCall) (s : SceneState K) :
    (SceneState.afterListCalls calls { s with postProcessEffectList := [] }).postProcessEffectList
        = effectsSinceLastReset calls
    ∧ PostProcess.None ∉ (SceneState.afterListCalls calls
        { s with postProcessEffectList := [] }).postProcessEffectList
    ∧ (UpdatePostProcessEffectsList PostProcess.None (SceneState.afterListCalls calls
        { s with postProcessEffectList := [] })).postProcessEffectList
        = (SceneState.afterListCalls calls
            { s with postProcessEffectList := [] }).postProcessEffectList
    ∧ (∀ e, e ≠ PostProcess.None →
        (UpdatePostProcessEffectsList e (SceneState.afterListCalls calls
          { s with postProcessEffectList := [] })).postProcessEffectList
          = (SceneState.afterListCalls calls
              { s with postProcessEffectList := [] }).postProcessEffectList ++ [e])
    ∧ (ResetPostProcessEffectsList (SceneState.afterListCalls calls
        { s with postProcessEffectList := [] })).postProcessEffectList = [] := by
  have h := afterListCalls_list calls { s with postProcessEffectList := [] } rfl
  refine ⟨h, ?_, ?_, ?_, rfl⟩
  · rw [h]; exact effectsSinceLastReset_no_None calls
  · simp [UpdatePostProcessEffectsList]
  · intro e he
    simp [UpdatePostProcessEffectsList, he]

end EffectListClaims

section Vector2Claims

/-- C28: the unary minus of `CVector2` negates both components of the object it is applied
to and returns that object, so the value read from the result is the negated object, and a
second application to the object restores the original components. -/
theorem C28_unary_minus_negates_in_place {K : Type} [Field K] (v : CVector2 K) :
    (CVector2.operatorNeg v).2 = CVector2.mk (-v.x) (-v.y)
    ∧ (CVector2.operatorNeg v).1 = (CVector2.operatorNeg v).2
    ∧ (CVector2.operatorNeg (CVector2.operatorNeg v).2).2 = v := by
  refine ⟨rfl, rfl, ?_⟩
  cases v
  simp [CVector2.operatorNeg]

/-- C27: with a helper `IsZero` that treats 0 as zero and a helper `InvSqrt` that returns the
positive inverse square root of a positive number, `Normalise v` is `v` scaled by the positive
factor `InvSqrt (v.x² + v.y²)`, whose square times the squared length is 1 (so the factor is
1/|v|), and has unit length, when the squared length of `v` is not treated as zero; it is
`(0, 0)` when the squared length is treated as zero. -/
theorem C27_normalise_unit_length {K : Type} [LinearOrderedField K]
    (IsZero : K → Bool) (InvSqrt : K → K) (hzero : IsZero 0 = true)
    (hinv : ∀ x, 0 < x → 0 < InvSqrt x ∧ InvSqrt x * InvSqrt x * x = 1) (v : CVector2 K) :
    (IsZero (v.x * v.x + v.y * v.y) = false →
      Normalise IsZero InvSqrt v
          = CVector2.mk (v.x * InvSqrt (v.x * v.x + v.y * v.y))
              (v.y * InvSqrt (v.x * v.x + v.y * v.y))
        ∧ 0 < InvSqrt (v.x * v.x + v.y * v.y)
        ∧ InvSqrt (v.x * v.x + v.y * v.y) * InvSqrt (v.x * v.x + v.y * v.y)
            * (v.x * v.x + v.y * v.y) = 1
        ∧ Dot (Normalise IsZero InvSqrt v) (Normalise IsZero InvSqrt v) = 1)
    ∧ (IsZero (v.x * v.x + v.y * v.y) = true →
        Normalise IsZero InvSqrt v = CVector2.mk 0 0) := by
  constructor
  · intro hz
    have hne : v.x * v.x + v.y * v.y ≠ 0 := by
      intro h0
      rw [h0, hzero] at hz
      exact Bool.noConfusion hz
    have hpos : 0 < v.x * v.x + v.y * v.y :=
      lt_of_le_of_ne (add_nonneg (mul_self_nonneg _) (mul_self_nonneg _)) (Ne.symm hne)
    obtain ⟨hk, hk2⟩ := hinv _ hpos
    have hN : Normalise IsZero InvSqrt v
          = CVector2.mk (v.x * InvSqrt (v.x * v.x + v.y * v.y))
              (v.y * InvSqrt (v.x * v.x + v.y * v.y)) := by
      simp [Normalise, hz]
    refine ⟨hN, hk, hk2, ?_⟩
    rw [hN]
    simp only [Dot]
    linear_combination hk2
  · intro hz
    simp [Normalise, hz]

end Vector2Claims

section Witnesses

/-- The hypotheses of C23 hold for the burn height 4/5 and the frame time 1: the application
leaves the fractional part of `4/5 + 0.2`. -/
theorem C23_burn_height_wraps_witness :
    (0 : ℝ) ≤ (burnState (CMath.mk Real.cos Real.sin Real.tan Real.pi)
        (4 / 5)).gPostProcessingConstants.burnHeight
    ∧ (Invocation.run exampleGlobals (CMath.mk Real.cos Real.sin Real.tan Real.pi)
        (burnState (CMath.mk Real.cos Real.sin Real.tan Real.pi) (4 / 5))
        (Invocation.mk PostProcess.Burn 1 3 2)).gPostProcessingConstants.burnHeight
      = Int.fract ((burnState (CMath.mk Real.cos Real.sin Real.tan Real.pi)
          (4 / 5)).gPostProcessingConstants.burnHeight + 2 / 10 * 1) :=
  ⟨by show (0 : ℝ) ≤ 4 / 5; norm_num,
    (C23_burn_height_wraps exampleGlobals (CMath.mk Real.cos Real.sin Real.tan Real.pi) 3 2 1
      (burnState (CMath.mk Real.cos Real.sin Real.tan Real.pi) (4 / 5))
      (by show (0 : ℝ) ≤ 4 / 5; norm_num) zero_le_one).1⟩

/-- The hypotheses of C27 hold over the reals for the helper `IsZero` that compares the
absolute value with 1/1000 and the helper `InvSqrt` that returns `1 / √x`; with them the
vector `(3, 4)` is normalised to unit length and the zero vector gives `(0, 0)`. -/
theorem C27_normalise_unit_length_witness :
    Dot (Normalise (fun x : ℝ => decide (|x| < 1 / 1000)) (fun x => 1 / Real.sqrt x)
          (CVector2.mk 3 4))
        (Normalise (fun x : ℝ => decide (|x| < 1 / 1000)) (fun x => 1 / Real.sqrt x)
          (CVector2.mk 3 4)) = 1
    ∧ Normalise (fun x : ℝ => decide (|x| < 1 / 1000)) (fun x => 1 / Real.sqrt x)
        (CVector2.mk 0 0) = CVector2.mk 0 0 :=
  have hzero : (fun x : ℝ => decide (|x| < 1 / 1000)) 0 = true := by simp
  have hinv : ∀ x : ℝ, 0 < x →
      0 < (fun x => 1 / Real.sqrt x) x
      ∧ (fun x => 1 / Real.sqrt x) x * (fun x => 1 / Real.sqrt x) x * x = 1 := by
    intro x hx
    have hs : 0 < Real.sqrt x := Real.sqrt_pos.mpr hx
    refine ⟨by positivity, ?_⟩
    show 1 / Real.sqrt x * (1 / Real.sqrt x) * x = 1
    field_simp
  ⟨((C27_normalise_unit_length _ _ hzero hinv (CVector2.mk 3 4)).1
      (by simp; norm_num)).2.2.2,
    (C27_normalise_unit_length _ _ hzero hinv (CVector2.mk 0 0)).2 (by simp)⟩

end Witnesses

end DirectXPostProcessing
